import Mathlib

/-!
# go-chrome: command wrappers, event wrappers, error taxonomy and tab creation

A shallow embedding of the Go sources

* `errors/errors.go`            (namespace `GoChrome.errors`)
* `chrome.profiler.go`          (namespace `GoChrome.Profiler`)
* `protocol/chrome.network.go`  (namespace `GoChrome.Network`)
* `tab.go`                      (namespace `GoChrome.Browser`, `GoChrome.Tab`)

Conventions.

* A Go call that may panic returns `Except String α`; `.error msg` is the panic.
* A Go `map[string]string` is `GoMap`; `none` is the nil map.
* A Go `error` interface value is `error`; `error.nil` is the nil interface.
* Code that talks to the outside (the socket, `encoding/json`, the logger, the
  browser's HTTP endpoint) is a state transformer over an abstract state, so
  that each call made by the embedded code is visible in the final state.
-/

namespace GoChrome

/-! ## Go runtime values -/

/-- Go `map[string]string`. The nil map is `none`; a made map is `some` of its
entries (at most one entry per key is kept by `GoMap.set`). -/
abbrev GoMap := Option (List (String × String))

/-- Go `m[k]` as an rvalue: the stored value, or the zero value `""` when the key
is missing or the map is nil. -/
def GoMap.get (m : GoMap) (k : String) : String :=
  match m with
  | none => ""
  | some kvs => (kvs.lookup k).getD ""

/-- Go `m[k] = v`: panics on the nil map, otherwise replaces the entry of `k`. -/
def GoMap.set (m : GoMap) (k v : String) : Except String GoMap :=
  match m with
  | none => .error "assignment to entry in nil map"
  | some kvs => .ok (some ((k, v) :: kvs.filter (fun kv => kv.1 != k)))

/-- Go `[]byte`. -/
abbrev Bytes := List Nat

/-! ## errors/errors.go -/

namespace errors

/-- The three error kinds of the package: `SocketReadFailed`, `SocketWriteFailed`
and `SocketErrorResponse`, each declared as `struct{ Type }`. -/
inductive Kind where
  | SocketReadFailed
  | SocketWriteFailed
  | SocketErrorResponse
  deriving DecidableEq, Repr

end errors

/-- A value of Go's `error` interface: nil, an error coming from outside the
package (known by the text its `Error()` returns), or one of the three kinds of
package `errors`, which embeds the fields `Caller`, `Err`, `Msg` of `Type`. -/
inductive error where
  | nil
  | foreign (text : String)
  | typed (kind : errors.Kind) (Caller : GoMap) (Err : error) (Msg : String)
  deriving DecidableEq, Repr

namespace errors

/-- The struct `Type` of errors.go (`Type` is reserved in Lean). -/
structure ErrType where
  Caller : GoMap
  Err : error
  Msg : String
  deriving DecidableEq, Repr

/-- The text built by the two `fmt.Sprintf` calls of `Type.Error`:
`"%s:%s:%s - %s"` over the caller entries and the message, then `"%s; %s"` over
that and the text of the cause. -/
def sprintfError (Caller : GoMap) (Msg cause : String) : String :=
  let msg := Caller.get "pc" ++ ":" ++ Caller.get "file" ++ ":" ++ Caller.get "line" ++ " - " ++ Msg
  msg ++ "; " ++ cause

end errors

/-- The method `Error()` called on an `error` interface value. Calling it on the
nil interface is a nil dereference. For the three kinds of package `errors` it
is the promoted method `Type.Error`, which calls `err.Err.Error()`. An error
from outside the package is taken to render its text (an `Error()` method of
foreign code that itself panics is not represented). -/
def error.Error : error → Except String String
  | .nil => .error "runtime error: invalid memory address or nil pointer dereference"
  | .foreign text => .ok text
  | .typed _ Caller Err Msg =>
      match Err.Error with
      | .ok cause => .ok (errors.sprintfError Caller Msg cause)
      | .error p => .error p

namespace errors

/-- The method `func (err Type) Error() string`. -/
def ErrType.Error (err : ErrType) : Except String String :=
  match err.Err.Error with
  | .ok cause => .ok (sprintfError err.Caller err.Msg cause)
  | .error p => .error p

/-- The composite literal `SocketReadFailed{Type{...}}` as an `error`. -/
def SocketReadFailed (t : ErrType) : error := .typed .SocketReadFailed t.Caller t.Err t.Msg

/-- The composite literal `SocketWriteFailed{Type{...}}` as an `error`. -/
def SocketWriteFailed (t : ErrType) : error := .typed .SocketWriteFailed t.Caller t.Err t.Msg

/-- The composite literal `SocketErrorResponse{Type{...}}` as an `error`. -/
def SocketErrorResponse (t : ErrType) : error := .typed .SocketErrorResponse t.Caller t.Err t.Msg

/-- The value of kind `k` built from `t`. -/
def ofKind (k : Kind) (t : ErrType) : error :=
  match k with
  | .SocketReadFailed => SocketReadFailed t
  | .SocketWriteFailed => SocketWriteFailed t
  | .SocketErrorResponse => SocketErrorResponse t

/-- One frame as reported by `runtime.Caller`: program counter, file, line. -/
structure Frame where
  pc : Nat
  file : String
  line : Int
  deriving DecidableEq, Repr

/-- The Go runtime as seen from inside `GetCaller`: `Caller a` is
`runtime.Caller(a)` (`none` when `ok` is false) and `FuncName pc` is
`runtime.FuncForPC(pc).Name()`. -/
structure Runtime where
  Caller : Nat → Option Frame
  FuncName : Nat → String

/-- Go `path.Base` on the characters of a path, after the empty-path case:
strip trailing slashes, keep what follows the last slash. -/
def baseChars (p : List Char) : List Char :=
  ((p.reverse.dropWhile (fun c => c == '/')).takeWhile (fun c => c != '/')).reverse

/-- Go `path.Base`. -/
def pathBase (p : String) : String :=
  if p = "" then "."
  else
    let b := baseChars p.data
    if b = [] then "/" else String.mk b

/-- Go `strconv.Itoa`. -/
def Itoa (n : Int) : String := toString n

/-- The `for` loop of `GetCaller`, entered with the current `caller` map and
probe depth `a`. -/
def GetCaller.loop (rt : Runtime) (caller : GoMap) (a : Nat) : Except String GoMap :=
  match rt.Caller a with
  | some fr =>
      match caller.set "file" (pathBase fr.file) with
      | .error p => .error p
      | .ok c1 =>
        match c1.set "line" (Itoa fr.line) with
        | .error p => .error p
        | .ok c2 =>
          match c2.set "pc" (rt.FuncName fr.pc) with
          | .error p => .error p
          | .ok c3 => .ok c3
  | none =>
      if a + 1 > 100 then .ok caller else GetCaller.loop rt caller (a + 1)
termination_by 101 - a

/-- The function `GetCaller`: `var caller map[string]string` is the nil map and
`a := 1`. -/
def GetCaller (rt : Runtime) : Except String GoMap :=
  GetCaller.loop rt none 1

end errors

/-! ## The socket package, as seen by the wrappers

The wrappers of chrome.profiler.go and protocol/chrome.network.go call into the
socket package (`Socket`, `Command`, `NewEventHandler`), into `encoding/json`
and into the logger. None of these is part of the sources embedded here, so
they are parameters: a `Socket σ ω P` is any implementation of the two methods
the wrappers call, acting on a dispatcher state `σ`; payloads (`interface` values
held in a command) are values of an arbitrary type `P`; handlers run later, on a
state `ω`. -/

/-- Modelled from the spec: the struct `Command` of the socket package, whose
declaration is outside the given sources: identifier, method name, parameters
(may be absent), result (populated on success), error (populated on failure).
The defaults are the zero values a Go composite literal leaves in the fields it
does not mention. -/
structure Command (P : Type) where
  ID : Nat := 0
  Method : String := ""
  Params : Option P := none
  Result : Option P := none
  Err : error := error.nil

/-- Modelled from the spec: an event handler, "a method name plus a callback
capability invoked with the raw event payload". The callback has the Go type
`func(name string, params []byte)`. -/
structure EventHandler (ω : Type) where
  Name : String
  Callback : String → Bytes → StateM ω Unit

/-- Modelled from the spec: the constructor `NewEventHandler(name, callback)` of
the socket package, which pairs the name with the callback. -/
def NewEventHandler {ω : Type} (name : String) (callback : String → Bytes → StateM ω Unit) :
    EventHandler ω :=
  { Name := name, Callback := callback }

/-- The two methods of `*Socket` that the wrappers call. `SendCommand` receives
the command through a pointer and completes it in place: here it returns the
completed command. -/
structure Socket (σ ω P : Type) where
  SendCommand : Command P → StateM σ (Command P)
  AddEventHandler : EventHandler ω → StateM σ Unit

/-- The result type of a result-returning wrapper (declared in the packages
`profiler` and `network`, outside the given sources): its zero value `T{}`, and
`json.Marshal` on a payload and `json.Unmarshal` into a value of the type.
`Unmarshal data v` returns the target after decoding (which Go may have
written to even when it reports an error) and the error. Both calls act on the
state, so that a call that is made can be told from one that is not. -/
structure ResultType (σ P R : Type) where
  zero : R
  Marshal : P → StateM σ (Bytes × error)
  Unmarshal : Bytes → R → StateM σ (R × error)

/-- The event type of an event wrapper (declared outside the given sources): its
zero value, `json.Unmarshal` into it, and the logger call `log.Error`. -/
structure EventType (ω E : Type) where
  zero : E
  Unmarshal : Bytes → E → StateM ω (E × error)
  logError : error → StateM ω Unit

variable {σ ω P R E : Type}

/-! ## chrome.profiler.go -/

namespace Profiler

/-- The method `Disable` of `Profiler`.
https://chromedevtools.github.io/devtools-protocol/tot/Profiler/#method-disable -/
def Disable (socket : Socket σ ω P) : StateM σ error := do
  let command : Command P := { Method := "Profiler.disable" }
  let command ← socket.SendCommand command
  return command.Err

/-- The method `Enable` of `Profiler`.
https://chromedevtools.github.io/devtools-protocol/tot/Profiler/#method-enable -/
def Enable (socket : Socket σ ω P) : StateM σ error := do
  let command : Command P := { Method := "Profiler.enable" }
  let command ← socket.SendCommand command
  return command.Err

/-- The method `GetBestEffortCoverage` of `Profiler`; `T` is its result type `profiler.GetBestEffortCoverageResult`.
https://chromedevtools.github.io/devtools-protocol/tot/Profiler/#method-getBestEffortCoverage -/
def GetBestEffortCoverage (socket : Socket σ ω P) (T : ResultType σ P R) :
    StateM σ (R × error) := do
  let command : Command P := { Method := "Profiler.getBestEffortCoverage" }
  let result := T.zero
  let command ← socket.SendCommand command
  if error.nil ≠ command.Err then
    return (result, command.Err)
  match command.Result with
  | some payload =>
    let (resultData, err) ← T.Marshal payload
    if error.nil ≠ err then
      return (result, err)
    let (result, err) ← T.Unmarshal resultData result
    if error.nil ≠ err then
      return (result, err)
    return (result, command.Err)
  | none =>
    return (result, command.Err)

/-- The method `SetSamplingInterval` of `Profiler`.
https://chromedevtools.github.io/devtools-protocol/tot/Profiler/#method-setSamplingInterval -/
def SetSamplingInterval (socket : Socket σ ω P) (params : P) : StateM σ error := do
  let command : Command P := { Method := "Profiler.setSamplingInterval", Params := some params }
  let command ← socket.SendCommand command
  return command.Err

/-- The method `Start` of `Profiler`.
https://chromedevtools.github.io/devtools-protocol/tot/Profiler/#method-start -/
def Start (socket : Socket σ ω P) : StateM σ error := do
  let command : Command P := { Method := "Profiler.start" }
  let command ← socket.SendCommand command
  return command.Err

/-- The method `StartPreciseCoverage` of `Profiler`.
https://chromedevtools.github.io/devtools-protocol/tot/Profiler/#method-startPreciseCoverage -/
def StartPreciseCoverage (socket : Socket σ ω P) (params : P) : StateM σ error := do
  let command : Command P := { Method := "Profiler.startPreciseCoverage", Params := some params }
  let command ← socket.SendCommand command
  return command.Err

/-- The method `StartTypeProfile` of `Profiler`.
https://chromedevtools.github.io/devtools-protocol/tot/Profiler/#method-startTypeProfile -/
def StartTypeProfile (socket : Socket σ ω P) : StateM σ error := do
  let command : Command P := { Method := "Profiler.startTypeProfile" }
  let command ← socket.SendCommand command
  return command.Err

/-- The method `Stop` of `Profiler`; `T` is its result type `profiler.StopResult`.
https://chromedevtools.github.io/devtools-protocol/tot/Profiler/#method-stop -/
def Stop (socket : Socket σ ω P) (T : ResultType σ P R) :
    StateM σ (R × error) := do
  let command : Command P := { Method := "Profiler.stop" }
  let result := T.zero
  let command ← socket.SendCommand command
  if error.nil ≠ command.Err then
    return (result, command.Err)
  match command.Result with
  | some payload =>
    let (resultData, err) ← T.Marshal payload
    if error.nil ≠ err then
      return (result, err)
    let (result, err) ← T.Unmarshal resultData result
    if error.nil ≠ err then
      return (result, err)
    return (result, command.Err)
  | none =>
    return (result, command.Err)

/-- The method `StopPreciseCoverage` of `Profiler`.
https://chromedevtools.github.io/devtools-protocol/tot/Profiler/#method-stopPreciseCoverage -/
def StopPreciseCoverage (socket : Socket σ ω P) : StateM σ error := do
  let command : Command P := { Method := "Profiler.stopPreciseCoverage" }
  let command ← socket.SendCommand command
  return command.Err

/-- The method `StopTypeProfile` of `Profiler`.
https://chromedevtools.github.io/devtools-protocol/tot/Profiler/#method-stopTypeProfile -/
def StopTypeProfile (socket : Socket σ ω P) : StateM σ error := do
  let command : Command P := { Method := "Profiler.stopTypeProfile" }
  let command ← socket.SendCommand command
  return command.Err

/-- The method `TakePreciseCoverage` of `Profiler`; `T` is its result type `profiler.TakePreciseCoverageResult`.
https://chromedevtools.github.io/devtools-protocol/tot/Profiler/#method-takePreciseCoverage -/
def TakePreciseCoverage (socket : Socket σ ω P) (T : ResultType σ P R) :
    StateM σ (R × error) := do
  let command : Command P := { Method := "Profiler.takePreciseCoverage" }
  let result := T.zero
  let command ← socket.SendCommand command
  if error.nil ≠ command.Err then
    return (result, command.Err)
  match command.Result with
  | some payload =>
    let (resultData, err) ← T.Marshal payload
    if error.nil ≠ err then
      return (result, err)
    let (result, err) ← T.Unmarshal resultData result
    if error.nil ≠ err then
      return (result, err)
    return (result, command.Err)
  | none =>
    return (result, command.Err)

/-- The method `TakeTypeProfile` of `Profiler`; `T` is its result type `profiler.TakeTypeProfileResult`.
https://chromedevtools.github.io/devtools-protocol/tot/Profiler/#method-takeTypeProfile -/
def TakeTypeProfile (socket : Socket σ ω P) (T : ResultType σ P R) :
    StateM σ (R × error) := do
  let command : Command P := { Method := "Profiler.takeTypeProfile" }
  let result := T.zero
  let command ← socket.SendCommand command
  if error.nil ≠ command.Err then
    return (result, command.Err)
  match command.Result with
  | some payload =>
    let (resultData, err) ← T.Marshal payload
    if error.nil ≠ err then
      return (result, err)
    let (result, err) ← T.Unmarshal resultData result
    if error.nil ≠ err then
      return (result, err)
    return (result, command.Err)
  | none =>
    return (result, command.Err)

/-- The method `OnConsoleProfileFinished` of `Profiler`: registers a handler that decodes the raw
payload into a fresh event and, when that succeeds, calls `callback`.
https://chromedevtools.github.io/devtools-protocol/tot/Profiler/#event-consoleProfileFinished -/
def OnConsoleProfileFinished (socket : Socket σ ω P) (T : EventType ω E) (callback : E → StateM ω Unit) :
    StateM σ Unit := do
  let handler := NewEventHandler "Profiler.consoleProfileFinished" (fun _name params => do
    let event := T.zero
    let (event, err) ← T.Unmarshal params event
    if err ≠ error.nil then
      T.logError err
    else
      callback event)
  socket.AddEventHandler handler

/-- The method `OnConsoleProfileStarted` of `Profiler`: registers a handler that decodes the raw
payload into a fresh event and, when that succeeds, calls `callback`.
https://chromedevtools.github.io/devtools-protocol/tot/Profiler/#event-consoleProfileStarted -/
def OnConsoleProfileStarted (socket : Socket σ ω P) (T : EventType ω E) (callback : E → StateM ω Unit) :
    StateM σ Unit := do
  let handler := NewEventHandler "Profiler.consoleProfileStarted" (fun _name params => do
    let event := T.zero
    let (event, err) ← T.Unmarshal params event
    if err ≠ error.nil then
      T.logError err
    else
      callback event)
  socket.AddEventHandler handler

end Profiler

/-! ## protocol/chrome.network.go -/

namespace Network

/-- The method `CanClearBrowserCache` of `Network`; `T` is its result type `network.CanClearBrowserCacheResult`.
https://chromedevtools.github.io/devtools-protocol/tot/Network/#method-canClearBrowserCache -/
def CanClearBrowserCache (socket : Socket σ ω P) (T : ResultType σ P R) :
    StateM σ (R × error) := do
  let command : Command P := { Method := "Network.canClearBrowserCache" }
  let result := T.zero
  let command ← socket.SendCommand command
  if error.nil ≠ command.Err then
    return (result, command.Err)
  match command.Result with
  | some payload =>
    let (resultData, err) ← T.Marshal payload
    if error.nil ≠ err then
      return (result, err)
    let (result, err) ← T.Unmarshal resultData result
    if error.nil ≠ err then
      return (result, err)
    return (result, command.Err)
  | none =>
    return (result, command.Err)

/-- The method `CanClearBrowserCookies` of `Network`; `T` is its result type `network.CanClearBrowserCookiesResult`.
https://chromedevtools.github.io/devtools-protocol/tot/Network/#method-canClearBrowserCookies -/
def CanClearBrowserCookies (socket : Socket σ ω P) (T : ResultType σ P R) :
    StateM σ (R × error) := do
  let command : Command P := { Method := "Network.canClearBrowserCookies" }
  let result := T.zero
  let command ← socket.SendCommand command
  if error.nil ≠ command.Err then
    return (result, command.Err)
  match command.Result with
  | some payload =>
    let (resultData, err) ← T.Marshal payload
    if error.nil ≠ err then
      return (result, err)
    let (result, err) ← T.Unmarshal resultData result
    if error.nil ≠ err then
      return (result, err)
    return (result, command.Err)
  | none =>
    return (result, command.Err)

/-- The method `CanEmulateConditions` of `Network`; `T` is its result type `network.CanEmulateConditionsResult`.
https://chromedevtools.github.io/devtools-protocol/tot/Network/#method-canEmulateNetworkConditions -/
def CanEmulateConditions (socket : Socket σ ω P) (T : ResultType σ P R) :
    StateM σ (R × error) := do
  let command : Command P := { Method := "Network.canEmulateNetworkConditions" }
  let result := T.zero
  let command ← socket.SendCommand command
  if error.nil ≠ command.Err then
    return (result, command.Err)
  match command.Result with
  | some payload =>
    let (resultData, err) ← T.Marshal payload
    if error.nil ≠ err then
      return (result, err)
    let (result, err) ← T.Unmarshal resultData result
    if error.nil ≠ err then
      return (result, err)
    return (result, command.Err)
  | none =>
    return (result, command.Err)

/-- The method `ClearBrowserCache` of `Network`.
https://chromedevtools.github.io/devtools-protocol/tot/Network/#method-clearBrowserCache -/
def ClearBrowserCache (socket : Socket σ ω P) : StateM σ error := do
  let command : Command P := { Method := "Network.clearBrowserCache" }
  let command ← socket.SendCommand command
  return command.Err

/-- The method `ClearBrowserCookies` of `Network`.
https://chromedevtools.github.io/devtools-protocol/tot/Network/#method-clearBrowserCookies -/
def ClearBrowserCookies (socket : Socket σ ω P) : StateM σ error := do
  let command : Command P := { Method := "Network.clearBrowserCookies" }
  let command ← socket.SendCommand command
  return command.Err

/-- The method `ContinueInterceptedRequest` of `Network`.
https://chromedevtools.github.io/devtools-protocol/tot/Network/#method-continueInterceptedRequest -/
def ContinueInterceptedRequest (socket : Socket σ ω P) (params : P) : StateM σ error := do
  let command : Command P := { Method := "Network.continueInterceptedRequest", Params := some params }
  let command ← socket.SendCommand command
  return command.Err

/-- The method `DeleteCookies` of `Network`.
https://chromedevtools.github.io/devtools-protocol/tot/Network/#method-deleteCookies -/
def DeleteCookies (socket : Socket σ ω P) (params : P) : StateM σ error := do
  let command : Command P := { Method := "Network.deleteCookies", Params := some params }
  let command ← socket.SendCommand command
  return command.Err

/-- The method `Disable` of `Network`.
https://chromedevtools.github.io/devtools-protocol/tot/Network/#method-disable -/
def Disable (socket : Socket σ ω P) : StateM σ error := do
  let command : Command P := { Method := "Network.disable" }
  let command ← socket.SendCommand command
  return command.Err

/-- The method `EmulateConditions` of `Network`.
https://chromedevtools.github.io/devtools-protocol/tot/Network/#method-emulateNetworkConditions -/
def EmulateConditions (socket : Socket σ ω P) (params : P) : StateM σ error := do
  let command : Command P := { Method := "Network.emulateNetworkConditions", Params := some params }
  let command ← socket.SendCommand command
  return command.Err

/-- The method `Enable` of `Network`.
https://chromedevtools.github.io/devtools-protocol/tot/Network/#method-enable -/
def Enable (socket : Socket σ ω P) (params : P) : StateM σ error := do
  let command : Command P := { Method := "Network.enable", Params := some params }
  let command ← socket.SendCommand command
  return command.Err

/-- The method `GetAllCookies` of `Network`; `T` is its result type `network.GetAllCookiesResult`.
https://chromedevtools.github.io/devtools-protocol/tot/Network/#method-getAllCookies -/
def GetAllCookies (socket : Socket σ ω P) (T : ResultType σ P R) :
    StateM σ (R × error) := do
  let command : Command P := { Method := "Network.getAllCookies" }
  let result := T.zero
  let command ← socket.SendCommand command
  if error.nil ≠ command.Err then
    return (result, command.Err)
  match command.Result with
  | some payload =>
    let (resultData, err) ← T.Marshal payload
    if error.nil ≠ err then
      return (result, err)
    let (result, err) ← T.Unmarshal resultData result
    if error.nil ≠ err then
      return (result, err)
    return (result, command.Err)
  | none =>
    return (result, command.Err)

/-- The method `GetCertificate` of `Network`; `T` is its result type `network.GetCertificateResult`.
https://chromedevtools.github.io/devtools-protocol/tot/Network/#method-getCertificate -/
def GetCertificate (socket : Socket σ ω P) (params : P) (T : ResultType σ P R) :
    StateM σ (R × error) := do
  let command : Command P := { Method := "Network.getCertificate", Params := some params }
  let result := T.zero
  let command ← socket.SendCommand command
  if error.nil ≠ command.Err then
    return (result, command.Err)
  match command.Result with
  | some payload =>
    let (resultData, err) ← T.Marshal payload
    if error.nil ≠ err then
      return (result, err)
    let (result, err) ← T.Unmarshal resultData result
    if error.nil ≠ err then
      return (result, err)
    return (result, command.Err)
  | none =>
    return (result, command.Err)

/-- The method `GetCookies` of `Network`; `T` is its result type `network.GetCookiesResult`.
https://chromedevtools.github.io/devtools-protocol/tot/Network/#method-getCookies -/
def GetCookies (socket : Socket σ ω P) (params : P) (T : ResultType σ P R) :
    StateM σ (R × error) := do
  let command : Command P := { Method := "Network.getCookies", Params := some params }
  let result := T.zero
  let command ← socket.SendCommand command
  if error.nil ≠ command.Err then
    return (result, command.Err)
  match command.Result with
  | some payload =>
    let (resultData, err) ← T.Marshal payload
    if error.nil ≠ err then
      return (result, err)
    let (result, err) ← T.Unmarshal resultData result
    if error.nil ≠ err then
      return (result, err)
    return (result, command.Err)
  | none =>
    return (result, command.Err)

/-- The method `GetResponseBody` of `Network`; `T` is its result type `network.GetResponseBodyResult`.
https://chromedevtools.github.io/devtools-protocol/tot/Network/#method-getResponseBody -/
def GetResponseBody (socket : Socket σ ω P) (params : P) (T : ResultType σ P R) :
    StateM σ (R × error) := do
  let command : Command P := { Method := "Network.getResponseBody", Params := some params }
  let result := T.zero
  let command ← socket.SendCommand command
  if error.nil ≠ command.Err then
    return (result, command.Err)
  match command.Result with
  | some payload =>
    let (resultData, err) ← T.Marshal payload
    if error.nil ≠ err then
      return (result, err)
    let (result, err) ← T.Unmarshal resultData result
    if error.nil ≠ err then
      return (result, err)
    return (result, command.Err)
  | none =>
    return (result, command.Err)

/-- The method `GetResponseBodyForInterception` of `Network`; `T` is its result type `network.GetResponseBodyForInterceptionResult`.
https://chromedevtools.github.io/devtools-protocol/tot/Network/#method-getResponseBodyForInterception -/
def GetResponseBodyForInterception (socket : Socket σ ω P) (params : P) (T : ResultType σ P R) :
    StateM σ (R × error) := do
  let command : Command P := { Method := "Network.getResponseBodyForInterception", Params := some params }
  let result := T.zero
  let command ← socket.SendCommand command
  if error.nil ≠ command.Err then
    return (result, command.Err)
  match command.Result with
  | some payload =>
    let (resultData, err) ← T.Marshal payload
    if error.nil ≠ err then
      return (result, err)
    let (result, err) ← T.Unmarshal resultData result
    if error.nil ≠ err then
      return (result, err)
    return (result, command.Err)
  | none =>
    return (result, command.Err)

/-- The method `ReplayXHR` of `Network`.
https://chromedevtools.github.io/devtools-protocol/tot/Network/#method-replayXHR -/
def ReplayXHR (socket : Socket σ ω P) (params : P) : StateM σ error := do
  let command : Command P := { Method := "Network.replayXHR", Params := some params }
  let command ← socket.SendCommand command
  return command.Err

/-- The method `SearchInResponseBody` of `Network`; `T` is its result type `network.SearchInResponseBodyResult`.
https://chromedevtools.github.io/devtools-protocol/tot/Network/#method-searchInResponseBody -/
def SearchInResponseBody (socket : Socket σ ω P) (params : P) (T : ResultType σ P R) :
    StateM σ (R × error) := do
  let command : Command P := { Method := "Network.searchInResponseBody", Params := some params }
  let result := T.zero
  let command ← socket.SendCommand command
  if error.nil ≠ command.Err then
    return (result, command.Err)
  match command.Result with
  | some payload =>
    let (resultData, err) ← T.Marshal payload
    if error.nil ≠ err then
      return (result, err)
    let (result, err) ← T.Unmarshal resultData result
    if error.nil ≠ err then
      return (result, err)
    return (result, command.Err)
  | none =>
    return (result, command.Err)

/-- The method `SetBlockedURLs` of `Network`.
https://chromedevtools.github.io/devtools-protocol/tot/Network/#method-setBlockedURLs -/
def SetBlockedURLs (socket : Socket σ ω P) (params : P) : StateM σ error := do
  let command : Command P := { Method := "Network.setBlockedURLs", Params := some params }
  let command ← socket.SendCommand command
  return command.Err

/-- The method `SetBypassServiceWorker` of `Network`.
https://chromedevtools.github.io/devtools-protocol/tot/Network/#method-setBypassServiceWorker -/
def SetBypassServiceWorker (socket : Socket σ ω P) (params : P) : StateM σ error := do
  let command : Command P := { Method := "Network.setBypassServiceWorker", Params := some params }
  let command ← socket.SendCommand command
  return command.Err

/-- The method `SetCacheDisabled` of `Network`.
https://chromedevtools.github.io/devtools-protocol/tot/Network/#method-setCacheDisabled -/
def SetCacheDisabled (socket : Socket σ ω P) (params : P) : StateM σ error := do
  let command : Command P := { Method := "Network.setCacheDisabled", Params := some params }
  let command ← socket.SendCommand command
  return command.Err

/-- The method `SetCookie` of `Network`; `T` is its result type `network.SetCookieResult`.
https://chromedevtools.github.io/devtools-protocol/tot/Network/#method-setCookie -/
def SetCookie (socket : Socket σ ω P) (params : P) (T : ResultType σ P R) :
    StateM σ (R × error) := do
  let command : Command P := { Method := "Network.setCookie", Params := some params }
  let result := T.zero
  let command ← socket.SendCommand command
  if error.nil ≠ command.Err then
    return (result, command.Err)
  match command.Result with
  | some payload =>
    let (resultData, err) ← T.Marshal payload
    if error.nil ≠ err then
      return (result, err)
    let (result, err) ← T.Unmarshal resultData result
    if error.nil ≠ err then
      return (result, err)
    return (result, command.Err)
  | none =>
    return (result, command.Err)

/-- The method `SetCookies` of `Network`.
https://chromedevtools.github.io/devtools-protocol/tot/Network/#method-setCookies -/
def SetCookies (socket : Socket σ ω P) (params : P) : StateM σ error := do
  let command : Command P := { Method := "Network.setCookies", Params := some params }
  let command ← socket.SendCommand command
  return command.Err

/-- The method `SetDataSizeLimitsForTest` of `Network`.
https://chromedevtools.github.io/devtools-protocol/tot/Network/#method-setDataSizeLimitsForTest -/
def SetDataSizeLimitsForTest (socket : Socket σ ω P) (params : P) : StateM σ error := do
  let command : Command P := { Method := "Network.setDataSizeLimitsForTest", Params := some params }
  let command ← socket.SendCommand command
  return command.Err

/-- The method `SetExtraHTTPHeaders` of `Network`.
https://chromedevtools.github.io/devtools-protocol/tot/Network/#method-setExtraHTTPHeaders -/
def SetExtraHTTPHeaders (socket : Socket σ ω P) (params : P) : StateM σ error := do
  let command : Command P := { Method := "Network.setExtraHTTPHeaders", Params := some params }
  let command ← socket.SendCommand command
  return command.Err

/-- The method `SetRequestInterception` of `Network`.
https://chromedevtools.github.io/devtools-protocol/tot/Network/#method-setRequestInterception -/
def SetRequestInterception (socket : Socket σ ω P) (params : P) : StateM σ error := do
  let command : Command P := { Method := "Network.setRequestInterception", Params := some params }
  let command ← socket.SendCommand command
  return command.Err

/-- The method `SetUserAgentOverride` of `Network`.
https://chromedevtools.github.io/devtools-protocol/tot/Network/#method-setUserAgentOverride -/
def SetUserAgentOverride (socket : Socket σ ω P) (params : P) : StateM σ error := do
  let command : Command P := { Method := "Network.setUserAgentOverride", Params := some params }
  let command ← socket.SendCommand command
  return command.Err

/-- The method `OnDataReceived` of `Network`: registers a handler that decodes the raw
payload into a fresh event and, when that succeeds, calls `callback`.
https://chromedevtools.github.io/devtools-protocol/tot/Network/#event-dataReceived -/
def OnDataReceived (socket : Socket σ ω P) (T : EventType ω E) (callback : E → StateM ω Unit) :
    StateM σ Unit := do
  let handler := NewEventHandler "Network.dataReceived" (fun _name params => do
    let event := T.zero
    let (event, err) ← T.Unmarshal params event
    if err ≠ error.nil then
      T.logError err
    else
      callback event)
  socket.AddEventHandler handler

/-- The method `OnEventSourceMessageReceived` of `Network`: registers a handler that decodes the raw
payload into a fresh event and, when that succeeds, calls `callback`.
https://chromedevtools.github.io/devtools-protocol/tot/Network/#event-eventSourceMessageReceived -/
def OnEventSourceMessageReceived (socket : Socket σ ω P) (T : EventType ω E) (callback : E → StateM ω Unit) :
    StateM σ Unit := do
  let handler := NewEventHandler "Network.eventSourceMessageReceived" (fun _name params => do
    let event := T.zero
    let (event, err) ← T.Unmarshal params event
    if err ≠ error.nil then
      T.logError err
    else
      callback event)
  socket.AddEventHandler handler

/-- The method `OnLoadingFailed` of `Network`: registers a handler that decodes the raw
payload into a fresh event and, when that succeeds, calls `callback`.
https://chromedevtools.github.io/devtools-protocol/tot/Network/#event-loadingFailed -/
def OnLoadingFailed (socket : Socket σ ω P) (T : EventType ω E) (callback : E → StateM ω Unit) :
    StateM σ Unit := do
  let handler := NewEventHandler "Network.loadingFailed" (fun _name params => do
    let event := T.zero
    let (event, err) ← T.Unmarshal params event
    if err ≠ error.nil then
      T.logError err
    else
      callback event)
  socket.AddEventHandler handler

/-- The method `OnLoadingFinished` of `Network`: registers a handler that decodes the raw
payload into a fresh event and, when that succeeds, calls `callback`.
https://chromedevtools.github.io/devtools-protocol/tot/Network/#event-loadingFinished -/
def OnLoadingFinished (socket : Socket σ ω P) (T : EventType ω E) (callback : E → StateM ω Unit) :
    StateM σ Unit := do
  let handler := NewEventHandler "Network.loadingFinished" (fun _name params => do
    let event := T.zero
    let (event, err) ← T.Unmarshal params event
    if err ≠ error.nil then
      T.logError err
    else
      callback event)
  socket.AddEventHandler handler

/-- The method `OnRequestIntercepted` of `Network`: registers a handler that decodes the raw
payload into a fresh event and, when that succeeds, calls `callback`.
https://chromedevtools.github.io/devtools-protocol/tot/Network/#event-requestIntercepted -/
def OnRequestIntercepted (socket : Socket σ ω P) (T : EventType ω E) (callback : E → StateM ω Unit) :
    StateM σ Unit := do
  let handler := NewEventHandler "Network.requestIntercepted" (fun _name params => do
    let event := T.zero
    let (event, err) ← T.Unmarshal params event
    if err ≠ error.nil then
      T.logError err
    else
      callback event)
  socket.AddEventHandler handler

/-- The method `OnRequestServedFromCache` of `Network`: registers a handler that decodes the raw
payload into a fresh event and, when that succeeds, calls `callback`.
https://chromedevtools.github.io/devtools-protocol/tot/Network/#event-requestServedFromCache -/
def OnRequestServedFromCache (socket : Socket σ ω P) (T : EventType ω E) (callback : E → StateM ω Unit) :
    StateM σ Unit := do
  let handler := NewEventHandler "Network.requestServedFromCache" (fun _name params => do
    let event := T.zero
    let (event, err) ← T.Unmarshal params event
    if err ≠ error.nil then
      T.logError err
    else
      callback event)
  socket.AddEventHandler handler

/-- The method `OnRequestWillBeSent` of `Network`: registers a handler that decodes the raw
payload into a fresh event and, when that succeeds, calls `callback`.
https://chromedevtools.github.io/devtools-protocol/tot/Network/#event-requestWillBeSent -/
def OnRequestWillBeSent (socket : Socket σ ω P) (T : EventType ω E) (callback : E → StateM ω Unit) :
    StateM σ Unit := do
  let handler := NewEventHandler "Network.requestWillBeSent" (fun _name params => do
    let event := T.zero
    let (event, err) ← T.Unmarshal params event
    if err ≠ error.nil then
      T.logError err
    else
      callback event)
  socket.AddEventHandler handler

/-- The method `OnResourceChangedPriority` of `Network`: registers a handler that decodes the raw
payload into a fresh event and, when that succeeds, calls `callback`.
https://chromedevtools.github.io/devtools-protocol/tot/Network/#event-resourceChangedPriority -/
def OnResourceChangedPriority (socket : Socket σ ω P) (T : EventType ω E) (callback : E → StateM ω Unit) :
    StateM σ Unit := do
  let handler := NewEventHandler "Network.resourceChangedPriority" (fun _name params => do
    let event := T.zero
    let (event, err) ← T.Unmarshal params event
    if err ≠ error.nil then
      T.logError err
    else
      callback event)
  socket.AddEventHandler handler

/-- The method `OnResponseReceived` of `Network`: registers a handler that decodes the raw
payload into a fresh event and, when that succeeds, calls `callback`.
https://chromedevtools.github.io/devtools-protocol/tot/Network/#event-responseReceived -/
def OnResponseReceived (socket : Socket σ ω P) (T : EventType ω E) (callback : E → StateM ω Unit) :
    StateM σ Unit := do
  let handler := NewEventHandler "Network.responseReceived" (fun _name params => do
    let event := T.zero
    let (event, err) ← T.Unmarshal params event
    if err ≠ error.nil then
      T.logError err
    else
      callback event)
  socket.AddEventHandler handler

/-- The method `OnWebSocketClosed` of `Network`: registers a handler that decodes the raw
payload into a fresh event and, when that succeeds, calls `callback`.
https://chromedevtools.github.io/devtools-protocol/tot/Network/#event-webSocketClosed -/
def OnWebSocketClosed (socket : Socket σ ω P) (T : EventType ω E) (callback : E → StateM ω Unit) :
    StateM σ Unit := do
  let handler := NewEventHandler "Network.webSocketClosed" (fun _name params => do
    let event := T.zero
    let (event, err) ← T.Unmarshal params event
    if err ≠ error.nil then
      T.logError err
    else
      callback event)
  socket.AddEventHandler handler

/-- The method `OnWebSocketCreated` of `Network`: registers a handler that decodes the raw
payload into a fresh event and, when that succeeds, calls `callback`.
https://chromedevtools.github.io/devtools-protocol/tot/Network/#event-webSocketCreated -/
def OnWebSocketCreated (socket : Socket σ ω P) (T : EventType ω E) (callback : E → StateM ω Unit) :
    StateM σ Unit := do
  let handler := NewEventHandler "Network.webSocketCreated" (fun _name params => do
    let event := T.zero
    let (event, err) ← T.Unmarshal params event
    if err ≠ error.nil then
      T.logError err
    else
      callback event)
  socket.AddEventHandler handler

/-- The method `OnWebSocketFrameError` of `Network`: registers a handler that decodes the raw
payload into a fresh event and, when that succeeds, calls `callback`.
https://chromedevtools.github.io/devtools-protocol/tot/Network/#event-webSocketFrameError -/
def OnWebSocketFrameError (socket : Socket σ ω P) (T : EventType ω E) (callback : E → StateM ω Unit) :
    StateM σ Unit := do
  let handler := NewEventHandler "Network.webSocketFrameError" (fun _name params => do
    let event := T.zero
    let (event, err) ← T.Unmarshal params event
    if err ≠ error.nil then
      T.logError err
    else
      callback event)
  socket.AddEventHandler handler

/-- The method `OnWebSocketFrameReceived` of `Network`: registers a handler that decodes the raw
payload into a fresh event and, when that succeeds, calls `callback`.
https://chromedevtools.github.io/devtools-protocol/tot/Network/#event-webSocketFrameReceived -/
def OnWebSocketFrameReceived (socket : Socket σ ω P) (T : EventType ω E) (callback : E → StateM ω Unit) :
    StateM σ Unit := do
  let handler := NewEventHandler "Network.webSocketFrameReceived" (fun _name params => do
    let event := T.zero
    let (event, err) ← T.Unmarshal params event
    if err ≠ error.nil then
      T.logError err
    else
      callback event)
  socket.AddEventHandler handler

/-- The method `OnWebSocketFrameSent` of `Network`: registers a handler that decodes the raw
payload into a fresh event and, when that succeeds, calls `callback`.
https://chromedevtools.github.io/devtools-protocol/tot/Network/#event-webSocketFrameSent -/
def OnWebSocketFrameSent (socket : Socket σ ω P) (T : EventType ω E) (callback : E → StateM ω Unit) :
    StateM σ Unit := do
  let handler := NewEventHandler "Network.webSocketFrameSent" (fun _name params => do
    let event := T.zero
    let (event, err) ← T.Unmarshal params event
    if err ≠ error.nil then
      T.logError err
    else
      callback event)
  socket.AddEventHandler handler

/-- The method `OnWebSocketHandshakeResponseReceived` of `Network`: registers a handler that decodes the raw
payload into a fresh event and, when that succeeds, calls `callback`.
https://chromedevtools.github.io/devtools-protocol/tot/Network/#event-webSocketHandshakeResponseReceived -/
def OnWebSocketHandshakeResponseReceived (socket : Socket σ ω P) (T : EventType ω E) (callback : E → StateM ω Unit) :
    StateM σ Unit := do
  let handler := NewEventHandler "Network.webSocketHandshakeResponseReceived" (fun _name params => do
    let event := T.zero
    let (event, err) ← T.Unmarshal params event
    if err ≠ error.nil then
      T.logError err
    else
      callback event)
  socket.AddEventHandler handler

/-- The method `OnWebSocketWillSendHandshakeRequest` of `Network`: registers a handler that decodes the raw
payload into a fresh event and, when that succeeds, calls `callback`.
https://chromedevtools.github.io/devtools-protocol/tot/Network/#event-webSocketWillSendHandshakeRequest -/
def OnWebSocketWillSendHandshakeRequest (socket : Socket σ ω P) (T : EventType ω E) (callback : E → StateM ω Unit) :
    StateM σ Unit := do
  let handler := NewEventHandler "Network.webSocketWillSendHandshakeRequest" (fun _name params => do
    let event := T.zero
    let (event, err) ← T.Unmarshal params event
    if err ≠ error.nil then
      T.logError err
    else
      callback event)
  socket.AddEventHandler handler

end Network

/-! ## Enumerating the wrappers -/

/-- A command wrapper returning only an `error`, with or without a `params`
argument. -/
inductive VoidWrapper (σ ω P : Type) where
  | noParams (f : Socket σ ω P → StateM σ error)
  | withParams (f : Socket σ ω P → P → StateM σ error)

/-- Calls a wrapper; `params` is used only by a wrapper that takes one. -/
def VoidWrapper.call : VoidWrapper σ ω P → Socket σ ω P → P → StateM σ error
  | .noParams f, socket, _ => f socket
  | .withParams f, socket, params => f socket params

/-- The parameters a wrapper is given: none for a wrapper without the argument. -/
def VoidWrapper.paramsGiven : VoidWrapper σ ω P → P → Option P
  | .noParams _, _ => none
  | .withParams _, params => some params

/-- A command wrapper returning a typed result and an `error`. -/
inductive ResultWrapper (σ ω P R : Type) where
  | noParams (f : Socket σ ω P → ResultType σ P R → StateM σ (R × error))
  | withParams (f : Socket σ ω P → P → ResultType σ P R → StateM σ (R × error))

/-- Calls a wrapper; `params` is used only by a wrapper that takes one. -/
def ResultWrapper.call :
    ResultWrapper σ ω P R → Socket σ ω P → P → ResultType σ P R → StateM σ (R × error)
  | .noParams f, socket, _, T => f socket T
  | .withParams f, socket, params, T => f socket params T

/-- The parameters a wrapper is given: none for a wrapper without the argument. -/
def ResultWrapper.paramsGiven : ResultWrapper σ ω P R → P → Option P
  | .noParams _, _ => none
  | .withParams _, params => some params

/-- An event wrapper: socket, event type, the caller's callback. -/
abbrev EventWrapper (σ ω P E : Type) :=
  Socket σ ω P → EventType ω E → (E → StateM ω Unit) → StateM σ Unit

/-- A wrapper together with its receiver type (`domain`), its Go name and the
link given in its documentation comment. -/
structure Documented (W : Type) where
  domain : String
  name : String
  doc : String
  wrapper : W

/-- The characters that follow the first occurrence of `marker`, if any. -/
def afterMarker (marker : List Char) : List Char → Option (List Char)
  | [] => if marker = [] then some [] else none
  | c :: cs =>
    if marker.isPrefixOf (c :: cs) then some ((c :: cs).drop marker.length)
    else afterMarker marker cs

/-- The anchor of a documentation link: what follows `marker` (`"#method-"` or
`"#event-"`); empty when the link has no such marker. -/
def anchor (marker doc : String) : String :=
  match afterMarker marker.data doc.data with
  | some cs => String.mk cs
  | none => ""

/-- The wire name a documentation link stands for: the domain, a dot, and the
anchor after `marker`. -/
def Documented.wireName {W : Type} (e : Documented W) (marker : String) : String :=
  e.domain ++ "." ++ anchor marker e.doc

/-! ## The wrappers of both files, each with the link of its documentation comment -/

/-- The command wrappers whose only result is an `error`. -/
def voidCommands : List (Documented (VoidWrapper σ ω P)) := [
  ⟨"Profiler", "Disable",
    "https://chromedevtools.github.io/devtools-protocol/tot/Profiler/#method-disable",
    .noParams Profiler.Disable⟩,
  ⟨"Profiler", "Enable",
    "https://chromedevtools.github.io/devtools-protocol/tot/Profiler/#method-enable",
    .noParams Profiler.Enable⟩,
  ⟨"Profiler", "SetSamplingInterval",
    "https://chromedevtools.github.io/devtools-protocol/tot/Profiler/#method-setSamplingInterval",
    .withParams Profiler.SetSamplingInterval⟩,
  ⟨"Profiler", "Start",
    "https://chromedevtools.github.io/devtools-protocol/tot/Profiler/#method-start",
    .noParams Profiler.Start⟩,
  ⟨"Profiler", "StartPreciseCoverage",
    "https://chromedevtools.github.io/devtools-protocol/tot/Profiler/#method-startPreciseCoverage",
    .withParams Profiler.StartPreciseCoverage⟩,
  ⟨"Profiler", "StartTypeProfile",
    "https://chromedevtools.github.io/devtools-protocol/tot/Profiler/#method-startTypeProfile",
    .noParams Profiler.StartTypeProfile⟩,
  ⟨"Profiler", "StopPreciseCoverage",
    "https://chromedevtools.github.io/devtools-protocol/tot/Profiler/#method-stopPreciseCoverage",
    .noParams Profiler.StopPreciseCoverage⟩,
  ⟨"Profiler", "StopTypeProfile",
    "https://chromedevtools.github.io/devtools-protocol/tot/Profiler/#method-stopTypeProfile",
    .noParams Profiler.StopTypeProfile⟩,
  ⟨"Network", "ClearBrowserCache",
    "https://chromedevtools.github.io/devtools-protocol/tot/Network/#method-clearBrowserCache",
    .noParams Network.ClearBrowserCache⟩,
  ⟨"Network", "ClearBrowserCookies",
    "https://chromedevtools.github.io/devtools-protocol/tot/Network/#method-clearBrowserCookies",
    .noParams Network.ClearBrowserCookies⟩,
  ⟨"Network", "ContinueInterceptedRequest",
    "https://chromedevtools.github.io/devtools-protocol/tot/Network/#method-continueInterceptedRequest",
    .withParams Network.ContinueInterceptedRequest⟩,
  ⟨"Network", "DeleteCookies",
    "https://chromedevtools.github.io/devtools-protocol/tot/Network/#method-deleteCookies",
    .withParams Network.DeleteCookies⟩,
  ⟨"Network", "Disable",
    "https://chromedevtools.github.io/devtools-protocol/tot/Network/#method-disable",
    .noParams Network.Disable⟩,
  ⟨"Network", "EmulateConditions",
    "https://chromedevtools.github.io/devtools-protocol/tot/Network/#method-emulateNetworkConditions",
    .withParams Network.EmulateConditions⟩,
  ⟨"Network", "Enable",
    "https://chromedevtools.github.io/devtools-protocol/tot/Network/#method-enable",
    .withParams Network.Enable⟩,
  ⟨"Network", "ReplayXHR",
    "https://chromedevtools.github.io/devtools-protocol/tot/Network/#method-replayXHR",
    .withParams Network.ReplayXHR⟩,
  ⟨"Network", "SetBlockedURLs",
    "https://chromedevtools.github.io/devtools-protocol/tot/Network/#method-setBlockedURLs",
    .withParams Network.SetBlockedURLs⟩,
  ⟨"Network", "SetBypassServiceWorker",
    "https://chromedevtools.github.io/devtools-protocol/tot/Network/#method-setBypassServiceWorker",
    .withParams Network.SetBypassServiceWorker⟩,
  ⟨"Network", "SetCacheDisabled",
    "https://chromedevtools.github.io/devtools-protocol/tot/Network/#method-setCacheDisabled",
    .withParams Network.SetCacheDisabled⟩,
  ⟨"Network", "SetCookies",
    "https://chromedevtools.github.io/devtools-protocol/tot/Network/#method-setCookies",
    .withParams Network.SetCookies⟩,
  ⟨"Network", "SetDataSizeLimitsForTest",
    "https://chromedevtools.github.io/devtools-protocol/tot/Network/#method-setDataSizeLimitsForTest",
    .withParams Network.SetDataSizeLimitsForTest⟩,
  ⟨"Network", "SetExtraHTTPHeaders",
    "https://chromedevtools.github.io/devtools-protocol/tot/Network/#method-setExtraHTTPHeaders",
    .withParams Network.SetExtraHTTPHeaders⟩,
  ⟨"Network", "SetRequestInterception",
    "https://chromedevtools.github.io/devtools-protocol/tot/Network/#method-setRequestInterception",
    .withParams Network.SetRequestInterception⟩,
  ⟨"Network", "SetUserAgentOverride",
    "https://chromedevtools.github.io/devtools-protocol/tot/Network/#method-setUserAgentOverride",
    .withParams Network.SetUserAgentOverride⟩]

/-- The command wrappers that return a typed result and an `error`. -/
def resultCommands : List (Documented (ResultWrapper σ ω P R)) := [
  ⟨"Profiler", "GetBestEffortCoverage",
    "https://chromedevtools.github.io/devtools-protocol/tot/Profiler/#method-getBestEffortCoverage",
    .noParams Profiler.GetBestEffortCoverage⟩,
  ⟨"Profiler", "Stop",
    "https://chromedevtools.github.io/devtools-protocol/tot/Profiler/#method-stop",
    .noParams Profiler.Stop⟩,
  ⟨"Profiler", "TakePreciseCoverage",
    "https://chromedevtools.github.io/devtools-protocol/tot/Profiler/#method-takePreciseCoverage",
    .noParams Profiler.TakePreciseCoverage⟩,
  ⟨"Profiler", "TakeTypeProfile",
    "https://chromedevtools.github.io/devtools-protocol/tot/Profiler/#method-takeTypeProfile",
    .noParams Profiler.TakeTypeProfile⟩,
  ⟨"Network", "CanClearBrowserCache",
    "https://chromedevtools.github.io/devtools-protocol/tot/Network/#method-canClearBrowserCache",
    .noParams Network.CanClearBrowserCache⟩,
  ⟨"Network", "CanClearBrowserCookies",
    "https://chromedevtools.github.io/devtools-protocol/tot/Network/#method-canClearBrowserCookies",
    .noParams Network.CanClearBrowserCookies⟩,
  ⟨"Network", "CanEmulateConditions",
    "https://chromedevtools.github.io/devtools-protocol/tot/Network/#method-canEmulateNetworkConditions",
    .noParams Network.CanEmulateConditions⟩,
  ⟨"Network", "GetAllCookies",
    "https://chromedevtools.github.io/devtools-protocol/tot/Network/#method-getAllCookies",
    .noParams Network.GetAllCookies⟩,
  ⟨"Network", "GetCertificate",
    "https://chromedevtools.github.io/devtools-protocol/tot/Network/#method-getCertificate",
    .withParams Network.GetCertificate⟩,
  ⟨"Network", "GetCookies",
    "https://chromedevtools.github.io/devtools-protocol/tot/Network/#method-getCookies",
    .withParams Network.GetCookies⟩,
  ⟨"Network", "GetResponseBody",
    "https://chromedevtools.github.io/devtools-protocol/tot/Network/#method-getResponseBody",
    .withParams Network.GetResponseBody⟩,
  ⟨"Network", "GetResponseBodyForInterception",
    "https://chromedevtools.github.io/devtools-protocol/tot/Network/#method-getResponseBodyForInterception",
    .withParams Network.GetResponseBodyForInterception⟩,
  ⟨"Network", "SearchInResponseBody",
    "https://chromedevtools.github.io/devtools-protocol/tot/Network/#method-searchInResponseBody",
    .withParams Network.SearchInResponseBody⟩,
  ⟨"Network", "SetCookie",
    "https://chromedevtools.github.io/devtools-protocol/tot/Network/#method-setCookie",
    .withParams Network.SetCookie⟩]

/-- The event wrappers (`On...`). -/
def eventWrappers : List (Documented (EventWrapper σ ω P E)) := [
  ⟨"Profiler", "OnConsoleProfileFinished",
    "https://chromedevtools.github.io/devtools-protocol/tot/Profiler/#event-consoleProfileFinished",
    Profiler.OnConsoleProfileFinished⟩,
  ⟨"Profiler", "OnConsoleProfileStarted",
    "https://chromedevtools.github.io/devtools-protocol/tot/Profiler/#event-consoleProfileStarted",
    Profiler.OnConsoleProfileStarted⟩,
  ⟨"Network", "OnDataReceived",
    "https://chromedevtools.github.io/devtools-protocol/tot/Network/#event-dataReceived",
    Network.OnDataReceived⟩,
  ⟨"Network", "OnEventSourceMessageReceived",
    "https://chromedevtools.github.io/devtools-protocol/tot/Network/#event-eventSourceMessageReceived",
    Network.OnEventSourceMessageReceived⟩,
  ⟨"Network", "OnLoadingFailed",
    "https://chromedevtools.github.io/devtools-protocol/tot/Network/#event-loadingFailed",
    Network.OnLoadingFailed⟩,
  ⟨"Network", "OnLoadingFinished",
    "https://chromedevtools.github.io/devtools-protocol/tot/Network/#event-loadingFinished",
    Network.OnLoadingFinished⟩,
  ⟨"Network", "OnRequestIntercepted",
    "https://chromedevtools.github.io/devtools-protocol/tot/Network/#event-requestIntercepted",
    Network.OnRequestIntercepted⟩,
  ⟨"Network", "OnRequestServedFromCache",
    "https://chromedevtools.github.io/devtools-protocol/tot/Network/#event-requestServedFromCache",
    Network.OnRequestServedFromCache⟩,
  ⟨"Network", "OnRequestWillBeSent",
    "https://chromedevtools.github.io/devtools-protocol/tot/Network/#event-requestWillBeSent",
    Network.OnRequestWillBeSent⟩,
  ⟨"Network", "OnResourceChangedPriority",
    "https://chromedevtools.github.io/devtools-protocol/tot/Network/#event-resourceChangedPriority",
    Network.OnResourceChangedPriority⟩,
  ⟨"Network", "OnResponseReceived",
    "https://chromedevtools.github.io/devtools-protocol/tot/Network/#event-responseReceived",
    Network.OnResponseReceived⟩,
  ⟨"Network", "OnWebSocketClosed",
    "https://chromedevtools.github.io/devtools-protocol/tot/Network/#event-webSocketClosed",
    Network.OnWebSocketClosed⟩,
  ⟨"Network", "OnWebSocketCreated",
    "https://chromedevtools.github.io/devtools-protocol/tot/Network/#event-webSocketCreated",
    Network.OnWebSocketCreated⟩,
  ⟨"Network", "OnWebSocketFrameError",
    "https://chromedevtools.github.io/devtools-protocol/tot/Network/#event-webSocketFrameError",
    Network.OnWebSocketFrameError⟩,
  ⟨"Network", "OnWebSocketFrameReceived",
    "https://chromedevtools.github.io/devtools-protocol/tot/Network/#event-webSocketFrameReceived",
    Network.OnWebSocketFrameReceived⟩,
  ⟨"Network", "OnWebSocketFrameSent",
    "https://chromedevtools.github.io/devtools-protocol/tot/Network/#event-webSocketFrameSent",
    Network.OnWebSocketFrameSent⟩,
  ⟨"Network", "OnWebSocketHandshakeResponseReceived",
    "https://chromedevtools.github.io/devtools-protocol/tot/Network/#event-webSocketHandshakeResponseReceived",
    Network.OnWebSocketHandshakeResponseReceived⟩,
  ⟨"Network", "OnWebSocketWillSendHandshakeRequest",
    "https://chromedevtools.github.io/devtools-protocol/tot/Network/#event-webSocketWillSendHandshakeRequest",
    Network.OnWebSocketWillSendHandshakeRequest⟩]

/-! ## Observing the calls made on a socket -/

/-- One call received by a socket. -/
inductive SocketCall (ω P : Type) where
  | SendCommand (command : Command P)
  | AddEventHandler (handler : EventHandler ω)

/-- The socket `socket`, with a log of the calls it receives kept next to its
state. The calls themselves are passed on unchanged. -/
def Socket.recording (socket : Socket σ ω P) : Socket (σ × List (SocketCall ω P)) ω P where
  SendCommand command := fun st =>
    let r := socket.SendCommand command st.1
    (r.1, (r.2, st.2 ++ [SocketCall.SendCommand command]))
  AddEventHandler handler := fun st =>
    let r := socket.AddEventHandler handler st.1
    (r.1, (r.2, st.2 ++ [SocketCall.AddEventHandler handler]))

/-- The result type `T`, acting on the state of a recording socket: the log is
left alone. -/
def ResultType.recording (T : ResultType σ P R) : ResultType (σ × List (SocketCall ω P)) P R where
  zero := T.zero
  Marshal payload := fun st =>
    let r := T.Marshal payload st.1
    (r.1, (r.2, st.2))
  Unmarshal data target := fun st =>
    let r := T.Unmarshal data target st.1
    (r.1, (r.2, st.2))

/-- The body shared by every result-returning wrapper, for a given command:
send, return early on an error, otherwise re-encode and decode the result. -/
def sendAndDecode (command : Command P) (socket : Socket σ ω P) (T : ResultType σ P R) :
    StateM σ (R × error) := do
  let result := T.zero
  let command ← socket.SendCommand command
  if error.nil ≠ command.Err then
    return (result, command.Err)
  match command.Result with
  | some payload =>
    let (resultData, err) ← T.Marshal payload
    if error.nil ≠ err then
      return (result, err)
    let (result, err) ← T.Unmarshal resultData result
    if error.nil ≠ err then
      return (result, err)
    return (result, command.Err)
  | none =>
    return (result, command.Err)

/-- The body shared by every wrapper without a typed result, for a given
command: send, return the error left on the command. -/
def sendOnly (command : Command P) (socket : Socket σ ω P) : StateM σ error := do
  let command ← socket.SendCommand command
  return command.Err

/-- The callback every event wrapper registers: decode into a fresh event, log
the error or call `callback`. -/
def decodeAndCall (T : EventType ω E) (callback : E → StateM ω Unit) :
    String → Bytes → StateM ω Unit :=
  fun _name params => do
    let event := T.zero
    let (event, err) ← T.Unmarshal params event
    if err ≠ error.nil then
      T.logError err
    else
      callback event

/-! ## tab.go -/

/-- Go `url.Values`: `map[string][]string`; `url.Values{}` is the empty list. -/
abbrev Values := List (String × List String)

/-- The digit `n` (below 16) in upper-case hexadecimal, as `net/url` writes it. -/
def upperhex (n : Nat) : Char := "0123456789ABCDEF".data.getD n '0'

/-- Go `shouldEscape(c, encodeQueryComponent)` of `net/url`: everything but the
unreserved characters is escaped. -/
def shouldEscape (c : Char) : Bool :=
  !(c.isAlphanum || c == '-' || c == '_' || c == '.' || c == '~')

/-- Go `url.QueryEscape`: a space becomes `+`, every byte of a character that
must be escaped becomes `%XX`, the rest is kept. -/
def QueryEscape (s : String) : String :=
  String.mk (s.data.flatMap fun c =>
    if c = ' ' then ['+']
    else if shouldEscape c then
      (String.utf8EncodeChar c).flatMap fun b => ['%', upperhex (b.toNat / 16), upperhex (b.toNat % 16)]
    else [c])

/-- The struct `TabData`: metadata about a browser tab (the field `Type` of the
source is `Type_` here). -/
structure TabData where
  Description : String := ""
  DevtoolsFrontendURL : String := ""
  ID : String := ""
  Title : String := ""
  Type_ : String := ""
  URL : String := ""
  WebSocketDebuggerURL : String := ""
  deriving DecidableEq, Repr

/-- The struct `Tab`. `B` is the type of `*Browser` pointers, `S` the type of
the values held in a `socket.Socketer`; `data` is the `TabData` the pointer
field refers to and `socket` is `none` for the nil interface. -/
structure Tab (B S : Type) where
  browser : B
  data : TabData
  socket : Option S

/-- The method `func (tab *Tab) Browser() *Browser`. -/
def Tab.Browser {B S : Type} (tab : Tab B S) : B := tab.browser

/-- The method `func (tab *Tab) Data() *TabData`. -/
def Tab.Data {B S : Type} (tab : Tab B S) : TabData := tab.data

/-- The method `func (tab *Tab) Socket() socket.Socketer`. -/
def Tab.Socket {B S : Type} (tab : Tab B S) : Option S := tab.socket

/-- The struct `Browser`, declared outside the given sources: of its fields
tab.go uses only `tabs`. -/
structure Browser (B S : Type) where
  tabs : List (Tab B S)

/-- What `NewTab` calls outside tab.go, on a state made of the browser struct
and the world `W` around it.
`Cmd browser cmd params msg` is the method `browser.Cmd(cmd, params, msg)`: it
returns the value left in `msg` and the error (the first result is dropped by
`NewTab`); it is a method of `*Browser`, so it may change the struct.
`New url` is `socket.New(url)`, a package function: it acts on the world only. -/
structure Chrome (W B S : Type) where
  Cmd : B → String → Values → TabData → StateM (Browser B S × W) (TabData × error)
  New : String → StateM W (Option S × error)

/-- The method `func (browser *Browser) NewTab(uri string) (*Tab, error)`; the
returned pointer is `none` for nil. -/
def Browser.NewTab {W B S : Type} (chrome : Chrome W B S) (browser : B) (uri : String) :
    StateM (Browser B S × W) (Option (Tab B S) × error) := do
  let uri := if "" = uri then "about:blank" else uri
  let tab : Tab B S := { browser := browser, data := {}, socket := none }
  let (data, err) ← chrome.Cmd tab.Browser ("/json/new?" ++ QueryEscape uri) [] tab.data
  let tab := { tab with data := data }
  if error.nil ≠ err then
    return (none, err)
  let (socket, err) ← (fun st : Browser B S × W =>
    let r := chrome.New tab.Data.WebSocketDebuggerURL st.2
    (r.1, (st.1, r.2)))
  let tab := { tab with socket := socket }
  if error.nil ≠ err then
    return (none, err)
  modify fun st => ({ st.1 with tabs := st.1.tabs ++ [tab] }, st.2)
  return (some tab, error.nil)

/-! ## Concrete instances

Small implementations of the parameters, on which the definitions above can be
evaluated. -/

namespace Demo

/-- A dispatcher that counts the calls it receives and refuses every command. -/
def refusing : Socket Nat Nat String where
  SendCommand command := fun n => ({ command with ID := n + 1, Err := error.foreign "refused" }, n + 1)
  AddEventHandler _ := fun n => ((), n + 1)

/-- A dispatcher that counts the calls it receives and answers every command
with the payload `"cookies"`. -/
def answering : Socket Nat Nat String where
  SendCommand command := fun n => ({ command with ID := n + 1, Result := some "cookies", Err := error.nil }, n + 1)
  AddEventHandler _ := fun n => ((), n + 1)

/-- A result type: numbers, encoded from the length of the payload; each call
to the codec moves the state. -/
def lengths : ResultType Nat String Nat where
  zero := 0
  Marshal payload := fun n => (([payload.length], error.nil), n + 10)
  Unmarshal data _ := fun n => ((data.sum, error.nil), n + 100)

/-- An event type: numbers, decoded from the first byte of the payload; an
empty payload does not decode. -/
def firstByte : EventType Nat Nat where
  zero := 0
  Unmarshal data target := fun w =>
    match data with
    | [] => ((target, error.foreign "unexpected end of JSON input"), w)
    | b :: _ => ((b, error.nil), w)
  logError _ := fun w => ((), w)

/-- A callback that adds the event to the state. -/
def addEvent : Nat → StateM Nat Unit := fun event w => ((), w + event)

/-- A call stack whose depth 1 resolves. -/
def stack : errors.Runtime where
  Caller a := if a = 1 then some { pc := 4198400, file := "/go/src/app/main.go", line := 42 } else none
  FuncName _ := "main.run"

/-- A browser endpoint that fills in the metadata of the new tab, and a socket
opener that hands out the URL it was given. -/
def chrome : Chrome Nat Nat String where
  Cmd _ cmd _ msg := fun st =>
    (({ msg with ID := "tab-1", URL := cmd, WebSocketDebuggerURL := "ws://localhost:9222/devtools/page/tab-1" },
      error.nil), st)
  New url := fun w => ((some url, error.nil), w + 1)

end Demo

/-! ## The command dispatcher

The dispatcher (package `socket`: `Send`, the receive loop, `AddEventHandler`,
`Close`) is not among the sources embedded above. It is modelled here from the
specification, as a state machine whose steps are the sections the
specification puts under one exclusion: the registration and write of one
`Send`, and the handling of one frame (or of a read failure) by the receive
loop. What a step makes visible outside the dispatcher (an identifier
assigned, a frame written, a blocked `Send` returning, a handler triggered, a
log entry) is returned as a list of effects. -/

namespace Dispatcher

/-- Modelled from the spec: the error payload of a reply, `error?: {message, payload}`. -/
structure ServerError (P : Type) where
  message : String
  payload : Option P := none

/-- Modelled from the spec: the wire envelope of a frame read from the
connection, `{id?, method?, params?, result?, error?}`. The parameters of an
event are the raw payload handed to the handlers. -/
structure Frame (P : Type) where
  id : Option Nat := none
  method : Option String := none
  params : Bytes := []
  result : Option P := none
  err : Option (ServerError P) := none

/-- Modelled from the spec: a request frame `{identifier, method, params}`, as
written to the connection by `Send`. -/
structure Request (P : Type) where
  id : Nat
  method : String
  params : Option P

/-- Modelled from the spec: the call-site and message carried by the errors the
dispatcher builds, one pair per kind (the spec fixes that every error carries
them, not their content). -/
structure ErrorSites where
  Caller : errors.Kind → GoMap
  Msg : errors.Kind → String

/-- The error of kind `k` built by the dispatcher around `cause`. -/
def ErrorSites.wrap (sites : ErrorSites) (k : errors.Kind) (cause : error) : error :=
  errors.ofKind k { Caller := sites.Caller k, Err := cause, Msg := sites.Msg k }

/-- What a step of the dispatcher makes visible. `κ` names the callers of
`Send`, one name per call. -/
inductive Effect (κ ω P : Type) where
  | assigned (caller : κ) (id : Nat)
  | wrote (request : Request P)
  | returned (caller : κ) (id : Nat) (result : Option P) (err : error)
  | triggered (handler : EventHandler ω) (name : String) (params : Bytes)
  | logged (entry : String)

/-- Modelled from the spec: the state of a dispatcher. `counter` is the
identifier the next `Send` will be given; `pending` is the Pending Request
Table (identifier, blocked caller); `registry` is the Event Registry, the
handlers in registration order (the handlers of a name are those carrying it);
`closed` is the mark set by teardown. -/
structure State (κ ω P : Type) where
  sites : ErrorSites
  counter : Nat
  pending : List (Nat × κ)
  registry : List (EventHandler ω)
  closed : Bool

variable {κ ω P : Type}

/-- Modelled from the spec: a dispatcher at connection establishment: the
counter starts at 1, nothing is pending, nothing is registered. -/
def New (sites : ErrorSites) : State κ ω P :=
  { sites := sites, counter := 1, pending := [], registry := [], closed := false }

/-- Modelled from the spec: Pending Request Table, lookup of an identifier. -/
def lookup (id : Nat) : List (Nat × κ) → Option κ
  | [] => none
  | p :: rest => if p.1 = id then some p.2 else lookup id rest

/-- Modelled from the spec: Pending Request Table, `insert(identifier, entry)`,
which fails when the identifier is already present. -/
def insert (id : Nat) (caller : κ) (table : List (Nat × κ)) : Option (List (Nat × κ)) :=
  match lookup id table with
  | some _ => none
  | none => some (table ++ [(id, caller)])

/-- Modelled from the spec: Pending Request Table, removal of an identifier. -/
def remove (id : Nat) (table : List (Nat × κ)) : List (Nat × κ) :=
  table.filter (fun p => p.1 != id)

/-- Modelled from the spec: the registration and write of `Send(command)` for the
caller `caller`; `writeErr` is what the transport answers to the write (nil
when the frame was written). The identifier is taken from the counter and the
entry inserted; an identifier already present is an invariant violation (the
`.error` result). On a write failure the entry is removed and the call returns
`SocketWriteFailed` at once; otherwise the caller stays blocked on its entry. -/
def Send (d : State κ ω P) (caller : κ) (command : Command P) (writeErr : error) :
    Except String (State κ ω P × List (Effect κ ω P)) :=
  let id := d.counter
  match insert id caller d.pending with
  | none => .error "pending request table: identifier already present"
  | some table =>
    if writeErr ≠ error.nil then
      .ok ({ d with counter := d.counter + 1, pending := remove id table },
        [Effect.assigned caller id,
         Effect.returned caller id none (d.sites.wrap .SocketWriteFailed writeErr)])
    else
      .ok ({ d with counter := d.counter + 1, pending := table },
        [Effect.assigned caller id,
         Effect.wrote { id := id, method := command.Method, params := command.Params }])

/-- Modelled from the spec: what a reply resolves its entry with: a
`SocketErrorResponse` wrapping the server-reported error when the reply carries
an error payload, otherwise the result payload and no error. -/
def replyOutcome (sites : ErrorSites) (f : Frame P) : Option P × error :=
  match f.err with
  | some e => (none, sites.wrap .SocketErrorResponse (error.foreign e.message))
  | none => (f.result, error.nil)

/-- Modelled from the spec: the handlers registered for the name `name`. -/
def handlersFor (name : String) (registry : List (EventHandler ω)) : List (EventHandler ω) :=
  registry.filter (fun h => h.Name == name)

/-- Modelled from the spec: the receive loop handling one frame. A frame
carrying an identifier is a reply: its entry, if found, is removed and
resolved; otherwise the frame is dropped (logged). A frame carrying a method
name and no identifier is an event: every handler registered for the name is
triggered with the payload; with no such handler the frame is dropped
(logged). A frame carrying neither is dropped as well. -/
def handleFrame (d : State κ ω P) (f : Frame P) : State κ ω P × List (Effect κ ω P) :=
  match f.id with
  | some id =>
    match lookup id d.pending with
    | some caller =>
      ({ d with pending := remove id d.pending },
        [Effect.returned caller id (replyOutcome d.sites f).1 (replyOutcome d.sites f).2])
    | none => (d, [Effect.logged "reply with unknown identifier dropped"])
  | none =>
    match f.method with
    | some name =>
      match handlersFor name d.registry with
      | [] => (d, [Effect.logged "event without handler dropped"])
      | h :: hs => (d, (h :: hs).map fun handler => Effect.triggered handler name f.params)
    | none => (d, [Effect.logged "frame without identifier and method dropped"])

/-- Modelled from the spec: teardown after a read failure of cause `cause`:
every pending entry is resolved with `SocketReadFailed`, the table is cleared,
the connection is marked closed. -/
def teardown (d : State κ ω P) (cause : error) : State κ ω P × List (Effect κ ω P) :=
  ({ d with pending := [], closed := true },
    d.pending.map fun p =>
      Effect.returned p.2 p.1 none (d.sites.wrap .SocketReadFailed cause))

/-- Modelled from the spec: the receive loop reads a frame; the loop has
terminated once the connection is marked closed. -/
def receive (d : State κ ω P) (f : Frame P) : State κ ω P × List (Effect κ ω P) :=
  if d.closed then (d, []) else handleFrame d f

/-- Modelled from the spec: the receive loop's read fails with `cause`. -/
def readFailure (d : State κ ω P) (cause : error) : State κ ω P × List (Effect κ ω P) :=
  if d.closed then (d, []) else teardown d cause

/-- Modelled from the spec: `Close()`: closes the connection, so that the receive
loop observes a read failure (`observed`) and runs the teardown; closing a
closed dispatcher is a no-op. -/
def Close (d : State κ ω P) (observed : error) : State κ ω P × List (Effect κ ω P) :=
  if d.closed then (d, []) else teardown d observed

/-- Modelled from the spec: `AddEventHandler(name, callback)`: appends to the
registry. -/
def AddEventHandler (d : State κ ω P) (handler : EventHandler ω) : State κ ω P :=
  { d with registry := d.registry ++ [handler] }

/-- One step taken on a dispatcher, by a caller or by the receive loop. -/
inductive Op (κ ω P : Type) where
  | Send (caller : κ) (command : Command P) (writeErr : error)
  | receive (f : Frame P)
  | readFailure (cause : error)
  | Close (observed : error)
  | AddEventHandler (handler : EventHandler ω)

/-- The step `op` on the state `d`. -/
def step (d : State κ ω P) : Op κ ω P → Except String (State κ ω P × List (Effect κ ω P))
  | .Send caller command writeErr => Send d caller command writeErr
  | .receive f => .ok (receive d f)
  | .readFailure cause => .ok (readFailure d cause)
  | .Close observed => .ok (Close d observed)
  | .AddEventHandler handler => .ok (AddEventHandler d handler, [])

/-- The steps `ops` taken one after the other, in any interleaving of callers
and receive loop: the final state and the effects in order. -/
def run (d : State κ ω P) : List (Op κ ω P) → Except String (State κ ω P × List (Effect κ ω P))
  | [] => .ok (d, [])
  | op :: ops =>
    match step d op with
    | .error e => .error e
    | .ok r =>
      match run r.1 ops with
      | .error e => .error e
      | .ok r2 => .ok (r2.1, r.2 ++ r2.2)

/-- The identifiers assigned, in order. -/
def assignedIds : List (Effect κ ω P) → List Nat
  | [] => []
  | Effect.assigned _ id :: rest => id :: assignedIds rest
  | _ :: rest => assignedIds rest

/-- The assignments made: identifier and caller, in order. -/
def assignments : List (Effect κ ω P) → List (Nat × κ)
  | [] => []
  | Effect.assigned caller id :: rest => (id, caller) :: assignments rest
  | _ :: rest => assignments rest

/-- The returns of blocked or failed `Send` calls: identifier and caller, in
order. -/
def returns : List (Effect κ ω P) → List (Nat × κ)
  | [] => []
  | Effect.returned caller id _ _ :: rest => (id, caller) :: returns rest
  | _ :: rest => returns rest

/-- The number of `Send` steps among `ops`. -/
def sends : List (Op κ ω P) → Nat
  | [] => 0
  | Op.Send _ _ _ :: rest => sends rest + 1
  | _ :: rest => sends rest

/-- The callers of the `Send` steps among `ops`, in order. -/
def callers : List (Op κ ω P) → List κ
  | [] => []
  | Op.Send caller _ _ :: rest => caller :: callers rest
  | _ :: rest => callers rest

/-- Well-formed states: every pending identifier was taken from the counter
before, and no identifier is pending twice. -/
def WF (d : State κ ω P) : Prop :=
  (∀ p ∈ d.pending, p.1 < d.counter) ∧ (d.pending.map Prod.fst).Nodup

/-- The steps of a healthy connection: a `Send` whose write succeeds, a frame
read by the receive loop, a handler registration. -/
def healthy : Op κ ω P → Prop
  | .Send _ _ writeErr => writeErr = error.nil
  | .receive _ => True
  | .AddEventHandler _ => True
  | .readFailure _ => False
  | .Close _ => False

/-- The bookkeeping that relates an open dispatcher to the effects `E` produced
so far: the pending entries are assignments that have not returned, a return
answers an assignment, no caller has returned twice, every assignment has
returned or is pending, and no caller name was used for two calls. -/
def Inv (d : State κ ω P) (E : List (Effect κ ω P)) : Prop :=
  WF d ∧ d.closed = false ∧
    (∀ p ∈ d.pending, p ∈ assignments E) ∧
    (∀ p ∈ d.pending, p.2 ∉ (returns E).map Prod.snd) ∧
    (∀ p ∈ returns E, p ∈ assignments E) ∧
    ((returns E).map Prod.snd).Nodup ∧
    (∀ p ∈ assignments E, p ∈ returns E ∨ p ∈ d.pending) ∧
    ((assignments E).map Prod.snd).Nodup

end Dispatcher

/-! ## encoding/json on the type declarations of runtime.go and layer_tree.go

The declarations of protocol/runtime/runtime.go and layer_tree/layer_tree.go are
data: what they do is decided by `encoding/json`, which reads the struct tags.
The encoder and decoder of the standard library are modelled on JSON trees
(the text level is left out): a struct encodes to an object with one member
per field, in declaration order, under the name of the tag; a field tagged
`omitempty` is left out when `isEmptyValue` holds of it, which depends on the
kind of the field's type and is never true of a struct. -/

namespace json

/-- Go `float64`, by its IEEE-754 bits. -/
structure Float64 where
  bits : Nat := 0
  deriving DecidableEq, Repr

/-- Go `v.Float() == 0`: the bits of +0 or of -0. -/
def Float64.isZero (x : Float64) : Bool := x.bits % 2 ^ 63 == 0

/-- A JSON tree. Numbers keep the Go value they were written from. -/
inductive Value where
  | null
  | bool (b : Bool)
  | int (n : Int)
  | float (x : Float64)
  | string (s : String)
  | array (items : List Value)
  | object (members : List (String × Value))

/-- The member names of an object, in order; none for another tree. -/
def Value.keys : Value → List String
  | .object members => members.map Prod.fst
  | _ => []

/-- The member of an object under `key`, if any. -/
def Value.member (v : Value) (key : String) : Option Value :=
  match v with
  | .object members => members.lookup key
  | _ => none

/-- The word `encoding/json` uses for a JSON value in an `UnmarshalTypeError`. -/
def Value.kindName : Value → String
  | .null => "null"
  | .bool _ => "bool"
  | .int _ => "number"
  | .float _ => "number"
  | .string _ => "string"
  | .array _ => "array"
  | .object _ => "object"

/-- How `encoding/json` encodes the values of a Go type: `Marshal`, and
`isEmptyValue`, the test behind `omitempty`. `Marshal` is total here: the
error `json.Marshal` returns for a `float64` that is NaN or infinite is not
represented, such a float is written as a member like any other. -/
class Encodable (α : Type) where
  Marshal : α → Value
  isEmptyValue : α → Bool

/-- Go `interface{}`: nil, or a dynamic value known by its encoding. -/
structure Interface where
  dynamic : Option Value := none

/-- Go `[]T`: the nil slice (`none`) or its elements. -/
structure Slice (α : Type) where
  items : Option (List α) := none

/-- Go `*T`: the nil pointer (`none`) or the value pointed to. -/
structure Pointer (α : Type) where
  target : Option α := none

instance : Encodable String where
  Marshal s := .string s
  isEmptyValue s := s.length == 0

instance : Encodable Int where
  Marshal n := .int n
  isEmptyValue n := n == 0

instance : Encodable Bool where
  Marshal b := .bool b
  isEmptyValue b := !b

instance : Encodable Float64 where
  Marshal x := .float x
  isEmptyValue x := x.isZero

instance : Encodable Interface where
  Marshal v :=
    match v.dynamic with
    | none => .null
    | some tree => tree
  isEmptyValue v := v.dynamic.isNone

instance {α : Type} [Encodable α] : Encodable (Slice α) where
  Marshal v :=
    match v.items with
    | none => .null
    | some items => .array (items.map Encodable.Marshal)
  isEmptyValue v :=
    match v.items with
    | none => true
    | some items => items.length == 0

instance {α : Type} [Encodable α] : Encodable (Pointer α) where
  Marshal v :=
    match v.target with
    | none => .null
    | some x => Encodable.Marshal x
  isEmptyValue v := v.target.isNone

/-- The member a struct field contributes to the object: none when the tag says
`omitempty` and the value is empty, otherwise the encoded value under the
name of the tag. -/
def field {α : Type} [Encodable α] (name : String) (omitempty : Bool) (v : α) :
    List (String × Value) :=
  if omitempty && Encodable.isEmptyValue v then [] else [(name, Encodable.Marshal v)]

/-- The error `encoding/json` records when a JSON value does not fit a Go type
(an `UnmarshalTypeError`). Its text is given without the name of the struct
field, which the library adds; only the presence of the error is used. -/
def typeError (v : Value) (goType : String) : error :=
  error.foreign ("json: cannot unmarshal " ++ v.kindName ++ " into Go value of type " ++ goType)

/-- Decoding into a field of kind string. -/
def decodeString (goType : String) (v : Value) (old : String) : String × error :=
  match v with
  | .string s => (s, error.nil)
  | .null => (old, error.nil)
  | other => (old, typeError other goType)

/-- Decoding into a field of kind int: only a JSON integer that fits the 64 bits
of a Go `int` is stored. -/
def decodeInt (goType : String) (v : Value) (old : Int) : Int × error :=
  match v with
  | .int n =>
    if -9223372036854775808 ≤ n ∧ n ≤ 9223372036854775807 then (n, error.nil)
    else (old, typeError (.int n) goType)
  | .null => (old, error.nil)
  | other => (old, typeError other goType)

/-- Decoding into a field of type `interface{}`: any JSON value fits. -/
def decodeInterface (v : Value) : Interface × error :=
  match v with
  | .null => ({ dynamic := none }, error.nil)
  | other => ({ dynamic := some other }, error.nil)

/-- The fold of one character when member names are matched without regard to
case: ASCII letters to lower case, and the two characters that fold onto an
ASCII letter, U+017F onto `s` and U+212A onto `k`. -/
def foldChar (c : Char) : Char :=
  if c.toNat = 0x017F then 's' else if c.toNat = 0x212A then 'k' else c.toLower

/-- The match of a member name with a field name: exact or, failing that,
case-insensitive. -/
def foldEq (key name : String) : Bool :=
  key == name || key.data.map foldChar == name.data.map foldChar

/-- Decoding of a JSON tree into a struct, given how one member is stored
(`set`): every member of an object is stored in turn and the first error is
kept while decoding goes on; `null` leaves the target alone; any other tree
is a type error. -/
def unmarshalStruct {α : Type} (set : α → String → Value → α × error) (goType : String)
    (v : Value) (target : α) : α × error :=
  match v with
  | .object members =>
    members.foldl (fun acc kv =>
      let r := set acc.1 kv.1 kv.2
      (r.1, if acc.2 = error.nil then r.2 else acc.2)) (target, error.nil)
  | .null => (target, error.nil)
  | other => (target, typeError other goType)

end json

/-! ## protocol/runtime/runtime.go -/

namespace runtime

/-- The type `ScriptID string`. -/
abbrev ScriptID := String

/-- The type `RemoteObjectID string`. -/
abbrev RemoteObjectID := String

/-- The type `UnserializableValue int`. -/
abbrev UnserializableValue := Int

/-- The type `ExecutionContextID int`. -/
abbrev ExecutionContextID := Int

/-- The type `Timestamp int`. -/
abbrev Timestamp := Int

/-- The type `UniqueDebuggerID string`. -/
abbrev UniqueDebuggerID := String

/-- The struct `RemoteObject` (the field `Type` of the source is `Type_` here). -/
structure RemoteObject where
  Type_ : String := ""
  Subtype : String := ""
  ClassName : String := ""
  Value : json.Interface := {}
  UnserializableValue : UnserializableValue := 0
  Description : String := ""
  ObjectID : RemoteObjectID := ""
  Preview : json.Interface := {}
  CustomPreview : json.Interface := {}

instance : json.Encodable RemoteObject where
  Marshal v := .object (
    json.field "type" false v.Type_ ++
    json.field "subtype" true v.Subtype ++
    json.field "className" true v.ClassName ++
    json.field "value" true v.Value ++
    json.field "unserializableValue" true v.UnserializableValue ++
    json.field "description" true v.Description ++
    json.field "objectId" true v.ObjectID ++
    json.field "preview" true v.Preview ++
    json.field "customPreview" true v.CustomPreview)
  isEmptyValue _ := false

/-- How `json.Unmarshal` stores one member into a `RemoteObject`; a member that
matches no field is skipped. -/
def RemoteObject.set (o : RemoteObject) (key : String) (v : json.Value) : RemoteObject × error :=
  if json.foldEq key "type" then
    let r := json.decodeString "string" v o.Type_
    ({ o with Type_ := r.1 }, r.2)
  else if json.foldEq key "subtype" then
    let r := json.decodeString "string" v o.Subtype
    ({ o with Subtype := r.1 }, r.2)
  else if json.foldEq key "className" then
    let r := json.decodeString "string" v o.ClassName
    ({ o with ClassName := r.1 }, r.2)
  else if json.foldEq key "value" then
    let r := json.decodeInterface v
    ({ o with Value := r.1 }, r.2)
  else if json.foldEq key "unserializableValue" then
    let r := json.decodeInt "runtime.UnserializableValue" v o.UnserializableValue
    ({ o with UnserializableValue := r.1 }, r.2)
  else if json.foldEq key "description" then
    let r := json.decodeString "string" v o.Description
    ({ o with Description := r.1 }, r.2)
  else if json.foldEq key "objectId" then
    let r := json.decodeString "runtime.RemoteObjectID" v o.ObjectID
    ({ o with ObjectID := r.1 }, r.2)
  else if json.foldEq key "preview" then
    let r := json.decodeInterface v
    ({ o with Preview := r.1 }, r.2)
  else if json.foldEq key "customPreview" then
    let r := json.decodeInterface v
    ({ o with CustomPreview := r.1 }, r.2)
  else (o, error.nil)

/-- Go `json.Unmarshal(data, &target)` for a `RemoteObject`, on the tree of `data`. -/
def RemoteObject.Unmarshal (v : json.Value) (target : RemoteObject) : RemoteObject × error :=
  json.unmarshalStruct RemoteObject.set "runtime.RemoteObject" v target

/-- The struct `CallArgument`. -/
structure CallArgument where
  Value : json.Interface := {}
  UnserializableValue : UnserializableValue := 0
  ObjectID : RemoteObjectID := ""

instance : json.Encodable CallArgument where
  Marshal v := .object (
    json.field "value" true v.Value ++
    json.field "unserializableValue" true v.UnserializableValue ++
    json.field "objectId" true v.ObjectID)
  isEmptyValue _ := false

/-- How `json.Unmarshal` stores one member into a `CallArgument`. -/
def CallArgument.set (o : CallArgument) (key : String) (v : json.Value) : CallArgument × error :=
  if json.foldEq key "value" then
    let r := json.decodeInterface v
    ({ o with Value := r.1 }, r.2)
  else if json.foldEq key "unserializableValue" then
    let r := json.decodeInt "runtime.UnserializableValue" v o.UnserializableValue
    ({ o with UnserializableValue := r.1 }, r.2)
  else if json.foldEq key "objectId" then
    let r := json.decodeString "runtime.RemoteObjectID" v o.ObjectID
    ({ o with ObjectID := r.1 }, r.2)
  else (o, error.nil)

/-- Go `json.Unmarshal(data, &target)` for a `CallArgument`, on the tree of `data`. -/
def CallArgument.Unmarshal (v : json.Value) (target : CallArgument) : CallArgument × error :=
  json.unmarshalStruct CallArgument.set "runtime.CallArgument" v target

/-- The struct `ExceptionDetails`. -/
structure ExceptionDetails where
  ExceptionID : Int := 0
  Text : String := ""
  LineNumber : Int := 0
  ColumnNumber : Int := 0
  ScriptID : ScriptID := ""
  URL : String := ""
  StackTrace : json.Interface := {}
  Exception : json.Interface := {}
  ExecutionContextID : ExecutionContextID := 0

instance : json.Encodable ExceptionDetails where
  Marshal v := .object (
    json.field "exceptionId" false v.ExceptionID ++
    json.field "text" false v.Text ++
    json.field "lineNumber" false v.LineNumber ++
    json.field "columnNumber" false v.ColumnNumber ++
    json.field "scriptId" true v.ScriptID ++
    json.field "url" true v.URL ++
    json.field "stackTrace" true v.StackTrace ++
    json.field "exception" true v.Exception ++
    json.field "executionContextId" true v.ExecutionContextID)
  isEmptyValue _ := false

/-- The struct `CallFrame`. -/
structure CallFrame where
  FunctionName : String := ""
  ScriptID : ScriptID := ""
  URL : String := ""
  LineNumber : Int := 0
  ColumnNumber : Int := 0

instance : json.Encodable CallFrame where
  Marshal v := .object (
    json.field "functionName" false v.FunctionName ++
    json.field "scriptId" false v.ScriptID ++
    json.field "url" false v.URL ++
    json.field "lineNumber" false v.LineNumber ++
    json.field "columnNumber" false v.ColumnNumber)
  isEmptyValue _ := false

/-- The struct `StackTraceID`. -/
structure StackTraceID where
  ID : String := ""
  DebuggerID : UniqueDebuggerID := ""

instance : json.Encodable StackTraceID where
  Marshal v := .object (
    json.field "id" false v.ID ++
    json.field "debuggerId" true v.DebuggerID)
  isEmptyValue _ := false

/-- The struct `StackTrace`. -/
structure StackTrace where
  Description : String := ""
  CallFrames : json.Slice (json.Pointer CallFrame) := {}
  Parent : json.Interface := {}
  ParentID : StackTraceID := {}

instance : json.Encodable StackTrace where
  Marshal v := .object (
    json.field "description" true v.Description ++
    json.field "callFrames" false v.CallFrames ++
    json.field "parent" true v.Parent ++
    json.field "parentId" true v.ParentID)
  isEmptyValue _ := false

/-- The struct `ConsoleAPICalledEvent` (the field `Type` of the source is `Type_`
here). -/
structure ConsoleAPICalledEvent where
  Type_ : String := ""
  Args : json.Slice RemoteObject := {}
  ExecutionContextID : ExecutionContextID := 0
  Timestamp : Timestamp := 0
  StackTrace : StackTrace := {}
  Context : String := ""

instance : json.Encodable ConsoleAPICalledEvent where
  Marshal v := .object (
    json.field "type" false v.Type_ ++
    json.field "args" false v.Args ++
    json.field "executionContextId" false v.ExecutionContextID ++
    json.field "timestamp" false v.Timestamp ++
    json.field "stackTrace" true v.StackTrace ++
    json.field "context" true v.Context)
  isEmptyValue _ := false

/-- The struct `CallFunctionOnParams`. -/
structure CallFunctionOnParams where
  FunctionDeclaration : String := ""
  ObjectID : RemoteObjectID := ""
  Arguments : json.Slice CallArgument := {}
  Silent : Bool := false
  ReturnByValue : Bool := false
  GeneratePreview : Bool := false
  UserGesture : Bool := false
  AwaitPromise : Bool := false
  ExecutionContextID : ExecutionContextID := 0
  ObjectGroup : String := ""

instance : json.Encodable CallFunctionOnParams where
  Marshal v := .object (
    json.field "functionDeclaration" false v.FunctionDeclaration ++
    json.field "objectId" true v.ObjectID ++
    json.field "arguments" true v.Arguments ++
    json.field "silent" true v.Silent ++
    json.field "returnByValue" true v.ReturnByValue ++
    json.field "generatePreview" true v.GeneratePreview ++
    json.field "userGesture" true v.UserGesture ++
    json.field "awaitPromise" true v.AwaitPromise ++
    json.field "executionContextId" true v.ExecutionContextID ++
    json.field "objectGroup" true v.ObjectGroup)
  isEmptyValue _ := false

/-- The struct `SetCustomObjectFormatterEnabledParams`. -/
structure SetCustomObjectFormatterEnabledParams where
  Result : RemoteObject := {}
  ExceptionDetails : ExceptionDetails := {}

instance : json.Encodable SetCustomObjectFormatterEnabledParams where
  Marshal v := .object (
    json.field "result" false v.Result ++
    json.field "exceptionDetails" false v.ExceptionDetails)
  isEmptyValue _ := false

end runtime

/-! ## layer_tree/layer_tree.go -/

namespace LayerTree

/-- The type `SnapshotID string`. -/
abbrev SnapshotID := String

/-- The struct `ReplaySnapshotParams`. -/
structure ReplaySnapshotParams where
  SnapshotID : SnapshotID := ""
  FromStep : Int := 0
  ToStep : Int := 0
  Scale : json.Float64 := {}

instance : json.Encodable ReplaySnapshotParams where
  Marshal v := .object (
    json.field "snapshotId" false v.SnapshotID ++
    json.field "fromStep" true v.FromStep ++
    json.field "toStep" true v.ToStep ++
    json.field "scale" true v.Scale)
  isEmptyValue _ := false

end LayerTree

namespace Demo

/-- Call sites and messages for the errors of a dispatcher. -/
def sites : Dispatcher.ErrorSites where
  Caller _ := some [("pc", "socket.Send"), ("file", "socket.go"), ("line", "10")]
  Msg k :=
    match k with
    | .SocketReadFailed => "socket read failed"
    | .SocketWriteFailed => "socket write failed"
    | .SocketErrorResponse => "error response"

/-- A handler that adds the length of the payload to the state. -/
def counting (name : String) : EventHandler Nat :=
  NewEventHandler name (fun _ params w => ((), w + params.length))

/-- An open dispatcher on which `alice` and `bob` are blocked under the
identifiers 1 and 2, with two handlers for `Foo.changed` and one for
`Bar.changed`. -/
def blocked : Dispatcher.State String Nat String where
  sites := sites
  counter := 3
  pending := [(1, "alice"), (2, "bob")]
  registry := [counting "Foo.changed", counting "Bar.changed", counting "Foo.changed"]
  closed := false

/-- An interleaving of three callers with the receive loop: the reply to `bob`
arrives before `carol` has sent, the reply to `alice` after, and `carol` is
answered with an error. -/
def schedule : List (Dispatcher.Op String Nat String) :=
  [Dispatcher.Op.Send "alice" { Method := "Foo.bar" } error.nil,
   Dispatcher.Op.Send "bob" { Method := "Foo.baz" } error.nil,
   Dispatcher.Op.receive { id := some 2, result := some "to bob" },
   Dispatcher.Op.Send "carol" { Method := "Foo.qux" } error.nil,
   Dispatcher.Op.receive { id := some 1, result := some "to alice" },
   Dispatcher.Op.receive { id := some 3, err := some { message := "bad" } }]

end Demo

/-! ## Observing the probes of GetCaller and the requests of NewTab -/

/-- The depths at which the `for` loop of `GetCaller` calls `runtime.Caller`,
in order, when entered at the depth `a`: the same loop as
`errors.GetCaller.loop`, keeping the arguments of the calls instead of the
result. -/
def errors.GetCaller.probes (rt : errors.Runtime) (a : Nat) : List Nat :=
  match rt.Caller a with
  | some _ => [a]
  | none =>
      if a + 1 > 100 then [a] else a :: errors.GetCaller.probes rt (a + 1)
termination_by 101 - a

/-- The collaborators `chrome`, with a log of the requests made through `Cmd`
(path and form values) kept in the world. The calls themselves are passed on
unchanged. -/
def Chrome.recording {W B S : Type} (chrome : Chrome W B S) :
    Chrome (W × List (String × Values)) B S where
  Cmd browser cmd params msg := fun st =>
    let r := chrome.Cmd browser cmd params msg (st.1, st.2.1)
    (r.1, (r.2.1, (r.2.2, st.2.2 ++ [(cmd, params)])))
  New url := fun w =>
    let r := chrome.New url w.1
    (r.1, (r.2, w.2))

namespace Demo

/-- A dispatcher that completes every command with no error and no result. -/
def silent : Socket Nat Nat String where
  SendCommand command := fun n =>
    ({ command with ID := n + 1, Result := none, Err := error.nil }, n + 1)
  AddEventHandler _ := fun n => ((), n + 1)

/-- A browser endpoint that refuses the request. -/
def offline : Chrome Nat Nat String where
  Cmd _ _ _ msg := fun st => ((msg, error.foreign "connection refused"), st)
  New url := fun w => ((some url, error.nil), w + 1)

/-- A browser endpoint that answers, with a socket opener that fails. -/
def noSocket : Chrome Nat Nat String where
  Cmd _ _ _ msg := fun st =>
    (({ msg with ID := "tab-1", WebSocketDebuggerURL := "ws://localhost:9222/devtools/page/tab-1" },
      error.nil), st)
  New _ := fun w => ((none, error.foreign "bad handshake"), w + 1)

end Demo

/-! ## Shape of the enumerated wrappers -/

theorem voidCommands_shape (e : Documented (VoidWrapper σ ω P)) (he : e ∈ voidCommands)
    (socket : Socket σ ω P) (params : P) :
    e.wrapper.call socket params =
      sendOnly { Method := e.wireName "#method-", Params := e.wrapper.paramsGiven params } socket := by
  revert e
  simp only [voidCommands, List.forall_mem_cons, List.mem_nil_iff, false_imp_iff, implies_true,
    and_true]
  repeat' apply And.intro
  all_goals rfl

theorem resultCommands_shape (e : Documented (ResultWrapper σ ω P R)) (he : e ∈ resultCommands)
    (socket : Socket σ ω P) (params : P) (T : ResultType σ P R) :
    e.wrapper.call socket params T =
      sendAndDecode { Method := e.wireName "#method-", Params := e.wrapper.paramsGiven params }
        socket T := by
  revert e
  simp only [resultCommands, List.forall_mem_cons, List.mem_nil_iff, false_imp_iff, implies_true,
    and_true]
  repeat' apply And.intro
  all_goals rfl

theorem eventWrappers_shape (e : Documented (EventWrapper σ ω P E)) (he : e ∈ eventWrappers)
    (socket : Socket σ ω P) (T : EventType ω E) (callback : E → StateM ω Unit) :
    e.wrapper socket T callback =
      socket.AddEventHandler (NewEventHandler (e.wireName "#event-") (decodeAndCall T callback)) := by
  revert e
  simp only [eventWrappers, List.forall_mem_cons, List.mem_nil_iff, false_imp_iff, implies_true,
    and_true]
  repeat' apply And.intro
  all_goals rfl

/-! ## Lemmas on the shared bodies -/

theorem sendOnly_recording (command : Command P) (socket : Socket σ ω P) (s : σ) :
    (sendOnly command socket.recording).run (s, []) =
      ((socket.SendCommand command s).1.Err,
        ((socket.SendCommand command s).2, [SocketCall.SendCommand command])) := rfl

theorem sendAndDecode_error (command : Command P) (socket : Socket σ ω P) (T : ResultType σ P R)
    (s : σ) (h : (socket.SendCommand command s).1.Err ≠ error.nil) :
    (sendAndDecode command socket T).run s =
      ((T.zero, (socket.SendCommand command s).1.Err), (socket.SendCommand command s).2) := by
  rcases hs : socket.SendCommand command s with ⟨c, s1⟩
  rw [hs] at h
  simp only at h
  simp [sendAndDecode, StateT.run, bind, StateT.bind, pure, StateT.pure, hs, Ne.symm h]

theorem sendAndDecode_payload (command : Command P) (socket : Socket σ ω P)
    (T : ResultType σ P R) (s : σ) (r : P)
    (h : (socket.SendCommand command s).1.Err = error.nil)
    (hr : (socket.SendCommand command s).1.Result = some r) :
    (sendAndDecode command socket T).run s =
      (let m := T.Marshal r (socket.SendCommand command s).2
       if m.1.2 ≠ error.nil then ((T.zero, m.1.2), m.2)
       else
         let u := T.Unmarshal m.1.1 T.zero m.2
         if u.1.2 ≠ error.nil then ((u.1.1, u.1.2), u.2) else ((u.1.1, error.nil), u.2)) := by
  rcases hs : socket.SendCommand command s with ⟨c, s1⟩
  rw [hs] at h hr
  simp only at h hr
  rcases hm : T.Marshal r s1 with ⟨⟨data, e1⟩, s2⟩
  rcases hu : T.Unmarshal data T.zero s2 with ⟨⟨res, e2⟩, s3⟩
  by_cases h1 : e1 = error.nil <;> by_cases h2 : e2 = error.nil <;>
  simp [sendAndDecode, StateT.run, bind, StateT.bind, pure, StateT.pure, hs, h, hr, hm, hu, h1, h2,
    Ne.symm, eq_comm]

theorem sendAndDecode_recording (command : Command P) (socket : Socket σ ω P)
    (T : ResultType σ P R) (s : σ) :
    ((sendAndDecode command socket.recording T.recording).run (s, [])).2.2 =
      [SocketCall.SendCommand command] := by
  rcases hs : socket.SendCommand command s with ⟨c, s1⟩
  by_cases hc : c.Err = error.nil
  · rcases hres : c.Result with _ | r
    · simp [sendAndDecode, StateT.run, bind, StateT.bind, pure, StateT.pure, Socket.recording,
        hs, hc, hres]
    · rcases hm : T.Marshal r s1 with ⟨⟨data, e1⟩, s2⟩
      rcases hu : T.Unmarshal data T.zero s2 with ⟨⟨res, e2⟩, s3⟩
      by_cases h1 : e1 = error.nil <;> by_cases h2 : e2 = error.nil <;>
      simp [sendAndDecode, StateT.run, bind, StateT.bind, pure, StateT.pure, Socket.recording,
        ResultType.recording, hs, hc, hres, hm, hu, h1, h2, @eq_comm _ error.nil]
  · simp [sendAndDecode, StateT.run, bind, StateT.bind, pure, StateT.pure, Socket.recording,
      hs, hc, Ne.symm hc]

theorem decodeAndCall_decoded (T : EventType ω E) (callback : E → StateM ω Unit)
    (name : String) (params : Bytes) (w w1 : ω) (event : E)
    (h : T.Unmarshal params T.zero w = ((event, error.nil), w1)) :
    decodeAndCall T callback name params w = callback event w1 := by
  simp [decodeAndCall, bind, StateT.bind, h]

/-! ## Command wrappers -/

/-- C1: every command wrapper without a typed result, run on any dispatcher from
any state, hands exactly one command to `SendCommand` (the log of the recording
socket holds that one call, and the dispatcher state is the one that call left)
and returns exactly the error the dispatcher stored on that command; so the
returned error is nil if and only if the command completed without error. -/
theorem void_wrapper_returns_dispatcher_error
    (e : Documented (VoidWrapper (σ × List (SocketCall ω P)) ω P)) (he : e ∈ voidCommands)
    (params : P) :
    ∃ command : Command P, ∀ (socket : Socket σ ω P) (s : σ),
      (e.wrapper.call socket.recording params).run (s, []) =
          ((socket.SendCommand command s).1.Err,
            ((socket.SendCommand command s).2, [SocketCall.SendCommand command])) ∧
        (((e.wrapper.call socket.recording params).run (s, [])).1 = error.nil ↔
          (socket.SendCommand command s).1.Err = error.nil) := by
  refine ⟨{ Method := e.wireName "#method-", Params := e.wrapper.paramsGiven params }, ?_⟩
  intro socket s
  rw [voidCommands_shape e he, sendOnly_recording]
  exact ⟨rfl, Iff.rfl⟩

/-- Witness of C1: `Network.Disable` on the refusing dispatcher. -/
theorem void_wrapper_returns_dispatcher_error_witness :
    (⟨"Network", "Disable",
        "https://chromedevtools.github.io/devtools-protocol/tot/Network/#method-disable",
        .noParams Network.Disable⟩ :
        Documented (VoidWrapper (Nat × List (SocketCall Nat String)) Nat String)) ∈ voidCommands ∧
      ((Network.Disable Demo.refusing.recording).run (0, [])).1 = error.foreign "refused" := by
  have hmem : (⟨"Network", "Disable",
        "https://chromedevtools.github.io/devtools-protocol/tot/Network/#method-disable",
        .noParams Network.Disable⟩ :
        Documented (VoidWrapper (Nat × List (SocketCall Nat String)) Nat String)) ∈ voidCommands := by
    simp [voidCommands]
  obtain ⟨command, h⟩ := void_wrapper_returns_dispatcher_error _ hmem ""
  exact ⟨hmem, congrArg Prod.fst (h Demo.refusing 0).1⟩

/-- C2: every result-returning command wrapper, when the dispatcher completes
its command with a non-nil error, returns the zero value of its result type
together with exactly that error, and leaves the state as `SendCommand` left
it: neither `json.Marshal` nor `json.Unmarshal` is called. -/
theorem result_wrapper_returns_dispatcher_error
    (e : Documented (ResultWrapper σ ω P R)) (he : e ∈ resultCommands) (params : P) :
    ∃ command : Command P, ∀ (socket : Socket σ ω P) (T : ResultType σ P R) (s : σ),
      (socket.SendCommand command s).1.Err ≠ error.nil →
      (e.wrapper.call socket params T).run s =
        ((T.zero, (socket.SendCommand command s).1.Err), (socket.SendCommand command s).2) := by
  refine ⟨{ Method := e.wireName "#method-", Params := e.wrapper.paramsGiven params }, ?_⟩
  intro socket T s h
  rw [resultCommands_shape e he]
  exact sendAndDecode_error _ socket T s h

/-- Witness of C2: `Network.GetAllCookies` on the refusing dispatcher returns the
zero value and the error, and the codec (which would move the state by 10 and
by 100) has not run. -/
theorem result_wrapper_returns_dispatcher_error_witness :
    (Network.GetAllCookies Demo.refusing Demo.lengths).run 0 = ((0, error.foreign "refused"), 1) := by
  obtain ⟨command, h⟩ := result_wrapper_returns_dispatcher_error
    (⟨"Network", "GetAllCookies",
      "https://chromedevtools.github.io/devtools-protocol/tot/Network/#method-getAllCookies",
      .noParams Network.GetAllCookies⟩ : Documented (ResultWrapper Nat Nat String Nat))
    (by simp [resultCommands]) ""
  exact h Demo.refusing Demo.lengths 0 (by simp [Demo.refusing])

/-- C3: every result-returning command wrapper, when the dispatcher completes
its command with no error and a result payload `r`, encodes `r` with
`json.Marshal` and decodes the encoding with `json.Unmarshal` into the zero
value of its result type. If encoding fails it returns that error (with the zero
value); if decoding fails it returns that error; when both succeed it returns
the decoded value and a nil error. -/
theorem result_wrapper_decodes_result
    (e : Documented (ResultWrapper σ ω P R)) (he : e ∈ resultCommands) (params : P) :
    ∃ command : Command P, ∀ (socket : Socket σ ω P) (T : ResultType σ P R) (s : σ) (r : P),
      (socket.SendCommand command s).1.Err = error.nil →
      (socket.SendCommand command s).1.Result = some r →
      (e.wrapper.call socket params T).run s =
        (let m := T.Marshal r (socket.SendCommand command s).2
         if m.1.2 ≠ error.nil then ((T.zero, m.1.2), m.2)
         else
           let u := T.Unmarshal m.1.1 T.zero m.2
           if u.1.2 ≠ error.nil then ((u.1.1, u.1.2), u.2) else ((u.1.1, error.nil), u.2)) := by
  refine ⟨{ Method := e.wireName "#method-", Params := e.wrapper.paramsGiven params }, ?_⟩
  intro socket T s r h hr
  rw [resultCommands_shape e he]
  exact sendAndDecode_payload _ socket T s r h hr

/-- Witness of C3: `Network.SetCookie` on the answering dispatcher decodes the
payload `"cookies"` (7 characters) to 7, with a nil error. -/
theorem result_wrapper_decodes_result_witness :
    (Network.SetCookie Demo.answering "name=value" Demo.lengths).run 0 = ((7, error.nil), 111) := by
  obtain ⟨command, h⟩ := result_wrapper_decodes_result
    (⟨"Network", "SetCookie",
      "https://chromedevtools.github.io/devtools-protocol/tot/Network/#method-setCookie",
      .withParams Network.SetCookie⟩ : Documented (ResultWrapper Nat Nat String Nat))
    (by simp [resultCommands]) "name=value"
  exact h Demo.answering Demo.lengths 0 "cookies" rfl rfl

/-- C4: for every command wrapper of `Profiler` and `Network` (without or with a
typed result), the one command handed to the dispatcher carries as method name
the wire method of the documentation link: the domain, a dot, and the anchor
after `#method-`. -/
theorem command_method_matches_documentation
    (ev : Documented (VoidWrapper (σ × List (SocketCall ω P)) ω P)) (hv : ev ∈ voidCommands)
    (er : Documented (ResultWrapper (σ × List (SocketCall ω P)) ω P R)) (hr : er ∈ resultCommands)
    (socket : Socket σ ω P) (T : ResultType σ P R) (params : P) (s : σ) :
    (∃ command : Command P, command.Method = ev.domain ++ "." ++ anchor "#method-" ev.doc ∧
        ((ev.wrapper.call socket.recording params).run (s, [])).2.2 =
          [SocketCall.SendCommand command]) ∧
      (∃ command : Command P, command.Method = er.domain ++ "." ++ anchor "#method-" er.doc ∧
        ((er.wrapper.call socket.recording params T.recording).run (s, [])).2.2 =
          [SocketCall.SendCommand command]) := by
  refine ⟨⟨{ Method := ev.wireName "#method-", Params := ev.wrapper.paramsGiven params }, rfl, ?_⟩,
    ⟨{ Method := er.wireName "#method-", Params := er.wrapper.paramsGiven params }, rfl, ?_⟩⟩
  · rw [voidCommands_shape ev hv, sendOnly_recording]
  · rw [resultCommands_shape er hr]
    exact sendAndDecode_recording _ socket T s

/-- Witness of C4: the examples `Profiler.Disable` and
`Network.CanEmulateConditions`. -/
theorem command_method_matches_documentation_witness :
    (∃ command : Command String, command.Method = "Profiler.disable" ∧
        ((Profiler.Disable Demo.refusing.recording).run (0, [])).2.2 =
          [SocketCall.SendCommand command]) ∧
      (∃ command : Command String, command.Method = "Network.canEmulateNetworkConditions" ∧
        ((Network.CanEmulateConditions Demo.refusing.recording Demo.lengths.recording).run
          (0, [])).2.2 = [SocketCall.SendCommand command]) :=
  command_method_matches_documentation
    ⟨"Profiler", "Disable",
      "https://chromedevtools.github.io/devtools-protocol/tot/Profiler/#method-disable",
      .noParams Profiler.Disable⟩ (by simp [voidCommands])
    ⟨"Network", "CanEmulateConditions",
      "https://chromedevtools.github.io/devtools-protocol/tot/Network/#method-canEmulateNetworkConditions",
      .noParams Network.CanEmulateConditions⟩ (by simp [resultCommands])
    Demo.refusing Demo.lengths "" 0

/-- C5: for every command wrapper, the one command handed to the dispatcher has
only its method name and parameters set: identifier 0, no result, nil error;
its parameters are exactly the `params` argument for a wrapper that takes one
and absent for a wrapper that takes none. -/
theorem command_created_with_method_and_params_only
    (ev : Documented (VoidWrapper (σ × List (SocketCall ω P)) ω P)) (hv : ev ∈ voidCommands)
    (er : Documented (ResultWrapper (σ × List (SocketCall ω P)) ω P R)) (hr : er ∈ resultCommands)
    (socket : Socket σ ω P) (T : ResultType σ P R) (params : P) (s : σ) :
    (∃ method : String,
        ((ev.wrapper.call socket.recording params).run (s, [])).2.2 =
          [SocketCall.SendCommand
            { ID := 0, Method := method, Params := ev.wrapper.paramsGiven params,
              Result := none, Err := error.nil }]) ∧
      (∃ method : String,
        ((er.wrapper.call socket.recording params T.recording).run (s, [])).2.2 =
          [SocketCall.SendCommand
            { ID := 0, Method := method, Params := er.wrapper.paramsGiven params,
              Result := none, Err := error.nil }]) := by
  refine ⟨⟨ev.wireName "#method-", ?_⟩, ⟨er.wireName "#method-", ?_⟩⟩
  · rw [voidCommands_shape ev hv, sendOnly_recording]
  · rw [resultCommands_shape er hr]
    exact sendAndDecode_recording _ socket T s

/-- Witness of C5: `Profiler.SetSamplingInterval` passes its argument on and
`Profiler.Stop`, which takes none, leaves the parameters absent. -/
theorem command_created_with_method_and_params_only_witness :
    (∃ method : String,
        ((Profiler.SetSamplingInterval Demo.refusing.recording "interval").run (0, [])).2.2 =
          [SocketCall.SendCommand
            { ID := 0, Method := method, Params := some "interval",
              Result := none, Err := error.nil }]) ∧
      (∃ method : String,
        ((Profiler.Stop Demo.refusing.recording Demo.lengths.recording).run (0, [])).2.2 =
          [SocketCall.SendCommand
            { ID := 0, Method := method, Params := none, Result := none, Err := error.nil }]) :=
  command_created_with_method_and_params_only
    ⟨"Profiler", "SetSamplingInterval",
      "https://chromedevtools.github.io/devtools-protocol/tot/Profiler/#method-setSamplingInterval",
      .withParams Profiler.SetSamplingInterval⟩ (by simp [voidCommands])
    ⟨"Profiler", "Stop",
      "https://chromedevtools.github.io/devtools-protocol/tot/Profiler/#method-stop",
      .noParams Profiler.Stop⟩ (by simp [resultCommands])
    Demo.refusing Demo.lengths "interval" 0

/-! ## Errors -/

/-- C6 (as amended): for an error of any of the three kinds whose wrapped cause
renders the text `cause`, `Error()` returns exactly
`<pc>:<file>:<line> - <Msg>; <cause>`, with `pc`, `file` and `line` the entries
of the `Caller` map; the method `Type.Error` on the embedded struct returns the
same text. -/
theorem errors.Error_text (kind : errors.Kind) (t : errors.ErrType) (cause : String)
    (h : t.Err.Error = .ok cause) :
    (errors.ofKind kind t).Error =
        .ok (t.Caller.get "pc" ++ ":" ++ t.Caller.get "file" ++ ":" ++ t.Caller.get "line"
          ++ " - " ++ t.Msg ++ "; " ++ cause) ∧
      t.Error = (errors.ofKind kind t).Error := by
  cases kind <;>
    simp [errors.ofKind, errors.SocketReadFailed, errors.SocketWriteFailed,
      errors.SocketErrorResponse, error.Error, errors.ErrType.Error, errors.sprintfError, h]

/-- Witness of C6: an error response wrapping the foreign error `bad`. -/
theorem errors.Error_text_witness :
    (error.foreign "bad").Error = .ok "bad" ∧
      (errors.SocketErrorResponse
        { Caller := some [("pc", "socket.Send"), ("file", "socket.go"), ("line", "42")],
          Err := error.foreign "bad", Msg := "command failed" }).Error =
        .ok "socket.Send:socket.go:42 - command failed; bad" :=
  ⟨rfl, (errors.Error_text .SocketErrorResponse
    { Caller := some [("pc", "socket.Send"), ("file", "socket.go"), ("line", "42")],
      Err := error.foreign "bad", Msg := "command failed" } "bad" rfl).1⟩

/-- Counterexample to C6: an error response whose cause is present, a
`SocketWriteFailed` with a nil cause of its own, has no text: `Error()` calls
the `Error()` of the cause, which fails. So a present cause is not enough for
`Error()` to return the text of the claim. -/
theorem errors.Error_text_needs_rendering_cause :
    ¬ ∀ (kind : errors.Kind) (t : errors.ErrType), t.Err ≠ error.nil →
      ∃ cause : String, (errors.ofKind kind t).Error =
        .ok (t.Caller.get "pc" ++ ":" ++ t.Caller.get "file" ++ ":" ++ t.Caller.get "line"
          ++ " - " ++ t.Msg ++ "; " ++ cause) := by
  intro h
  obtain ⟨cause, hc⟩ := h .SocketErrorResponse
    { Caller := some [("pc", "socket.Send"), ("file", "socket.go"), ("line", "42")],
      Err := errors.SocketWriteFailed { Caller := none, Err := error.nil, Msg := "write" },
      Msg := "command failed" }
    (by simp [errors.SocketWriteFailed])
  simp [errors.ofKind, errors.SocketErrorResponse, errors.SocketWriteFailed, error.Error] at hc

/-- C7 (what the code does): whenever the caller of `GetCaller` has a resolvable
stack frame, `GetCaller` does not return a map: its first assignment writes to
the nil map `caller` and panics. -/
theorem errors.GetCaller_panics_on_resolvable_frame (rt : errors.Runtime) (fr : errors.Frame)
    (h : rt.Caller 1 = some fr) :
    errors.GetCaller rt = .error "assignment to entry in nil map" := by
  rw [errors.GetCaller, errors.GetCaller.loop, h]
  rfl

/-- Witness of C7: a stack whose depth 1 is `main.run` at main.go:42. -/
theorem errors.GetCaller_panics_on_resolvable_frame_witness :
    Demo.stack.Caller 1 = some { pc := 4198400, file := "/go/src/app/main.go", line := 42 } ∧
      errors.GetCaller Demo.stack = .error "assignment to entry in nil map" :=
  ⟨rfl, errors.GetCaller_panics_on_resolvable_frame Demo.stack _ rfl⟩

/-! ## Event wrappers -/

/-- C8: every event wrapper, run on any socket from any state, makes exactly one
call on the socket, an `AddEventHandler` (so no command is sent), with a
handler whose name is the event of the documentation link: the domain, a dot,
and the anchor after `#event-`. It returns no value (`Unit`). -/
theorem event_wrapper_registers_one_handler
    (e : Documented (EventWrapper (σ × List (SocketCall ω P)) ω P E)) (he : e ∈ eventWrappers)
    (socket : Socket σ ω P) (T : EventType ω E) (callback : E → StateM ω Unit) (s : σ) :
    ∃ handler : EventHandler ω,
      handler.Name = e.domain ++ "." ++ anchor "#event-" e.doc ∧
      (e.wrapper socket.recording T callback).run (s, []) =
        ((), ((socket.AddEventHandler handler s).2, [SocketCall.AddEventHandler handler])) := by
  refine ⟨NewEventHandler (e.wireName "#event-") (decodeAndCall T callback), rfl, ?_⟩
  rw [eventWrappers_shape e he]
  rfl

/-- Witness of C8: `Profiler.OnConsoleProfileFinished` and its documented name. -/
theorem event_wrapper_registers_one_handler_witness :
    ∃ handler : EventHandler Nat,
      handler.Name = "Profiler.consoleProfileFinished" ∧
      (Profiler.OnConsoleProfileFinished (P := String) Demo.refusing.recording Demo.firstByte
          Demo.addEvent).run (0, []) =
        ((), (1, [SocketCall.AddEventHandler handler])) :=
  event_wrapper_registers_one_handler
    ⟨"Profiler", "OnConsoleProfileFinished",
      "https://chromedevtools.github.io/devtools-protocol/tot/Profiler/#event-consoleProfileFinished",
      Profiler.OnConsoleProfileFinished⟩ (by simp [eventWrappers])
    Demo.refusing Demo.firstByte Demo.addEvent 0

/-- C9: for every event wrapper, the handler it registers, invoked once with any
event name and a raw payload that decodes (with a nil error) into the event
type, does exactly what one call of the caller's callback on the decoded event
does, from the state the decoding left. -/
theorem event_handler_calls_callback_once
    (e : Documented (EventWrapper (σ × List (SocketCall ω P)) ω P E)) (he : e ∈ eventWrappers)
    (socket : Socket σ ω P) (T : EventType ω E) (callback : E → StateM ω Unit) (s : σ) :
    ∃ handler : EventHandler ω,
      ((e.wrapper socket.recording T callback).run (s, [])).2.2 =
          [SocketCall.AddEventHandler handler] ∧
        ∀ (name : String) (params : Bytes) (w w1 : ω) (event : E),
          T.Unmarshal params T.zero w = ((event, error.nil), w1) →
          handler.Callback name params w = callback event w1 := by
  refine ⟨NewEventHandler (e.wireName "#event-") (decodeAndCall T callback), ?_, ?_⟩
  · rw [eventWrappers_shape e he]
    rfl
  · intro name params w w1 event h
    exact decodeAndCall_decoded T callback name params w w1 event h

/-- Witness of C9: the handler of `Network.OnDataReceived`, invoked under another
event name with the payload `[3]` from state 10, adds the decoded event 3 once. -/
theorem event_handler_calls_callback_once_witness :
    ∃ handler : EventHandler Nat,
      ((Network.OnDataReceived (P := String) Demo.refusing.recording Demo.firstByte
          Demo.addEvent).run (0, [])).2.2 = [SocketCall.AddEventHandler handler] ∧
        handler.Callback "Foo.changed" [3] 10 = ((), 13) := by
  obtain ⟨handler, hlog, hcall⟩ := event_handler_calls_callback_once
    (⟨"Network", "OnDataReceived",
      "https://chromedevtools.github.io/devtools-protocol/tot/Network/#event-dataReceived",
      Network.OnDataReceived⟩ :
      Documented (EventWrapper (Nat × List (SocketCall Nat String)) Nat String Nat))
    (by simp [eventWrappers]) Demo.refusing Demo.firstByte Demo.addEvent 0
  exact ⟨handler, hlog, hcall "Foo.changed" [3] 10 10 3 rfl⟩

/-! ## Tabs -/

/-- C10: when the browser's new-tab request succeeds, leaving the metadata `data`,
and opening the socket on `data.WebSocketDebuggerURL` succeeds with `socket`,
`NewTab` returns a nil error and a non-nil tab whose `Browser()` is the
receiving browser, whose `Data()` is `data` and whose `Socket()` is `socket`. -/
theorem Browser.NewTab_returns_tab {W B S : Type} (chrome : Chrome W B S) (browser : B)
    (uri : String) (st st1 : Browser B S × W) (data : TabData) (socket : Option S) (w2 : W)
    (hcmd : chrome.Cmd browser
        ("/json/new?" ++ QueryEscape (if "" = uri then "about:blank" else uri)) [] {} st =
      ((data, error.nil), st1))
    (hnew : chrome.New data.WebSocketDebuggerURL st1.2 = ((socket, error.nil), w2)) :
    ∃ tab : Tab B S,
      ((Browser.NewTab chrome browser uri).run st).1 = (some tab, error.nil) ∧
        tab.Browser = browser ∧ tab.Data = data ∧ tab.Socket = socket := by
  refine ⟨{ browser := browser, data := data, socket := socket }, ?_, rfl, rfl, rfl⟩
  simp [Browser.NewTab, StateT.run, bind, StateT.bind, pure, StateT.pure, Tab.Browser, Tab.Data,
    hcmd, hnew, modify, modifyGet, MonadStateOf.modifyGet, StateT.modifyGet]

/-- Witness of C10: a new tab on the demo browser, opened with the empty uri. -/
theorem Browser.NewTab_returns_tab_witness :
    ∃ tab : Tab Nat String,
      ((Browser.NewTab Demo.chrome 1 "").run ({ tabs := [] }, 0)).1 = (some tab, error.nil) ∧
        tab.Browser = 1 ∧
        tab.Data = { ID := "tab-1", URL := "/json/new?about%3Ablank",
                     WebSocketDebuggerURL := "ws://localhost:9222/devtools/page/tab-1" } ∧
        tab.Socket = some "ws://localhost:9222/devtools/page/tab-1" :=
  Browser.NewTab_returns_tab Demo.chrome 1 "" ({ tabs := [] }, 0) ({ tabs := [] }, 0) _ _ 1
    rfl rfl

/-! ## The dispatcher: table lemmas and the identifier invariant -/

namespace Dispatcher

variable {κ ω P : Type}

theorem lookup_eq_none_iff (id : Nat) (table : List (Nat × κ)) :
    lookup id table = none ↔ ∀ p ∈ table, p.1 ≠ id := by
  induction table with
  | nil => simp [lookup]
  | cons p rest ih =>
    by_cases h : p.1 = id
    · simp [lookup, h]
    · simp [lookup, h, ih]

theorem lookup_some_mem {id : Nat} {table : List (Nat × κ)} {caller : κ}
    (h : lookup id table = some caller) : (id, caller) ∈ table := by
  induction table with
  | nil => simp [lookup] at h
  | cons p rest ih =>
    by_cases hp : p.1 = id
    · simp [lookup, hp] at h
      have : p = (id, caller) := by
        cases p
        simp_all
      simp [this]
    · simp [lookup, hp] at h
      exact List.mem_cons_of_mem _ (ih h)

theorem lookup_of_mem {id : Nat} {table : List (Nat × κ)} {caller : κ}
    (hnd : (table.map Prod.fst).Nodup) (h : (id, caller) ∈ table) :
    lookup id table = some caller := by
  induction table with
  | nil => simp at h
  | cons p rest ih =>
    simp only [List.map_cons, List.nodup_cons] at hnd
    rcases List.mem_cons.1 h with h | h
    · subst h
      simp [lookup]
    · have hne : p.1 ≠ id := by
        intro hp
        apply hnd.1
        rw [hp]
        exact List.mem_map.2 ⟨(id, caller), h, rfl⟩
      simp [lookup, hne, ih hnd.2 h]

theorem mem_remove {id : Nat} {table : List (Nat × κ)} {p : Nat × κ} :
    p ∈ remove id table ↔ p ∈ table ∧ p.1 ≠ id := by
  simp [remove]

theorem remove_eq_self {id : Nat} {table : List (Nat × κ)} (h : ∀ p ∈ table, p.1 ≠ id) :
    remove id table = table := by
  simp only [remove, List.filter_eq_self]
  intro p hp
  simpa using h p hp

theorem remove_append_fresh {id : Nat} {table : List (Nat × κ)} {caller : κ}
    (h : ∀ p ∈ table, p.1 ≠ id) : remove id (table ++ [(id, caller)]) = table := by
  have := remove_eq_self h
  simp only [remove] at this ⊢
  simp [List.filter_append, this]

theorem remove_keys_nodup {id : Nat} {table : List (Nat × κ)}
    (h : (table.map Prod.fst).Nodup) : ((remove id table).map Prod.fst).Nodup := by
  unfold remove
  exact (List.Nodup.sublist ((List.filter_sublist table).map Prod.fst) h)

theorem WF_New (sites : ErrorSites) : WF (New sites : State κ ω P) := by
  simp [WF, New]

theorem insert_fresh {d : State κ ω P} (h : WF d) (caller : κ) :
    insert d.counter caller d.pending = some (d.pending ++ [(d.counter, caller)]) := by
  have : lookup d.counter d.pending = none :=
    (lookup_eq_none_iff _ _).2 fun p hp => Nat.ne_of_lt (h.1 p hp)
  simp [insert, this]

theorem Send_eq {d : State κ ω P} (h : WF d) (caller : κ) (command : Command P)
    (writeErr : error) :
    Send d caller command writeErr =
      if writeErr ≠ error.nil then
        .ok ({ d with counter := d.counter + 1 },
          [Effect.assigned caller d.counter,
           Effect.returned caller d.counter none (d.sites.wrap .SocketWriteFailed writeErr)])
      else
        .ok ({ d with counter := d.counter + 1, pending := d.pending ++ [(d.counter, caller)] },
          [Effect.assigned caller d.counter,
           Effect.wrote { id := d.counter, method := command.Method, params := command.Params }]) := by
  have hfresh : ∀ p ∈ d.pending, p.1 ≠ d.counter := fun p hp => Nat.ne_of_lt (h.1 p hp)
  simp only [Send, insert_fresh h, remove_append_fresh hfresh]

theorem step_WF {d : State κ ω P} (h : WF d) (op : Op κ ω P) :
    ∃ d1 e1, step d op = .ok (d1, e1) ∧ WF d1 ∧
      d1.counter = d.counter + sends [op] ∧
      assignedIds e1 = List.range' d.counter (sends [op]) := by
  cases op with
  | Send caller command writeErr =>
    simp only [step, Send_eq h]
    by_cases hw : writeErr = error.nil
    · rw [if_neg (by simp [hw])]
      refine ⟨_, _, rfl, ?_, by simp [sends], by simp [assignedIds, sends, List.range']⟩
      constructor
      · intro p hp
        simp only [List.mem_append, List.mem_singleton] at hp
        rcases hp with hp | hp
        · exact Nat.lt_succ_of_lt (h.1 p hp)
        · subst hp
          exact Nat.lt_succ_self _
      · simp only [List.map_append, List.map_cons, List.map_nil]
        refine List.Nodup.append h.2 (by simp) ?_
        intro a ha hb
        simp only [List.mem_singleton] at hb
        subst hb
        obtain ⟨p, hp, hpe⟩ := List.mem_map.1 ha
        exact absurd (hpe ▸ h.1 p hp) (Nat.lt_irrefl _)
    · rw [if_pos hw]
      refine ⟨_, _, rfl, ?_, by simp [sends], by simp [assignedIds, sends, List.range']⟩
      exact ⟨fun p hp => Nat.lt_succ_of_lt (h.1 p hp), h.2⟩
  | receive f =>
    refine ⟨(receive d f).1, (receive d f).2, rfl, ?_, ?_, ?_⟩
    · unfold receive handleFrame
      split
      · exact h
      · split
        · split
          · exact ⟨fun p hp => h.1 p (mem_remove.1 hp).1, remove_keys_nodup h.2⟩
          · exact h
        · split
          · split <;> exact h
          · exact h
    · unfold receive handleFrame
      simp only [sends]
      split
      · rfl
      · split
        · split <;> rfl
        · split
          · split <;> rfl
          · rfl
    · unfold receive handleFrame
      simp only [sends, List.range']
      split
      · rfl
      · split
        · split <;> rfl
        · split
          · split
            · rfl
            · rename_i h1 hs _
              generalize (h1 :: hs) = l
              induction l with
              | nil => rfl
              | cons a l ih => simpa [assignedIds] using ih
          · rfl
  | readFailure cause =>
    refine ⟨(readFailure d cause).1, (readFailure d cause).2, rfl, ?_, ?_, ?_⟩
    · unfold readFailure teardown
      split
      · exact h
      · simp [WF]
    · unfold readFailure teardown
      split <;> rfl
    · unfold readFailure teardown
      simp only [sends, List.range']
      split
      · rfl
      · generalize d.pending = l
        induction l with
        | nil => rfl
        | cons a l ih => simpa [assignedIds] using ih
  | Close observed =>
    refine ⟨(Close d observed).1, (Close d observed).2, rfl, ?_, ?_, ?_⟩
    · unfold Close teardown
      split
      · exact h
      · simp [WF]
    · unfold Close teardown
      split <;> rfl
    · unfold Close teardown
      simp only [sends, List.range']
      split
      · rfl
      · generalize d.pending = l
        induction l with
        | nil => rfl
        | cons a l ih => simpa [assignedIds] using ih
  | AddEventHandler handler =>
    exact ⟨_, _, rfl, h, rfl, rfl⟩


theorem run_WF {d : State κ ω P} (h : WF d) (ops : List (Op κ ω P)) :
    ∃ d1 e1, run d ops = .ok (d1, e1) ∧ WF d1 ∧
      d1.counter = d.counter + sends ops ∧
      assignedIds e1 = List.range' d.counter (sends ops) := by
  induction ops generalizing d with
  | nil => exact ⟨d, [], rfl, h, rfl, rfl⟩
  | cons op ops ih =>
    obtain ⟨d1, e1, hstep, hwf1, hc1, ha1⟩ := step_WF h op
    obtain ⟨d2, e2, hrun, hwf2, hc2, ha2⟩ := ih hwf1
    refine ⟨d2, e1 ++ e2, ?_, hwf2, ?_, ?_⟩
    · simp [run, hstep, hrun]
    · have hs : sends (op :: ops) = sends [op] + sends ops := by
        cases op <;> simp [sends, Nat.add_comm]
      omega
    · have hs : sends (op :: ops) = sends [op] + sends ops := by
        cases op <;> simp [sends, Nat.add_comm]
      have happ : ∀ (a b : List (Effect κ ω P)), assignedIds (a ++ b) = assignedIds a ++ assignedIds b := by
        intro a b
        induction a with
        | nil => rfl
        | cons x a iha => cases x <;> simp [assignedIds, iha]
      rw [happ, ha1, ha2, hc1, hs, List.range'_append_1, Nat.add_comm]

end Dispatcher

/-! ## The dispatcher: interleavings of callers on a healthy connection -/

namespace Dispatcher

variable {κ ω P : Type}

theorem assignments_append (a b : List (Effect κ ω P)) :
    assignments (a ++ b) = assignments a ++ assignments b := by
  induction a with
  | nil => rfl
  | cons x a ih => cases x <;> simp [assignments, ih]

theorem returns_append (a b : List (Effect κ ω P)) :
    returns (a ++ b) = returns a ++ returns b := by
  induction a with
  | nil => rfl
  | cons x a ih => cases x <;> simp [returns, ih]

theorem mem_returns {E : List (Effect κ ω P)} {p : Nat × κ} :
    p ∈ returns E ↔ ∃ r e, Effect.returned p.2 p.1 r e ∈ E := by
  induction E with
  | nil => simp [returns]
  | cons x E ih =>
    cases x <;> simp [returns, ih]
    case returned c i r e =>
      constructor
      · rintro (h | ⟨r', e', h⟩)
        · subst h
          exact ⟨r, e, Or.inl ⟨rfl, rfl, rfl, rfl⟩⟩
        · exact ⟨r', e', Or.inr h⟩
      · rintro ⟨r', e', h | h⟩
        · left
          obtain ⟨h1, h2, _, _⟩ := h
          cases p
          simp_all
        · exact Or.inr ⟨r', e', h⟩

theorem triggered_quiet (hs : List (EventHandler ω)) (name : String) (params : Bytes) :
    assignments (hs.map fun h => (Effect.triggered h name params : Effect κ ω P)) = [] ∧
      returns (hs.map fun h => (Effect.triggered h name params : Effect κ ω P)) = [] := by
  induction hs with
  | nil => exact ⟨rfl, rfl⟩
  | cons h hs ih => simpa [assignments, returns] using ih

/-- The two ways a frame is handled: it resolves the entry of its identifier, or
it changes nothing and wakes nobody. -/
theorem handleFrame_cases (d : State κ ω P) (f : Frame P) :
    (∃ id caller, f.id = some id ∧ lookup id d.pending = some caller ∧
        handleFrame d f =
          ({ d with pending := remove id d.pending },
            [Effect.returned caller id (replyOutcome d.sites f).1 (replyOutcome d.sites f).2])) ∨
      ((handleFrame d f).1 = d ∧ assignments (handleFrame d f).2 = [] ∧
        returns (handleFrame d f).2 = [] ∧ ∀ id, f.id = some id → lookup id d.pending = none) := by
  rcases hid : f.id with _ | id
  · right
    rcases hm : f.method with _ | name
    · have hf : handleFrame d f =
          (d, [Effect.logged "frame without identifier and method dropped"]) := by
        simp only [handleFrame, hid, hm]
      rw [hf]
      exact ⟨rfl, rfl, rfl, fun id h => by simp at h⟩
    · rcases hl : handlersFor name d.registry with _ | ⟨h0, hs⟩
      · have hf : handleFrame d f = (d, [Effect.logged "event without handler dropped"]) := by
          simp only [handleFrame, hid, hm, hl]
        rw [hf]
        exact ⟨rfl, rfl, rfl, fun id h => by simp at h⟩
      · have hf : handleFrame d f =
            (d, (h0 :: hs).map fun handler => Effect.triggered handler name f.params) := by
          simp only [handleFrame, hid, hm, hl]
        rw [hf]
        exact ⟨rfl, (triggered_quiet (h0 :: hs) name f.params).1,
          (triggered_quiet (h0 :: hs) name f.params).2, fun id h => by simp at h⟩
  · rcases hl : lookup id d.pending with _ | caller
    · right
      have hf : handleFrame d f = (d, [Effect.logged "reply with unknown identifier dropped"]) := by
        simp only [handleFrame, hid, hl]
      rw [hf]
      exact ⟨rfl, rfl, rfl, fun id' h => by cases h; exact hl⟩
    · left
      refine ⟨id, caller, rfl, hl, ?_⟩
      simp only [handleFrame, hid, hl]

theorem eq_of_fst_eq {l : List (Nat × κ)} (hnd : (l.map Prod.fst).Nodup) {p q : Nat × κ}
    (hp : p ∈ l) (hq : q ∈ l) (h : p.1 = q.1) : p = q :=
  List.inj_on_of_nodup_map hnd hp hq h

theorem eq_of_snd_eq {l : List (Nat × κ)} (hnd : (l.map Prod.snd).Nodup) {p q : Nat × κ}
    (hp : p ∈ l) (hq : q ∈ l) (h : p.2 = q.2) : p = q :=
  List.inj_on_of_nodup_map hnd hp hq h

theorem WF_push {d : State κ ω P} (h : WF d) (caller : κ) :
    WF ({ d with counter := d.counter + 1, pending := d.pending ++ [(d.counter, caller)] } :
      State κ ω P) := by
  constructor
  · intro p hp
    simp only [List.mem_append, List.mem_singleton] at hp
    rcases hp with hp | hp
    · exact Nat.lt_succ_of_lt (h.1 p hp)
    · subst hp
      exact Nat.lt_succ_self _
  · simp only [List.map_append, List.map_cons, List.map_nil]
    refine List.Nodup.append h.2 (by simp) ?_
    intro a ha hb
    simp only [List.mem_singleton] at hb
    obtain ⟨p, hp, hpe⟩ := List.mem_map.1 ha
    exact absurd (hb ▸ hpe ▸ h.1 p hp) (Nat.lt_irrefl _)

theorem Inv_quiet {d : State κ ω P} {E e1 : List (Effect κ ω P)} (h : Inv d E)
    (ha : assignments e1 = []) (hr : returns e1 = []) : Inv d (E ++ e1) := by
  unfold Inv at h ⊢
  rw [assignments_append, returns_append, ha, hr, List.append_nil, List.append_nil]
  exact h

theorem Inv_send {d : State κ ω P} {E : List (Effect κ ω P)} (h : Inv d E) (caller : κ)
    (r : Request P) (hfresh : caller ∉ (assignments E).map Prod.snd) :
    Inv ({ d with counter := d.counter + 1, pending := d.pending ++ [(d.counter, caller)] } :
        State κ ω P)
      (E ++ [Effect.assigned caller d.counter, Effect.wrote r]) := by
  obtain ⟨hwf, hopen, j3, j4, j5, j6, j7, j9⟩ := h
  have ha : assignments (E ++ [Effect.assigned caller d.counter, Effect.wrote r]) =
      assignments E ++ [(d.counter, caller)] := by
    rw [assignments_append]
    rfl
  have hr : returns (E ++ [Effect.assigned caller d.counter, Effect.wrote r]) = returns E := by
    rw [returns_append]
    simp [returns]
  refine ⟨WF_push hwf caller, hopen, ?_, ?_, ?_, ?_, ?_, ?_⟩
  · intro p hp
    rw [ha]
    simp only [List.mem_append, List.mem_singleton] at hp ⊢
    exact hp.imp (j3 p) id
  · intro p hp
    rw [hr]
    simp only [List.mem_append, List.mem_singleton] at hp
    rcases hp with hp | hp
    · exact j4 p hp
    · subst hp
      intro hin
      obtain ⟨q, hq, hqe⟩ := List.mem_map.1 hin
      exact hfresh (List.mem_map.2 ⟨q, j5 q hq, hqe⟩)
  · intro p hp
    rw [hr] at hp
    rw [ha]
    exact List.mem_append_left _ (j5 p hp)
  · rw [hr]
    exact j6
  · intro p hp
    rw [ha] at hp
    rw [hr]
    simp only [List.mem_append, List.mem_singleton] at hp ⊢
    rcases hp with hp | hp
    · exact (j7 p hp).imp id Or.inl
    · exact Or.inr (Or.inr hp)
  · rw [ha]
    simp only [List.map_append, List.map_cons, List.map_nil]
    refine List.Nodup.append j9 (by simp) ?_
    intro a ha' hb
    simp only [List.mem_singleton] at hb
    exact hfresh (hb ▸ ha')

theorem Inv_resolve {d : State κ ω P} {E : List (Effect κ ω P)} (h : Inv d E) (id : Nat)
    (caller : κ) (r : Option P) (e : error) (hl : lookup id d.pending = some caller) :
    Inv ({ d with pending := remove id d.pending } : State κ ω P)
      (E ++ [Effect.returned caller id r e]) := by
  obtain ⟨hwf, hopen, j3, j4, j5, j6, j7, j9⟩ := h
  have hmem : (id, caller) ∈ d.pending := lookup_some_mem hl
  have ha : assignments (E ++ [Effect.returned caller id r e]) = assignments E := by
    rw [assignments_append]
    simp [assignments]
  have hr : returns (E ++ [Effect.returned caller id r e]) = returns E ++ [(id, caller)] := by
    rw [returns_append]
    rfl
  refine ⟨⟨fun p hp => hwf.1 p (mem_remove.1 hp).1, remove_keys_nodup hwf.2⟩, hopen,
    ?_, ?_, ?_, ?_, ?_, ?_⟩
  · intro p hp
    rw [ha]
    exact j3 p (mem_remove.1 hp).1
  · intro p hp
    have hp' := mem_remove.1 hp
    rw [hr]
    simp only [List.map_append, List.map_cons, List.map_nil, List.mem_append, List.mem_singleton]
    rintro (hin | hin)
    · exact j4 p hp'.1 hin
    · have : p = (id, caller) := eq_of_snd_eq j9 (j3 p hp'.1) (j3 _ hmem) hin
      exact hp'.2 (by rw [this])
  · intro p hp
    rw [hr] at hp
    rw [ha]
    simp only [List.mem_append, List.mem_singleton] at hp
    rcases hp with hp | hp
    · exact j5 p hp
    · exact hp ▸ j3 _ hmem
  · rw [hr]
    simp only [List.map_append, List.map_cons, List.map_nil]
    refine List.Nodup.append j6 (by simp) ?_
    intro a ha' hb
    simp only [List.mem_singleton] at hb
    exact j4 _ hmem (hb ▸ ha')
  · intro p hp
    rw [ha] at hp
    rw [hr]
    rcases j7 p hp with h1 | h1
    · exact Or.inl (List.mem_append_left _ h1)
    · by_cases hpid : p.1 = id
      · have : p = (id, caller) := eq_of_fst_eq hwf.2 h1 hmem hpid
        exact Or.inl (by rw [this]; simp)
      · exact Or.inr (mem_remove.2 ⟨h1, hpid⟩)
  · rw [ha]
    exact j9

theorem step_Inv {d : State κ ω P} {E : List (Effect κ ω P)} (h : Inv d E) (op : Op κ ω P)
    (hh : healthy op) (hfresh : ∀ c ∈ callers [op], c ∉ (assignments E).map Prod.snd) :
    ∃ d1 e1, step d op = .ok (d1, e1) ∧ Inv d1 (E ++ e1) ∧ d1.sites = d.sites ∧
      (assignments e1).map Prod.snd = callers [op] ∧
      (∀ c i r e, Effect.returned c i r e ∈ e1 →
        ∃ f, op = Op.receive f ∧ f.id = some i ∧
          r = (replyOutcome d.sites f).1 ∧ e = (replyOutcome d.sites f).2) ∧
      (∀ f i c, op = Op.receive f → f.id = some i → (i, c) ∈ d.pending → (i, c) ∈ returns e1) := by
  cases op with
  | Send caller command writeErr =>
    have hw : writeErr = error.nil := hh
    subst hw
    refine ⟨{ d with counter := d.counter + 1, pending := d.pending ++ [(d.counter, caller)] },
      [Effect.assigned caller d.counter,
        Effect.wrote { id := d.counter, method := command.Method, params := command.Params }],
      by simp only [step]; rw [Send_eq h.1, if_neg (by simp)], ?_, rfl, rfl, ?_, ?_⟩
    · exact Inv_send h caller _ (hfresh caller (by simp [callers]))
    · intro c i r e hin
      simp at hin
    · intro f i c hop
      cases hop
  | receive f =>
    have hopen : d.closed = false := h.2.1
    have hstep : step d (Op.receive f) = .ok (handleFrame d f) := by
      simp [step, receive, hopen]
    rcases handleFrame_cases d f with ⟨id, caller, hid, hl, hf⟩ | ⟨h1, h2, h3, h4⟩
    · refine ⟨_, _, by rw [hstep, hf], Inv_resolve h id caller _ _ hl, rfl, rfl, ?_, ?_⟩
      · intro c i r e hin
        simp only [List.mem_singleton] at hin
        cases hin
        exact ⟨f, rfl, hid, rfl, rfl⟩
      · intro f' i c hop hid' hmem
        cases hop
        rw [hid] at hid'
        cases hid'
        have : lookup id d.pending = some c := lookup_of_mem h.1.2 hmem
        rw [hl] at this
        cases this
        simp [returns]
    · refine ⟨(handleFrame d f).1, (handleFrame d f).2, hstep, ?_, by rw [h1], ?_, ?_, ?_⟩
      · rw [h1]
        exact Inv_quiet h h2 h3
      · rw [h2]
        rfl
      · intro c i r e hin
        have : (i, c) ∈ returns (handleFrame d f).2 := mem_returns.2 ⟨r, e, hin⟩
        rw [h3] at this
        simp at this
      · intro f' i c hop hid' hmem
        cases hop
        have := (lookup_eq_none_iff _ _).1 (h4 i hid') (i, c) hmem
        exact absurd rfl this
  | readFailure cause => exact absurd hh id
  | Close observed => exact absurd hh id
  | AddEventHandler handler =>
    refine ⟨_, _, rfl, ?_, rfl, rfl, ?_, ?_⟩
    · rw [List.append_nil]
      exact h
    · intro c i r e hin
      simp at hin
    · intro f i c hop
      cases hop

theorem run_append (d : State κ ω P) (a b : List (Op κ ω P)) :
    run d (a ++ b) =
      match run d a with
      | .error e => .error e
      | .ok r =>
        match run r.1 b with
        | .error e => .error e
        | .ok r2 => .ok (r2.1, r.2 ++ r2.2) := by
  induction a generalizing d with
  | nil =>
    simp only [List.nil_append, run, List.nil_append]
    rcases run d b with e | r <;> rfl
  | cons op a ih =>
    show run d (op :: (a ++ b)) = _
    simp only [run]
    cases step d op with
    | error e => rfl
    | ok r =>
      simp only
      rw [ih]
      cases run r.1 a with
      | error e => rfl
      | ok r1 =>
        simp only
        cases run r1.1 b with
        | error e => rfl
        | ok r2 => simp [List.append_assoc]

theorem run_Inv {d : State κ ω P} {E : List (Effect κ ω P)} (h : Inv d E)
    (ops : List (Op κ ω P)) (hh : ∀ op ∈ ops, healthy op)
    (hfresh : ((assignments E).map Prod.snd ++ callers ops).Nodup) :
    ∃ d1 e1, run d ops = .ok (d1, e1) ∧ Inv d1 (E ++ e1) ∧ d1.sites = d.sites ∧
      (assignments e1).map Prod.snd = callers ops ∧
      (∀ c i r e, Effect.returned c i r e ∈ e1 →
        ∃ f, Op.receive f ∈ ops ∧ f.id = some i ∧
          r = (replyOutcome d.sites f).1 ∧ e = (replyOutcome d.sites f).2) := by
  induction ops generalizing d E with
  | nil =>
    refine ⟨d, [], rfl, by rw [List.append_nil]; exact h, rfl, rfl, ?_⟩
    intro c i r e hin
    simp at hin
  | cons op ops ih =>
    have hsplit : callers (op :: ops) = callers [op] ++ callers ops := by
      cases op <;> simp [callers]
    rw [hsplit, ← List.append_assoc] at hfresh
    have hfresh1 : ∀ c ∈ callers [op], c ∉ (assignments E).map Prod.snd := by
      intro c hc hin
      have := (List.nodup_append.1 (List.nodup_append.1 hfresh).1).2.2
      exact this hin hc
    obtain ⟨d1, e1, hstep, hinv1, hs1, hc1, hret1, _⟩ :=
      step_Inv h op (hh op (List.mem_cons_self _ _)) hfresh1
    have hfresh2 : ((assignments (E ++ e1)).map Prod.snd ++ callers ops).Nodup := by
      rw [assignments_append, List.map_append, hc1]
      exact hfresh
    obtain ⟨d2, e2, hrun, hinv2, hs2, hc2, hret2⟩ :=
      ih hinv1 (fun o ho => hh o (List.mem_cons_of_mem _ ho)) hfresh2
    refine ⟨d2, e1 ++ e2, by simp [run, hstep, hrun], ?_, by rw [hs2, hs1], ?_, ?_⟩
    · rw [← List.append_assoc]
      exact hinv2
    · rw [assignments_append, List.map_append, hc1, hc2, hsplit]
    · intro c i r e hin
      rcases List.mem_append.1 hin with hin | hin
      · obtain ⟨f, hop, hid, hr, he⟩ := hret1 c i r e hin
        exact ⟨f, hop ▸ List.mem_cons_self _ _, hid, hr, he⟩
      · obtain ⟨f, hop, hid, hr, he⟩ := hret2 c i r e hin
        exact ⟨f, List.mem_cons_of_mem _ hop, hid, hs1 ▸ hr, hs1 ▸ he⟩

theorem Inv_New (sites : ErrorSites) : Inv (New sites : State κ ω P) [] := by
  simp [Inv, WF, New, assignments, returns]

end Dispatcher

/-! ## The dispatcher: identifiers, replies, teardown, events -/

/-- C11: on a fresh dispatcher and for every sequence of steps (in any
interleaving, with any write results and frames), no `Send` finds its
identifier already pending, the identifiers assigned are 1, 2, ..., N in this
order (the k-th `Send` is assigned k), they are pairwise distinct, and at the
end no identifier is pending twice and every pending identifier is below the
one the next `Send` will be given. -/
theorem Dispatcher.identifiers_count_from_one {κ ω P : Type} (sites : Dispatcher.ErrorSites)
    (ops : List (Dispatcher.Op κ ω P)) :
    ∃ d E, Dispatcher.run (Dispatcher.New sites) ops = .ok (d, E) ∧
      Dispatcher.assignedIds E = List.range' 1 (Dispatcher.sends ops) ∧
      (∀ k, k < Dispatcher.sends ops → (Dispatcher.assignedIds E)[k]? = some (k + 1)) ∧
      (Dispatcher.assignedIds E).Nodup ∧
      (d.pending.map Prod.fst).Nodup ∧
      d.counter = Dispatcher.sends ops + 1 ∧
      ∀ p ∈ d.pending, p.1 < d.counter := by
  obtain ⟨d, E, hrun, hwf, hc, ha⟩ := Dispatcher.run_WF (Dispatcher.WF_New sites) ops
  have hc1 : d.counter = Dispatcher.sends ops + 1 := by
    rw [hc]
    simp [Dispatcher.New, Nat.add_comm]
  have ha1 : Dispatcher.assignedIds E = List.range' 1 (Dispatcher.sends ops) := ha
  refine ⟨d, E, hrun, ha1, ?_, ?_, hwf.2, hc1, hwf.1⟩
  · intro k hk
    rw [ha1, List.getElem?_range' _ _ hk]
    simp [Nat.add_comm]
  · rw [ha1]
    exact List.nodup_range' _ _

/-- C12: the receive loop handling a reply frame with identifier `id`. If `id` is
in the Pending Request Table for `caller`, the entry is removed and `caller`
is resolved with the frame's result or error, by one effect; the other
entries stay, and the same frame read again is dropped (exactly once). If
`id` is not in the table, the frame is dropped: the state (table, registry,
closed mark) is unchanged and the only effect is a log entry. -/
theorem Dispatcher.reply_resolves_entry_once {κ ω P : Type} (d : Dispatcher.State κ ω P)
    (f : Dispatcher.Frame P) (id : Nat) (hid : f.id = some id) :
    (∀ caller, Dispatcher.lookup id d.pending = some caller →
        Dispatcher.handleFrame d f =
            ({ d with pending := Dispatcher.remove id d.pending },
              [Dispatcher.Effect.returned caller id (Dispatcher.replyOutcome d.sites f).1
                (Dispatcher.replyOutcome d.sites f).2]) ∧
          Dispatcher.lookup id (Dispatcher.handleFrame d f).1.pending = none ∧
          (∀ p ∈ d.pending, p.1 ≠ id → p ∈ (Dispatcher.handleFrame d f).1.pending) ∧
          Dispatcher.handleFrame (Dispatcher.handleFrame d f).1 f =
            ((Dispatcher.handleFrame d f).1,
              [Dispatcher.Effect.logged "reply with unknown identifier dropped"])) ∧
      (Dispatcher.lookup id d.pending = none →
        Dispatcher.handleFrame d f =
          (d, [Dispatcher.Effect.logged "reply with unknown identifier dropped"])) := by
  have hgone : Dispatcher.lookup id (Dispatcher.remove id d.pending) = none :=
    (Dispatcher.lookup_eq_none_iff _ _).2 fun p hp => (Dispatcher.mem_remove.1 hp).2
  constructor
  · intro caller hc
    have h1 : Dispatcher.handleFrame d f =
        ({ d with pending := Dispatcher.remove id d.pending },
          [Dispatcher.Effect.returned caller id (Dispatcher.replyOutcome d.sites f).1
            (Dispatcher.replyOutcome d.sites f).2]) := by
      simp [Dispatcher.handleFrame, hid, hc]
    refine ⟨h1, ?_, ?_, ?_⟩
    · rw [h1]
      exact hgone
    · intro p hp hne
      rw [h1]
      exact Dispatcher.mem_remove.2 ⟨hp, hne⟩
    · rw [h1]
      simp [Dispatcher.handleFrame, hid, hgone]
  · intro hn
    simp [Dispatcher.handleFrame, hid, hn]

/-- C13: for every K and every open dispatcher with K callers blocked in `Send`, a
read failure and `Close` both run the teardown: each of the K pending entries
is resolved, once, with a `SocketReadFailed` wrapping the cause; afterwards
the Pending Request Table is empty and the connection is marked closed. -/
theorem Dispatcher.teardown_resolves_all_pending {κ ω P : Type} (d : Dispatcher.State κ ω P)
    (K : Nat) (cause : error) (hK : d.pending.length = K) (hopen : d.closed = false) :
    Dispatcher.Close d cause = Dispatcher.readFailure d cause ∧
      (Dispatcher.readFailure d cause).1.pending = [] ∧
      (Dispatcher.readFailure d cause).1.closed = true ∧
      (Dispatcher.readFailure d cause).2 =
        d.pending.map (fun p => Dispatcher.Effect.returned p.2 p.1 none
          (errors.SocketReadFailed
            { Caller := d.sites.Caller .SocketReadFailed, Err := cause,
              Msg := d.sites.Msg .SocketReadFailed })) ∧
      ((Dispatcher.readFailure d cause).2).length = K ∧
      Dispatcher.returns (Dispatcher.readFailure d cause).2 = d.pending := by
  have hr : Dispatcher.readFailure d cause = Dispatcher.teardown d cause := by
    simp [Dispatcher.readFailure, hopen]
  have hc : Dispatcher.Close d cause = Dispatcher.teardown d cause := by
    simp [Dispatcher.Close, hopen]
  refine ⟨by rw [hr, hc], by rw [hr]; rfl, by rw [hr]; rfl, by rw [hr]; rfl, ?_, ?_⟩
  · rw [hr]
    simp [Dispatcher.teardown, hK]
  · rw [hr]
    simp only [Dispatcher.teardown]
    generalize d.pending = l
    induction l with
    | nil => rfl
    | cons p l ih => simp [Dispatcher.returns, ih]

/-- Witness of C12: on the demo dispatcher the reply to identifier 2 wakes `bob`
with the result and leaves `alice` pending. -/
theorem Dispatcher.reply_resolves_entry_once_witness :
    Dispatcher.handleFrame Demo.blocked { id := some 2, result := some "y" } =
      ({ Demo.blocked with pending := [(1, "alice")] },
        [Dispatcher.Effect.returned "bob" 2 (some "y") error.nil]) :=
  ((Dispatcher.reply_resolves_entry_once Demo.blocked { id := some 2, result := some "y" } 2
    rfl).1 "bob" rfl).1

/-- Witness of C13: closing the demo dispatcher wakes both blocked callers. -/
theorem Dispatcher.teardown_resolves_all_pending_witness :
    (Dispatcher.Close Demo.blocked (error.foreign "EOF")).1.pending = [] ∧
      (Dispatcher.Close Demo.blocked (error.foreign "EOF")).1.closed = true ∧
      Dispatcher.returns (Dispatcher.Close Demo.blocked (error.foreign "EOF")).2 =
        [(1, "alice"), (2, "bob")] := by
  have h := Dispatcher.teardown_resolves_all_pending Demo.blocked 2 (error.foreign "EOF") rfl rfl
  rw [h.1]
  exact ⟨h.2.1, h.2.2.1, h.2.2.2.2.2⟩

/-- C14: on a well-formed open dispatcher, a reply to the pending identifier `id`
that carries an error payload makes the `Send` of the matching caller return a
`SocketErrorResponse` wrapping the server-reported error and no result. The
connection stays usable: it is not marked closed, the registry is unchanged,
and a later `Send` whose write succeeds is registered and returns the result
of its own reply with a nil error. -/
theorem Dispatcher.error_reply_keeps_connection_usable {κ ω P : Type}
    (d : Dispatcher.State κ ω P) (f : Dispatcher.Frame P) (id : Nat) (caller : κ)
    (e : Dispatcher.ServerError P) (hwf : Dispatcher.WF d) (hopen : d.closed = false)
    (hid : f.id = some id) (herr : f.err = some e)
    (hp : Dispatcher.lookup id d.pending = some caller) :
    (Dispatcher.receive d f).2 =
        [Dispatcher.Effect.returned caller id none
          (errors.SocketErrorResponse
            { Caller := d.sites.Caller .SocketErrorResponse, Err := error.foreign e.message,
              Msg := d.sites.Msg .SocketErrorResponse })] ∧
      (Dispatcher.receive d f).1.closed = false ∧
      (Dispatcher.receive d f).1.registry = d.registry ∧
      ∀ (later : κ) (command : Command P) (result : Option P),
        ∃ d2, Dispatcher.Send (Dispatcher.receive d f).1 later command error.nil =
            .ok (d2, [Dispatcher.Effect.assigned later d.counter,
              Dispatcher.Effect.wrote
                { id := d.counter, method := command.Method, params := command.Params }]) ∧
          (Dispatcher.receive d2 { id := some d.counter, result := result }).2 =
            [Dispatcher.Effect.returned later d.counter result error.nil] := by
  have h1 : Dispatcher.receive d f =
      ({ d with pending := Dispatcher.remove id d.pending },
        [Dispatcher.Effect.returned caller id (Dispatcher.replyOutcome d.sites f).1
          (Dispatcher.replyOutcome d.sites f).2]) := by
    simp [Dispatcher.receive, hopen, Dispatcher.handleFrame, hid, hp]
  have hwf1 : Dispatcher.WF ({ d with pending := Dispatcher.remove id d.pending } : Dispatcher.State κ ω P) :=
    ⟨fun p hp => hwf.1 p (Dispatcher.mem_remove.1 hp).1, Dispatcher.remove_keys_nodup hwf.2⟩
  refine ⟨?_, by rw [h1]; exact hopen, by rw [h1], ?_⟩
  · rw [h1]
    simp [Dispatcher.replyOutcome, herr, Dispatcher.ErrorSites.wrap, errors.ofKind]
  · intro later command result
    rw [h1]
    refine ⟨_, by rw [Dispatcher.Send_eq hwf1]; simp; rfl, ?_⟩
    have hl : Dispatcher.lookup d.counter
        (Dispatcher.remove id d.pending ++ [(d.counter, later)]) = some later := by
      apply Dispatcher.lookup_of_mem
      · simp only [List.map_append, List.map_cons, List.map_nil]
        refine List.Nodup.append hwf1.2 (by simp) ?_
        intro a ha hb
        simp only [List.mem_singleton] at hb
        obtain ⟨p, hp, hpe⟩ := List.mem_map.1 ha
        exact absurd (hb ▸ hpe ▸ hwf1.1 p hp) (Nat.lt_irrefl _)
      · simp
    simp [Dispatcher.receive, hopen, Dispatcher.handleFrame, hl, Dispatcher.replyOutcome]

/-- Witness of C14: `bob`'s command is rejected with the message `bad`; `carol`
then sends and gets the result of her reply. -/
theorem Dispatcher.error_reply_keeps_connection_usable_witness :
    (Dispatcher.receive Demo.blocked
        { id := some 2, err := some { message := "bad" } }).2 =
      [Dispatcher.Effect.returned "bob" 2 none
        (errors.SocketErrorResponse
          { Caller := some [("pc", "socket.Send"), ("file", "socket.go"), ("line", "10")],
            Err := error.foreign "bad", Msg := "error response" })] ∧
      ∃ d2, Dispatcher.Send (Dispatcher.receive Demo.blocked
            { id := some 2, err := some { message := "bad" } }).1 "carol"
            { Method := "Foo.bar" } error.nil =
          .ok (d2, [Dispatcher.Effect.assigned "carol" 3,
            Dispatcher.Effect.wrote { id := 3, method := "Foo.bar", params := none }]) ∧
        (Dispatcher.receive d2 { id := some 3, result := some "y" }).2 =
          [Dispatcher.Effect.returned "carol" 3 (some "y") error.nil] := by
  have h := Dispatcher.error_reply_keeps_connection_usable Demo.blocked
    { id := some 2, err := some { message := "bad" } } 2 "bob" { message := "bad" }
    (by simp [Dispatcher.WF, Demo.blocked]) rfl rfl rfl rfl
  exact ⟨h.1, h.2.2.2 "carol" { Method := "Foo.bar" } (some "y")⟩

/-- C15: on a well-formed dispatcher, a `Send` whose write fails returns
`SocketWriteFailed`, wrapping the write error, in the same step, and
afterwards the Pending Request Table holds no entry for the identifier the
command was given (the table is what it was before). -/
theorem Dispatcher.write_failure_returns_at_once {κ ω P : Type} (d : Dispatcher.State κ ω P)
    (caller : κ) (command : Command P) (writeErr : error) (hwf : Dispatcher.WF d)
    (hw : writeErr ≠ error.nil) :
    ∃ d1, Dispatcher.Send d caller command writeErr =
        .ok (d1, [Dispatcher.Effect.assigned caller d.counter,
          Dispatcher.Effect.returned caller d.counter none
            (errors.SocketWriteFailed
              { Caller := d.sites.Caller .SocketWriteFailed, Err := writeErr,
                Msg := d.sites.Msg .SocketWriteFailed })]) ∧
      Dispatcher.lookup d.counter d1.pending = none ∧
      d1.pending = d.pending := by
  refine ⟨{ d with counter := d.counter + 1 }, ?_, ?_, rfl⟩
  · rw [Dispatcher.Send_eq hwf, if_pos hw]
    rfl
  · exact (Dispatcher.lookup_eq_none_iff _ _).2 fun p hp => Nat.ne_of_lt (hwf.1 p hp)

/-- Witness of C15: a write that fails with a broken pipe on the demo dispatcher. -/
theorem Dispatcher.write_failure_returns_at_once_witness :
    ∃ d1, Dispatcher.Send Demo.blocked "carol" { Method := "Foo.bar" }
        (error.foreign "broken pipe") =
        .ok (d1, [Dispatcher.Effect.assigned "carol" 3,
          Dispatcher.Effect.returned "carol" 3 none
            (errors.SocketWriteFailed
              { Caller := some [("pc", "socket.Send"), ("file", "socket.go"), ("line", "10")],
                Err := error.foreign "broken pipe", Msg := "socket write failed" })]) ∧
      Dispatcher.lookup 3 d1.pending = none ∧
      d1.pending = [(1, "alice"), (2, "bob")] :=
  Dispatcher.write_failure_returns_at_once Demo.blocked "carol" { Method := "Foo.bar" }
    (error.foreign "broken pipe") (by simp [Dispatcher.WF, Demo.blocked]) (by simp)

/-- C16: the receive loop handling an event frame for the method name `name`, on
any state. The state is unchanged; every handler registered for `name` is
triggered with the frame's payload; nothing is triggered that is not a
registered handler of that name with that payload; no `Send` returns (no
error reaches a caller); and with no handler for `name` the only effect is a
log entry. -/
theorem Dispatcher.event_triggers_handlers_of_its_name {κ ω P : Type}
    (d : Dispatcher.State κ ω P) (f : Dispatcher.Frame P) (name : String)
    (hid : f.id = none) (hm : f.method = some name) :
    (Dispatcher.handleFrame d f).1 = d ∧
      (∀ h ∈ d.registry, h.Name = name →
        Dispatcher.Effect.triggered h name f.params ∈ (Dispatcher.handleFrame d f).2) ∧
      (∀ h n p, Dispatcher.Effect.triggered h n p ∈ (Dispatcher.handleFrame d f).2 →
        h ∈ d.registry ∧ h.Name = name ∧ n = name ∧ p = f.params) ∧
      (∀ c i r e, Dispatcher.Effect.returned c i r e ∉ (Dispatcher.handleFrame d f).2) ∧
      ((∀ h ∈ d.registry, h.Name ≠ name) →
        (Dispatcher.handleFrame d f).2 =
          [Dispatcher.Effect.logged "event without handler dropped"]) := by
  have hmem : ∀ h, h ∈ Dispatcher.handlersFor name d.registry ↔ h ∈ d.registry ∧ h.Name = name := by
    intro h
    simp [Dispatcher.handlersFor]
  rcases hl : Dispatcher.handlersFor name d.registry with _ | ⟨h0, hs⟩
  · have hf : Dispatcher.handleFrame d f =
        (d, [Dispatcher.Effect.logged "event without handler dropped"]) := by
      simp [Dispatcher.handleFrame, hid, hm, hl]
    rw [hf]
    refine ⟨rfl, ?_, ?_, ?_, fun _ => rfl⟩
    · intro h hh hn
      have := (hmem h).2 ⟨hh, hn⟩
      rw [hl] at this
      simp at this
    · intro h n p hin
      simp at hin
    · intro c i r e hin
      simp at hin
  · have hf : Dispatcher.handleFrame d f =
        (d, (h0 :: hs).map fun handler => Dispatcher.Effect.triggered handler name f.params) := by
      simp [Dispatcher.handleFrame, hid, hm, hl]
    rw [hf]
    refine ⟨rfl, ?_, ?_, ?_, ?_⟩
    · intro h hh hn
      have := (hmem h).2 ⟨hh, hn⟩
      rw [hl] at this
      exact List.mem_map.2 ⟨h, this, rfl⟩
    · intro h n p hin
      obtain ⟨h', hh', heq⟩ := List.mem_map.1 hin
      rw [← hl] at hh'
      have := (hmem h').1 hh'
      cases heq
      exact ⟨this.1, this.2, rfl, rfl⟩
    · intro c i r e hin
      obtain ⟨h', _, heq⟩ := List.mem_map.1 hin
      cases heq
    · intro hnone
      have := (hmem h0).1 (by rw [hl]; simp)
      exact absurd this.2 (hnone h0 this.1)

/-- Witness of C16: `Foo.changed` triggers the two handlers of that name on the
demo dispatcher, and not the handler of `Bar.changed`. -/
theorem Dispatcher.event_triggers_handlers_of_its_name_witness :
    (Dispatcher.handleFrame Demo.blocked { method := some "Foo.changed", params := [122, 51] }).2 =
        [Dispatcher.Effect.triggered (Demo.counting "Foo.changed") "Foo.changed" [122, 51],
         Dispatcher.Effect.triggered (Demo.counting "Foo.changed") "Foo.changed" [122, 51]] ∧
      ∀ c i r e, Dispatcher.Effect.returned c i r e ∉
        (Dispatcher.handleFrame Demo.blocked
          { method := some "Foo.changed", params := [122, 51] }).2 :=
  ⟨rfl, (Dispatcher.event_triggers_handlers_of_its_name Demo.blocked
    { method := some "Foo.changed", params := [122, 51] } "Foo.changed" rfl rfl).2.2.2.1⟩

/-- C17: N concurrent `Send` calls on a healthy connection, in every interleaving
of their registrations with the frames read by the receive loop (`ops`: sends
whose write succeeds, frames, handler registrations; one caller name per
call). The run never fails; every call is given an identifier; no caller
returns twice; a caller returns only under the identifier it was assigned and
with the outcome of a reply frame carrying that identifier; every call has
either returned or is still blocked in the table under its identifier, and
then any reply with that identifier wakes it; and a call whose reply is read
after it was sent has returned, so no answered caller stays blocked. -/
theorem Dispatcher.concurrent_sends_get_their_own_reply {κ ω P : Type}
    (sites : Dispatcher.ErrorSites) (ops : List (Dispatcher.Op κ ω P))
    (hh : ∀ op ∈ ops, Dispatcher.healthy op) (hc : (Dispatcher.callers ops).Nodup) :
    ∃ d E, Dispatcher.run (Dispatcher.New sites) ops = .ok (d, E) ∧
      (Dispatcher.assignments E).map Prod.snd = Dispatcher.callers ops ∧
      ((Dispatcher.returns E).map Prod.snd).Nodup ∧
      (∀ c i r e, Dispatcher.Effect.returned c i r e ∈ E →
        (i, c) ∈ Dispatcher.assignments E ∧
          ∃ f, Dispatcher.Op.receive f ∈ ops ∧ f.id = some i ∧
            r = (Dispatcher.replyOutcome sites f).1 ∧ e = (Dispatcher.replyOutcome sites f).2) ∧
      (∀ p ∈ Dispatcher.assignments E,
        (p ∈ Dispatcher.returns E ∧ p ∉ d.pending) ∨
          (p ∉ Dispatcher.returns E ∧ p ∈ d.pending)) ∧
      (∀ p ∈ d.pending, ∀ f : Dispatcher.Frame P, f.id = some p.1 →
        (Dispatcher.receive d f).2 =
          [Dispatcher.Effect.returned p.2 p.1 (Dispatcher.replyOutcome sites f).1
            (Dispatcher.replyOutcome sites f).2]) ∧
      (∀ pre f post d1 E1 i c, ops = pre ++ Dispatcher.Op.receive f :: post →
        Dispatcher.run (Dispatcher.New sites) pre = .ok (d1, E1) →
        (i, c) ∈ Dispatcher.assignments E1 → f.id = some i →
        (i, c) ∈ Dispatcher.returns E) := by
  have hc0 : ((Dispatcher.assignments ([] : List (Dispatcher.Effect κ ω P))).map Prod.snd ++
      Dispatcher.callers ops).Nodup := by
    simpa [Dispatcher.assignments] using hc
  obtain ⟨d, E, hrun, hinv, hs, hca, hret⟩ :=
    Dispatcher.run_Inv (Dispatcher.Inv_New sites) ops hh hc0
  rw [List.nil_append] at hinv
  obtain ⟨hwf, hopen, j3, j4, j5, j6, j7, j9⟩ := hinv
  have hsites : d.sites = sites := hs
  refine ⟨d, E, hrun, hca, j6, ?_, ?_, ?_, ?_⟩
  · intro c i r e hin
    exact ⟨j5 (i, c) (Dispatcher.mem_returns.2 ⟨r, e, hin⟩), hret c i r e hin⟩
  · intro p hp
    rcases j7 p hp with h1 | h1
    · left
      refine ⟨h1, fun hpen => ?_⟩
      exact j4 p hpen (List.mem_map.2 ⟨p, h1, rfl⟩)
    · right
      refine ⟨fun hr => ?_, h1⟩
      exact j4 p h1 (List.mem_map.2 ⟨p, hr, rfl⟩)
  · intro p hp f hid
    have hl : Dispatcher.lookup p.1 d.pending = some p.2 :=
      Dispatcher.lookup_of_mem hwf.2 hp
    simp [Dispatcher.receive, hopen, Dispatcher.handleFrame, hid, hl, hsites]
  · intro pre f post d1 E1 i c hops hpre hass hid
    subst hops
    have hsplit : ∀ a b : List (Dispatcher.Op κ ω P),
        Dispatcher.callers (a ++ b) = Dispatcher.callers a ++ Dispatcher.callers b := by
      intro a b
      induction a with
      | nil => rfl
      | cons x a ih => cases x <;> simp [Dispatcher.callers, ih]
    have hcpre : ((Dispatcher.assignments ([] : List (Dispatcher.Effect κ ω P))).map Prod.snd ++
        Dispatcher.callers pre).Nodup := by
      rw [hsplit] at hc
      simpa [Dispatcher.assignments] using (List.nodup_append.1 hc).1
    obtain ⟨d1', E1', hrun1, hinv1, _, _, _⟩ :=
      Dispatcher.run_Inv (Dispatcher.Inv_New sites) pre
        (fun o ho => hh o (List.mem_append_left _ ho)) hcpre
    rw [hpre] at hrun1
    cases hrun1
    rw [List.nil_append] at hinv1
    obtain ⟨d2, e2, hstep, _, _, _, _, hwake⟩ :=
      Dispatcher.step_Inv hinv1 (Dispatcher.Op.receive f) trivial
        (by intro c hc; simp [Dispatcher.callers] at hc)
    rw [Dispatcher.run_append, hpre] at hrun
    simp only [Dispatcher.run, hstep] at hrun
    rcases hpost : Dispatcher.run d2 post with err | r3
    · rw [hpost] at hrun
      cases hrun
    · rw [hpost] at hrun
      simp only at hrun
      cases hrun
      rw [Dispatcher.returns_append, Dispatcher.returns_append]
      rcases hinv1.2.2.2.2.2.2.1 (i, c) hass with h1 | h1
      · exact List.mem_append_left _ h1
      · exact List.mem_append_right _ (List.mem_append_left _ (hwake f i c rfl hid h1))

/-- Witness of C17: `alice`, `bob` and `carol` send while replies arrive out of
order. -/
theorem Dispatcher.concurrent_sends_get_their_own_reply_witness :
    (Dispatcher.callers (Demo.schedule)).Nodup ∧
      ∃ d E, Dispatcher.run (Dispatcher.New Demo.sites) Demo.schedule = .ok (d, E) ∧
        (Dispatcher.assignments E).map Prod.snd = ["alice", "bob", "carol"] ∧
        ((Dispatcher.returns E).map Prod.snd).Nodup := by
  have hc : (Dispatcher.callers (Demo.schedule)).Nodup := by
    simp [Demo.schedule, Dispatcher.callers]
  obtain ⟨d, E, hrun, h1, h2, _⟩ := Dispatcher.concurrent_sends_get_their_own_reply Demo.sites
    Demo.schedule (by simp [Demo.schedule, Dispatcher.healthy]) hc
  exact ⟨hc, d, E, hrun, h1, h2⟩

/-! ## encoding/json: lemmas -/

theorem json.foldl_keeps_error {α : Type} (set : α → String → json.Value → α × error)
    (members : List (String × json.Value)) (acc : α × error) (h : acc.2 ≠ error.nil) :
    (members.foldl (fun acc kv =>
      let r := set acc.1 kv.1 kv.2
      (r.1, if acc.2 = error.nil then r.2 else acc.2)) acc).2 ≠ error.nil := by
  induction members generalizing acc with
  | nil => exact h
  | cons kv rest ih =>
    simp only [List.foldl_cons]
    apply ih
    simp [h]

theorem json.unmarshalStruct_error {α : Type} (set : α → String → json.Value → α × error)
    (goType key : String) (v : json.Value) (hset : ∀ o, (set o key v).2 ≠ error.nil)
    (members : List (String × json.Value)) (hmem : (key, v) ∈ members) (target : α) :
    (json.unmarshalStruct set goType (.object members) target).2 ≠ error.nil := by
  simp only [json.unmarshalStruct]
  generalize (target, error.nil) = acc
  induction members generalizing acc with
  | nil => simp at hmem
  | cons kv rest ih =>
    simp only [List.foldl_cons]
    rcases List.mem_cons.1 hmem with h | h
    · apply json.foldl_keeps_error
      subst h
      by_cases hacc : acc.2 = error.nil
      · simpa [hacc] using hset acc.1
      · simp [hacc]
    · exact ih h _

theorem json.lookup_field_other {α : Type} [json.Encodable α] (key name : String)
    (h : (key == name) = false) (omitempty : Bool) (v : α) (rest : List (String × json.Value)) :
    List.lookup key (json.field name omitempty v ++ rest) = List.lookup key rest := by
  unfold json.field
  split <;> simp [List.lookup, h]

theorem json.lookup_field_same {α : Type} [json.Encodable α] (key : String)
    (omitempty : Bool) (v : α) (rest : List (String × json.Value)) :
    List.lookup key (json.field key omitempty v ++ rest) =
      if omitempty && json.Encodable.isEmptyValue v then List.lookup key rest
      else some (json.Encodable.Marshal v) := by
  unfold json.field
  split <;> simp [List.lookup]

theorem json.lookup_field_last {α : Type} [json.Encodable α] (key name : String)
    (h : (key == name) = false) (omitempty : Bool) (v : α) :
    List.lookup key (json.field name omitempty v) = none := by
  unfold json.field
  split <;> simp [List.lookup, h]

/-! ## The type declarations under encoding/json -/

/-- C18 (what the code does): `omitempty` never leaves out a struct. The two
fields marked Optional whose type is a struct are always encoded: every
`ConsoleAPICalledEvent` has the member `stackTrace` and every `StackTrace` the
member `parentId`, also at their zero values. And `ReturnByValue` of
`CallFunctionOnParams`, which is not marked Optional, is left out when false.
The other example of the claim holds: a `ReplaySnapshotParams` with only
`SnapshotID` set encodes to the single member `snapshotId`. -/
theorem runtime.optional_struct_fields_always_encoded :
    (∀ v : runtime.ConsoleAPICalledEvent, "stackTrace" ∈ (json.Encodable.Marshal v).keys) ∧
      (∀ v : runtime.StackTrace, "parentId" ∈ (json.Encodable.Marshal v).keys) ∧
      (json.Encodable.Marshal ({} : runtime.ConsoleAPICalledEvent)).keys =
        ["type", "args", "executionContextId", "timestamp", "stackTrace"] ∧
      (json.Encodable.Marshal ({} : runtime.StackTrace)).keys = ["callFrames", "parentId"] ∧
      (json.Encodable.Marshal
        ({ FunctionDeclaration := "f" } : runtime.CallFunctionOnParams)).keys =
        ["functionDeclaration"] ∧
      (json.Encodable.Marshal ({ SnapshotID := "s" } : LayerTree.ReplaySnapshotParams)).keys =
        ["snapshotId"] := by
  refine ⟨?_, ?_, rfl, rfl, rfl, rfl⟩
  · intro v
    simp [json.Encodable.Marshal, json.Value.keys, json.field, json.Encodable.isEmptyValue]
  · intro v
    simp [json.Encodable.Marshal, json.Value.keys, json.field, json.Encodable.isEmptyValue]

/-- C19 (what the code does): every `SetCustomObjectFormatterEnabledParams`
encodes to an object with exactly the members `result` and
`exceptionDetails`; there is no member `enabled`. -/
theorem runtime.SetCustomObjectFormatterEnabledParams_members
    (v : runtime.SetCustomObjectFormatterEnabledParams) :
    (json.Encodable.Marshal v).keys = ["result", "exceptionDetails"] ∧
      (json.Encodable.Marshal v).member "enabled" = none := by
  constructor
  · rfl
  · simp [json.Encodable.Marshal, json.Value.member, json.field, json.Encodable.isEmptyValue,
      List.lookup]

/-- C20 (what the code does): `UnserializableValue` is an `int`. For every string
`s`, so for each of the allowed values `Infinity`, `NaN`, `-Infinity` and `-0`
of its documentation, decoding a wire object that carries
`unserializableValue: s` into a `RemoteObject` or a `CallArgument` reports an
error; the field is left at 0, so that re-encoding has no member
`unserializableValue`; and no value of either type encodes to the string. At
the wire object of the number `NaN` the decoder fills in the other members
and leaves the field at 0. -/
theorem runtime.UnserializableValue_string_is_not_decoded (s : String) :
    (∀ members target, ("unserializableValue", json.Value.string s) ∈ members →
        (runtime.RemoteObject.Unmarshal (.object members) target).2 ≠ error.nil) ∧
      (∀ members target, ("unserializableValue", json.Value.string s) ∈ members →
        (runtime.CallArgument.Unmarshal (.object members) target).2 ≠ error.nil) ∧
      (runtime.RemoteObject.Unmarshal
        (.object [("unserializableValue", .string s)]) {}).1.UnserializableValue = 0 ∧
      (json.Encodable.Marshal (runtime.RemoteObject.Unmarshal
        (.object [("unserializableValue", .string s)]) {}).1).member "unserializableValue" =
          none ∧
      (∀ o : runtime.RemoteObject,
        (json.Encodable.Marshal o).member "unserializableValue" ≠ some (.string s)) ∧
      (∀ o : runtime.CallArgument,
        (json.Encodable.Marshal o).member "unserializableValue" ≠ some (.string s)) ∧
      (runtime.RemoteObject.Unmarshal
          (.object [("type", .string "number"), ("unserializableValue", .string "NaN"),
            ("description", .string "NaN")]) {}).1 =
        { Type_ := "number", Description := "NaN" } := by
  have hset1 : ∀ o : runtime.RemoteObject,
      (runtime.RemoteObject.set o "unserializableValue" (.string s)).2 ≠ error.nil := by
    intro o
    have : (runtime.RemoteObject.set o "unserializableValue" (.string s)).2 =
        json.typeError (.string s) "runtime.UnserializableValue" := rfl
    rw [this]
    simp [json.typeError]
  have hset2 : ∀ o : runtime.CallArgument,
      (runtime.CallArgument.set o "unserializableValue" (.string s)).2 ≠ error.nil := by
    intro o
    have : (runtime.CallArgument.set o "unserializableValue" (.string s)).2 =
        json.typeError (.string s) "runtime.UnserializableValue" := rfl
    rw [this]
    simp [json.typeError]
  refine ⟨?_, ?_, rfl, rfl, ?_, ?_, rfl⟩
  · intro members target hmem
    exact json.unmarshalStruct_error _ _ _ _ hset1 members hmem target
  · intro members target hmem
    exact json.unmarshalStruct_error _ _ _ _ hset2 members hmem target
  · intro o
    simp only [json.Encodable.Marshal, json.Value.member, List.append_assoc]
    rw [json.lookup_field_other "unserializableValue" "type" (by decide), json.lookup_field_other "unserializableValue" "subtype" (by decide),
      json.lookup_field_other "unserializableValue" "className" (by decide), json.lookup_field_other "unserializableValue" "value" (by decide),
      json.lookup_field_same]
    split
    · rw [json.lookup_field_other "unserializableValue" "description" (by decide), json.lookup_field_other "unserializableValue" "objectId" (by decide),
        json.lookup_field_other "unserializableValue" "preview" (by decide), json.lookup_field_last "unserializableValue" "customPreview" (by decide)]
      simp
    · simp [json.Encodable.Marshal]
  · intro o
    simp only [json.Encodable.Marshal, json.Value.member, List.append_assoc]
    rw [json.lookup_field_other "unserializableValue" "value" (by decide), json.lookup_field_same]
    split
    · rw [json.lookup_field_last "unserializableValue" "objectId" (by decide)]
      simp
    · simp [json.Encodable.Marshal]

/-! ## Errors: failure, kinds, and the search loop of GetCaller -/

theorem errors.sprintfError_nil_caller (Msg cause : String) :
    errors.sprintfError none Msg cause = ":: - " ++ Msg ++ "; " ++ cause := by
  have h : ("" : String) ++ ":" ++ "" ++ ":" ++ "" ++ " - " = ":: - " := by decide
  simp only [errors.sprintfError, GoMap.get, h]

theorem errors.GetCaller.loop_spec (rt : errors.Runtime) (k a : Nat) (hk : a + k = 100)
    (ha : 1 ≤ a) :
    ∃ n, a ≤ n ∧ n ≤ 100 ∧
      errors.GetCaller.probes rt a = List.range' a (n + 1 - a) ∧
      (∀ b, a ≤ b → b < n → rt.Caller b = none) ∧
      (((rt.Caller n).isSome ∧
          errors.GetCaller.loop rt none a = .error "assignment to entry in nil map") ∨
        (n = 100 ∧ rt.Caller 100 = none ∧ errors.GetCaller.loop rt none a = .ok none)) := by
  induction k generalizing a with
  | zero =>
    have ha100 : a = 100 := by omega
    subst ha100
    rcases hc : rt.Caller 100 with _ | fr
    · refine ⟨100, le_refl _, le_refl _, ?_, fun b hb hb2 => by omega, Or.inr ⟨rfl, rfl, ?_⟩⟩
      · rw [errors.GetCaller.probes, hc]
        simp
      · rw [errors.GetCaller.loop, hc]
        simp
    · refine ⟨100, le_refl _, le_refl _, ?_, fun b hb hb2 => by omega, Or.inl ⟨by simp [hc], ?_⟩⟩
      · rw [errors.GetCaller.probes, hc]
        simp
      · rw [errors.GetCaller.loop, hc]
        rfl
  | succ k ih =>
    rcases hc : rt.Caller a with _ | fr
    · obtain ⟨n, han, hn, hp, hnone, hres⟩ := ih (a + 1) (by omega) (by omega)
      have hlt : ¬ a + 1 > 100 := by omega
      refine ⟨n, by omega, hn, ?_, ?_, ?_⟩
      · rw [errors.GetCaller.probes, hc]
        simp only [hlt, if_false, hp]
        have : n + 1 - a = (n + 1 - (a + 1)) + 1 := by omega
        rw [this, List.range'_succ]
      · intro b hb hb2
        rcases Nat.eq_or_lt_of_le hb with h | h
        · exact h ▸ hc
        · exact hnone b h hb2
      · have hl : errors.GetCaller.loop rt none a = errors.GetCaller.loop rt none (a + 1) := by
          rw [errors.GetCaller.loop, hc]
          simp [hlt]
        rw [hl]
        exact hres
    · refine ⟨a, le_refl _, by omega, ?_, fun b hb hb2 => by omega, Or.inl ⟨by simp [hc], ?_⟩⟩
      · rw [errors.GetCaller.probes, hc]
        simp
      · rw [errors.GetCaller.loop, hc]
        rfl

/-- C21 (as amended): `Type.Error()` returns a string exactly when the `Error()`
of the wrapped cause does. It fails when `Err` is nil; for a cause that
renders the text `c` it returns `<pc>:<file>:<line> - <Msg>; c`, where an entry
missing from the `Caller` map, or any entry of a nil map, reads as the empty
string, so that a nil `Caller` gives `:: - <Msg>; c`; a cause from outside
the package always renders. -/
theorem errors.Error_returns_iff_cause_renders (t : errors.ErrType) :
    ((∃ s, t.Error = .ok s) ↔ ∃ c, t.Err.Error = .ok c) ∧
      (t.Err = error.nil → ∀ s, t.Error ≠ .ok s) ∧
      (∀ c, t.Err.Error = .ok c →
        t.Error = .ok (t.Caller.get "pc" ++ ":" ++ t.Caller.get "file" ++ ":" ++
          t.Caller.get "line" ++ " - " ++ t.Msg ++ "; " ++ c)) ∧
      (∀ c, t.Err.Error = .ok c → t.Caller = none →
        t.Error = .ok (":: - " ++ t.Msg ++ "; " ++ c)) ∧
      (∀ key, (∀ entries, t.Caller = some entries → entries.lookup key = none) →
        t.Caller.get key = "") ∧
      (∀ text, t.Err = error.foreign text → ∃ s, t.Error = .ok s) := by
  have hok : ∀ c, t.Err.Error = .ok c →
      t.Error = .ok (errors.sprintfError t.Caller t.Msg c) := by
    intro c hc
    simp [errors.ErrType.Error, hc]
  refine ⟨⟨?_, ?_⟩, ?_, ?_, ?_, ?_, ?_⟩
  · rintro ⟨s, hs⟩
    rcases hc : t.Err.Error with p | c
    · simp [errors.ErrType.Error, hc] at hs
    · exact ⟨c, rfl⟩
  · rintro ⟨c, hc⟩
    exact ⟨_, hok c hc⟩
  · intro hnil s hs
    simp [errors.ErrType.Error, hnil, error.Error] at hs
  · intro c hc
    rw [hok c hc]
    rfl
  · intro c hc hcaller
    rw [hok c hc, hcaller, errors.sprintfError_nil_caller]
  · intro key hkey
    rcases hcal : t.Caller with _ | entries
    · rfl
    · simp [GoMap.get, hkey entries hcal]
  · intro text htext
    exact ⟨_, hok text (by rw [htext]; rfl)⟩

/-- Counterexample to C21: a `Type` whose cause is a `SocketReadFailed` with a
nil cause of its own has a non-nil `Err`, and its `Error()` fails. -/
theorem errors.Error_fails_with_present_cause :
    ¬ ∀ t : errors.ErrType, (∀ s, t.Error ≠ .ok s) ↔ t.Err = error.nil := by
  intro h
  have h1 := (h { Caller := none,
                  Err := errors.SocketReadFailed { Caller := none, Err := error.nil, Msg := "read" },
                  Msg := "send" }).1
    (by intro s hs; simp [errors.ErrType.Error, errors.SocketReadFailed, error.Error] at hs)
  simp [errors.SocketReadFailed] at h1

/-- C22: for every `Caller` map, message and cause, the three kinds built from
the same fields give the same result of `Error()` (the same text, or the same
failure), which is also that of `Type.Error` on the fields; yet the three
values are pairwise different, so only the type of the value tells the kind. -/
theorem errors.Error_text_independent_of_kind (t : errors.ErrType) :
    (errors.SocketReadFailed t).Error = t.Error ∧
      (errors.SocketWriteFailed t).Error = t.Error ∧
      (errors.SocketErrorResponse t).Error = t.Error ∧
      errors.SocketReadFailed t ≠ errors.SocketWriteFailed t ∧
      errors.SocketReadFailed t ≠ errors.SocketErrorResponse t ∧
      errors.SocketWriteFailed t ≠ errors.SocketErrorResponse t := by
  refine ⟨?_, ?_, ?_, ?_, ?_, ?_⟩
  · simp only [errors.SocketReadFailed, error.Error, errors.ErrType.Error]
  · simp only [errors.SocketWriteFailed, error.Error, errors.ErrType.Error]
  · simp only [errors.SocketErrorResponse, error.Error, errors.ErrType.Error]
  · simp [errors.SocketReadFailed, errors.SocketWriteFailed]
  · simp [errors.SocketReadFailed, errors.SocketErrorResponse]
  · simp [errors.SocketWriteFailed, errors.SocketErrorResponse]

/-- C23: for every call stack the search loop of `GetCaller` ends after `n` calls
of `runtime.Caller`, with `n` between 1 and 100: the depths probed are
1, 2, ..., `n` in this order; no depth before `n` resolves; and either `n`
resolves, where the loop stops (on the write to the nil map), or `n` is 100,
no depth resolved, and `GetCaller` returns the nil map. -/
theorem errors.GetCaller_probes_in_order (rt : errors.Runtime) :
    ∃ n, 1 ≤ n ∧ n ≤ 100 ∧
      errors.GetCaller.probes rt 1 = List.range' 1 n ∧
      (∀ b, 1 ≤ b → b < n → rt.Caller b = none) ∧
      (((rt.Caller n).isSome ∧
          errors.GetCaller rt = .error "assignment to entry in nil map") ∨
        (n = 100 ∧ rt.Caller 100 = none ∧ errors.GetCaller rt = .ok none)) := by
  obtain ⟨n, h1, h2, h3, h4, h5⟩ := errors.GetCaller.loop_spec rt 99 1 rfl (le_refl _)
  exact ⟨n, h1, h2, by simpa using h3, h4, h5⟩

/-! ## Wrappers: a command without result, a payload that does not decode -/

theorem sendAndDecode_no_result (command : Command P) (socket : Socket σ ω P)
    (T : ResultType σ P R) (s : σ)
    (h : (socket.SendCommand command s).1.Err = error.nil)
    (hr : (socket.SendCommand command s).1.Result = none) :
    (sendAndDecode command socket T).run s =
      ((T.zero, error.nil), (socket.SendCommand command s).2) := by
  rcases hs : socket.SendCommand command s with ⟨c, s1⟩
  rw [hs] at h hr
  simp only at h hr
  simp [sendAndDecode, StateT.run, bind, StateT.bind, pure, StateT.pure, hs, h, hr]

theorem sendAndDecode_error_origin (command : Command P) (socket : Socket σ ω P)
    (T : ResultType σ P R) (s : σ)
    (h : ((sendAndDecode command socket T).run s).1.2 ≠ error.nil) :
    (socket.SendCommand command s).1.Err ≠ error.nil ∨
      ∃ r, (socket.SendCommand command s).1.Result = some r ∧
        ((T.Marshal r (socket.SendCommand command s).2).1.2 ≠ error.nil ∨
          (T.Unmarshal (T.Marshal r (socket.SendCommand command s).2).1.1 T.zero
            (T.Marshal r (socket.SendCommand command s).2).2).1.2 ≠ error.nil) := by
  by_cases he : (socket.SendCommand command s).1.Err = error.nil
  · right
    rcases hres : (socket.SendCommand command s).1.Result with _ | r
    · rw [sendAndDecode_no_result command socket T s he hres] at h
      exact absurd rfl h
    · refine ⟨r, rfl, ?_⟩
      rw [sendAndDecode_payload command socket T s r he hres] at h
      by_cases hm : (T.Marshal r (socket.SendCommand command s).2).1.2 = error.nil
      · right
        intro hu
        simp [hm, hu] at h
      · exact Or.inl hm
  · exact Or.inl he

theorem decodeAndCall_failed (T : EventType ω E) (callback : E → StateM ω Unit)
    (name : String) (params : Bytes) (w w1 : ω) (event : E) (err : error)
    (h : T.Unmarshal params T.zero w = ((event, err), w1)) (herr : err ≠ error.nil) :
    decodeAndCall T callback name params w = T.logError err w1 := by
  simp [decodeAndCall, bind, StateT.bind, h, herr]

/-- C24: every result-returning command wrapper, when the dispatcher completes
its command with no error and no result payload, returns the zero value of
its result type and a nil error, without calling the codec; and whenever a
wrapper returns a non-nil error, either the command carried an error, or it
carried a payload and encoding it or decoding the encoding failed. -/
theorem result_wrapper_without_result
    (e : Documented (ResultWrapper σ ω P R)) (he : e ∈ resultCommands) (params : P) :
    ∃ command : Command P, ∀ (socket : Socket σ ω P) (T : ResultType σ P R) (s : σ),
      ((socket.SendCommand command s).1.Err = error.nil →
        (socket.SendCommand command s).1.Result = none →
        (e.wrapper.call socket params T).run s =
          ((T.zero, error.nil), (socket.SendCommand command s).2)) ∧
      (((e.wrapper.call socket params T).run s).1.2 ≠ error.nil →
        (socket.SendCommand command s).1.Err ≠ error.nil ∨
          ∃ r, (socket.SendCommand command s).1.Result = some r ∧
            ((T.Marshal r (socket.SendCommand command s).2).1.2 ≠ error.nil ∨
              (T.Unmarshal (T.Marshal r (socket.SendCommand command s).2).1.1 T.zero
                (T.Marshal r (socket.SendCommand command s).2).2).1.2 ≠ error.nil)) := by
  refine ⟨{ Method := e.wireName "#method-", Params := e.wrapper.paramsGiven params }, ?_⟩
  intro socket T s
  rw [resultCommands_shape e he]
  exact ⟨sendAndDecode_no_result _ socket T s, sendAndDecode_error_origin _ socket T s⟩

/-- Witness of C24: `Network.CanClearBrowserCache` on a dispatcher that completes
the command with nothing returns the zero value and a nil error; the codec
(which would move the state by 10 and by 100) has not run. -/
theorem result_wrapper_without_result_witness :
    (Network.CanClearBrowserCache Demo.silent Demo.lengths).run 0 = ((0, error.nil), 1) := by
  obtain ⟨command, h⟩ := result_wrapper_without_result
    (⟨"Network", "CanClearBrowserCache",
      "https://chromedevtools.github.io/devtools-protocol/tot/Network/#method-canClearBrowserCache",
      .noParams Network.CanClearBrowserCache⟩ : Documented (ResultWrapper Nat Nat String Nat))
    (by simp [resultCommands]) ""
  exact (h Demo.silent Demo.lengths 0).1 rfl rfl

/-- C25: for every event wrapper, the handler it registers, invoked with any
event name and a raw payload whose decoding reports an error, does exactly
what logging that error does from the state the decoding left: the caller's
callback is not invoked, and the handler returns. -/
theorem event_handler_logs_decode_error
    (e : Documented (EventWrapper (σ × List (SocketCall ω P)) ω P E)) (he : e ∈ eventWrappers)
    (socket : Socket σ ω P) (T : EventType ω E) (callback : E → StateM ω Unit) (s : σ) :
    ∃ handler : EventHandler ω,
      ((e.wrapper socket.recording T callback).run (s, [])).2.2 =
          [SocketCall.AddEventHandler handler] ∧
        ∀ (name : String) (params : Bytes) (w w1 : ω) (event : E) (err : error),
          T.Unmarshal params T.zero w = ((event, err), w1) → err ≠ error.nil →
          handler.Callback name params w = T.logError err w1 := by
  refine ⟨NewEventHandler (e.wireName "#event-") (decodeAndCall T callback), ?_, ?_⟩
  · rw [eventWrappers_shape e he]
    rfl
  · intro name params w w1 event err h herr
    exact decodeAndCall_failed T callback name params w w1 event err h herr

/-- Witness of C25: the handler of `Network.OnLoadingFailed`, invoked with an
empty payload from state 10, leaves the state at 10: the callback, which
would add the event, has not run. -/
theorem event_handler_logs_decode_error_witness :
    ∃ handler : EventHandler Nat,
      ((Network.OnLoadingFailed (P := String) Demo.refusing.recording Demo.firstByte
          Demo.addEvent).run (0, [])).2.2 = [SocketCall.AddEventHandler handler] ∧
        handler.Callback "Network.loadingFailed" [] 10 = ((), 10) := by
  obtain ⟨handler, hlog, hcall⟩ := event_handler_logs_decode_error
    (⟨"Network", "OnLoadingFailed",
      "https://chromedevtools.github.io/devtools-protocol/tot/Network/#event-loadingFailed",
      Network.OnLoadingFailed⟩ :
      Documented (EventWrapper (Nat × List (SocketCall Nat String)) Nat String Nat))
    (by simp [eventWrappers]) Demo.refusing Demo.firstByte Demo.addEvent 0
  exact ⟨handler, hlog,
    hcall "Network.loadingFailed" [] 10 10 0 (error.foreign "unexpected end of JSON input")
      rfl (by simp)⟩

/-! ## Tabs: the request of NewTab and its failures -/

/-- The three ways `NewTab` ends: the request fails; the request succeeds and
the socket does not open; both succeed and the tab is appended. -/
theorem Browser.NewTab_run {W B S : Type} (chrome : Chrome W B S) (browser : B) (uri : String)
    (st : Browser B S × W) :
    (Browser.NewTab chrome browser uri).run st =
      (let c := chrome.Cmd browser
          ("/json/new?" ++ QueryEscape (if "" = uri then "about:blank" else uri)) [] {} st
       if c.1.2 ≠ error.nil then ((none, c.1.2), c.2)
       else
         let n := chrome.New c.1.1.WebSocketDebuggerURL c.2.2
         if n.1.2 ≠ error.nil then ((none, n.1.2), (c.2.1, n.2))
         else
           ((some { browser := browser, data := c.1.1, socket := n.1.1 }, error.nil),
             ({ c.2.1 with
                  tabs := c.2.1.tabs ++ [{ browser := browser, data := c.1.1, socket := n.1.1 }] },
               n.2))) := by
  rcases hc : chrome.Cmd browser
      ("/json/new?" ++ QueryEscape (if "" = uri then "about:blank" else uri)) [] {} st with
    ⟨⟨data, e1⟩, st1⟩
  rcases hn : chrome.New data.WebSocketDebuggerURL st1.2 with ⟨⟨socket, e2⟩, w2⟩
  by_cases h1 : e1 = error.nil <;> by_cases h2 : e2 = error.nil <;>
  simp [Browser.NewTab, StateT.run, bind, StateT.bind, pure, StateT.pure, Tab.Browser, Tab.Data,
    hc, hn, h1, h2, modify, modifyGet, MonadStateOf.modifyGet, StateT.modifyGet,
    @eq_comm _ error.nil]

/-- C26: `NewTab("")` is `NewTab("about:blank")`; and for every non-empty `uri`,
every browser endpoint and every state, `NewTab` issues exactly one request
to the browser, with the path `/json/new?` followed by the query-escaped
`uri` and with empty form values; for the empty `uri` the request is
`/json/new?about%3Ablank`. -/
theorem Browser.NewTab_request {W B S : Type} (chrome : Chrome W B S) (browser : B) (uri : String)
    (st : Browser B S × W) (huri : uri ≠ "") :
    Browser.NewTab chrome browser "" = Browser.NewTab chrome browser "about:blank" ∧
      ((Browser.NewTab chrome.recording browser uri).run (st.1, (st.2, []))).2.2.2 =
        [("/json/new?" ++ QueryEscape uri, [])] ∧
      ((Browser.NewTab chrome.recording browser "").run (st.1, (st.2, []))).2.2.2 =
        [("/json/new?about%3Ablank", [])] := by
  have hlog : ∀ u : String,
      ((Browser.NewTab chrome.recording browser u).run (st.1, (st.2, []))).2.2.2 =
        [("/json/new?" ++ QueryEscape (if "" = u then "about:blank" else u), [])] := by
    intro u
    rw [Browser.NewTab_run]
    generalize "/json/new?" ++ QueryEscape (if "" = u then "about:blank" else u) = path
    simp only [Chrome.recording]
    split_ifs <;> rfl
  refine ⟨rfl, ?_, ?_⟩
  · rw [hlog uri, if_neg (fun h => huri h.symm)]
  · rw [hlog ""]
    rfl

/-- Witness of C26: a uri with a space and a slash. -/
theorem Browser.NewTab_request_witness :
    ((Browser.NewTab Demo.chrome.recording 1 "http://a b/").run ({ tabs := [] }, (0, []))).2.2.2 =
      [("/json/new?http%3A%2F%2Fa+b%2F", [])] :=
  (Browser.NewTab_request Demo.chrome 1 "http://a b/" ({ tabs := [] }, 0) (by decide)).2.1

/-- C27: with `(data, e1)` what the new-tab request returns and `st1` the state
it leaves, in which the browser's list of tabs is the one of before (the
request itself does not touch it). If the request fails, `NewTab` returns a nil tab and
that error, and the socket is not opened (the state is `st1`); if the request
succeeds and opening the socket fails, `NewTab` returns a nil tab and that
error. In both cases, and whenever `NewTab` returns a non-nil error, the
browser's list of tabs is what it was before the call. -/
theorem Browser.NewTab_failure_keeps_tabs {W B S : Type} (chrome : Chrome W B S) (browser : B)
    (uri : String) (st st1 : Browser B S × W) (data : TabData) (e1 : error)
    (hcmd : chrome.Cmd browser
        ("/json/new?" ++ QueryEscape (if "" = uri then "about:blank" else uri)) [] {} st =
      ((data, e1), st1))
    (hkeep : st1.1.tabs = st.1.tabs) :
    (e1 ≠ error.nil → (Browser.NewTab chrome browser uri).run st = ((none, e1), st1)) ∧
      (e1 = error.nil → (chrome.New data.WebSocketDebuggerURL st1.2).1.2 ≠ error.nil →
        ((Browser.NewTab chrome browser uri).run st).1 =
          (none, (chrome.New data.WebSocketDebuggerURL st1.2).1.2)) ∧
      (((Browser.NewTab chrome browser uri).run st).1.2 ≠ error.nil →
        ((Browser.NewTab chrome browser uri).run st).1.1 = none ∧
          ((Browser.NewTab chrome browser uri).run st).2.1.tabs = st.1.tabs) := by
  rw [Browser.NewTab_run]
  rcases hn : chrome.New data.WebSocketDebuggerURL st1.2 with ⟨⟨socket, e2⟩, w2⟩
  by_cases h1 : e1 = error.nil <;> by_cases h2 : e2 = error.nil <;>
  simp [hcmd, hn, h1, h2, hkeep]

/-- Witness of C27: the request fails on the offline endpoint; the socket does
not open on the other; the list of tabs is untouched. -/
theorem Browser.NewTab_failure_keeps_tabs_witness :
    (Browser.NewTab Demo.offline 1 "").run ({ tabs := [] }, 0) =
        ((none, error.foreign "connection refused"), ({ tabs := [] }, 0)) ∧
      ((Browser.NewTab Demo.noSocket 1 "").run ({ tabs := [] }, 0)).1 =
        (none, error.foreign "bad handshake") ∧
      ((Browser.NewTab Demo.noSocket 1 "").run ({ tabs := [] }, 0)).2.1.tabs = [] :=
  ⟨(Browser.NewTab_failure_keeps_tabs Demo.offline 1 "" ({ tabs := [] }, 0) _ _ _
      rfl rfl).1 (by simp),
    (Browser.NewTab_failure_keeps_tabs Demo.noSocket 1 "" ({ tabs := [] }, 0) _ _ _
      rfl rfl).2.1 rfl (by simp [Demo.noSocket]),
    ((Browser.NewTab_failure_keeps_tabs Demo.noSocket 1 "" ({ tabs := [] }, 0) _ _ _
      rfl rfl).2.2 (by simp [Browser.NewTab_run, Demo.noSocket])).2⟩

end GoChrome
